import Mathlib

/-!
Verification of the redis_mutator repository (src/mutator.py, src/conv.py,
src/oldconv.py) against its natural-language specification.

Modelling conventions, used throughout:
* Byte strings (Python `bytes`) are `List Nat`, each element a byte value.
* Python `str` values are `List Nat` of Unicode code points.
* Python slice and `find`/`index` semantics (including negative indices)
  are modelled explicitly by `pyIdx` / `pySliceII` / `findCRLFFrom`.
* The two pseudo-random sources of mutator.py (the per-call `rng` object
  and the process-global `random` module) are modelled as two independent
  oracle streams of natural numbers with a cursor; each primitive draw
  consumes one stream element.  `r.random()` values in [0,1) are modelled
  in millionths (a draw reduced mod 10^6), so a comparison
  `r.random() < 0.3` becomes `draw % 1000000 < 300000`.  The claims
  settled here depend only on the branching structure and determinism of
  the draws, never on the distribution of Python's Mersenne Twister.
* Loops whose index variable is mutated non-structurally are written with
  an explicit fuel argument; at every use site the supplied fuel is shown
  (in a comment) to dominate the number of iterations the Python loop
  performs, except where non-termination of the Python loop itself is the
  point being proved.
-/

/-- Unicode code points of a Lean string literal; used to write the Python
string literals of the source compactly. -/
def pstr (s : String) : List Nat := s.data.map Char.toNat

/-- ASCII lower-casing of one code unit.  `bytes.lower()` in Python is
ASCII-only, which this models exactly; `str.lower()` additionally folds
non-ASCII letters, which never occur in the operation names this is
applied to. -/
def asciiLowerByte (b : Nat) : Nat := if 65 ≤ b ∧ b ≤ 90 then b + 32 else b

/-- ASCII upper-casing of one code unit (see `asciiLowerByte`). -/
def asciiUpperByte (b : Nat) : Nat := if 97 ≤ b ∧ b ≤ 122 then b - 32 else b

def asciiLower (l : List Nat) : List Nat := l.map asciiLowerByte

def asciiUpper (l : List Nat) : List Nat := l.map asciiUpperByte

/-- Decimal digits (ASCII, most significant first) of a natural number,
as produced by Python `str`. -/
def natStr (n : Nat) : List Nat :=
  if n = 0 then [48] else ((Nat.digits 10 n).map (· + 48)).reverse

/-- Decimal rendering of an integer, as produced by Python `str`. -/
def intStr (i : Int) : List Nat :=
  if i < 0 then 45 :: natStr i.natAbs else natStr i.natAbs

/-- Value of a big-endian ASCII digit list. -/
def decVal (l : List Nat) : Nat := l.foldl (fun a d => 10 * a + (d - 48)) 0

/-- Clamp one endpoint of a Python slice `l[a:b]` to an absolute index:
negative endpoints count from the end, and both ends are clamped to
`[0, n]`. -/
def pyIdx (n : Nat) (i : Int) : Nat :=
  if i < 0 then (if i + n < 0 then 0 else (i + n).toNat) else min i.toNat n

/-- Python slice `l[a:b]` with full Python semantics for `Int` endpoints. -/
def pySliceII {α : Type} (l : List α) (a b : Int) : List α :=
  (l.take (pyIdx l.length b)).drop (pyIdx l.length a)

/-- Index of the first occurrence of CRLF in a byte list. -/
def findCRLF : List Nat → Option Nat
  | [] => none
  | a :: t =>
    if a = 13 ∧ t.head? = some 10 then some 0 else (findCRLF t).map (· + 1)

/-- `data.find(b"\r\n", i)` / `data.index(b"\r\n", i)`: first absolute
index (counted from the start of `l`) of a CRLF pair at or after the
slice-clamped start `i`.  Python's `find` returns -1 when absent,
modelled as `none`. -/
def findCRLFFrom (l : List Nat) (i : Int) : Option Nat :=
  (findCRLF (l.drop (pyIdx l.length i))).map (pyIdx l.length i + ·)

def isPyIntWs (b : Nat) : Bool := b = 32 ∨ b = 9 ∨ b = 10 ∨ b = 13 ∨ b = 11 ∨ b = 12

/-- Does `needle` start `hay`? -/
def startsList : List Nat → List Nat → Bool
  | [], _ => true
  | _ :: _, [] => false
  | a :: t, b :: h => a = b ∧ startsList t h

/-- Python `needle in hay` for bytes: contiguous substring test (true for
an empty needle). -/
def bytesContains (hay needle : List Nat) : Bool :=
  match hay with
  | [] => needle.isEmpty
  | _ :: t => startsList needle hay || bytesContains t needle

/-- Core of Python `int(...)`: optional sign then a nonempty run of
decimal digits.  (Underscore digit grouping, accepted by Python between
digits, never occurs in the byte strings these theorems evaluate on and
is not modelled.) -/
def pyDigs (d : List Nat) : Option Nat :=
  if d ≠ [] ∧ d.all (fun b => 48 ≤ b ∧ b ≤ 57) then some (decVal d) else none

def pyIntCore (l : List Nat) : Option Int :=
  if l.head? = some 45 then (pyDigs l.tail).map (fun n => -(n : Int))
  else if l.head? = some 43 then (pyDigs l.tail).map (fun n => (n : Int))
  else (pyDigs l).map (fun n => (n : Int))

/-- Python `int(bytes)`: surrounding ASCII whitespace is permitted. -/
def pyInt (l : List Nat) : Option Int :=
  pyIntCore ((l.dropWhile isPyIntWs).reverse.dropWhile isPyIntWs |>.reverse)

/- ====================================================================
   src/conv.py — configuration constants
   ==================================================================== -/

def MAX_REPEAT_BLOCKS : Nat := 2
def MIN_BLOCK : Nat := 3
def MAX_BLOCK : Nat := 12
def MAX_ARGS_TOTAL : Nat := 64
def MAX_GEOADD_TRIPLES : Nat := 5
def MAX_ARG_LEN : Nat := 64

/- ====================================================================
   src/conv.py — opcode / shrink_command / collapse_blocks
   ==================================================================== -/

/-- `opcode(argv) = argv[0].lower()`.  Python raises IndexError on an
empty command; every theorem below applies this to nonempty commands
only, and the empty case is given the harmless value `[]`. -/
def opcode (argv : List (List Nat)) : List Nat :=
  match argv with
  | [] => []
  | a :: _ => asciiLower a

/-- `truncate_arg`: arguments longer than MAX_ARG_LEN are cut and marked
with a trailing `...`. -/
def truncate_arg (a : List Nat) : List Nat :=
  if a.length ≤ MAX_ARG_LEN then a else a.take MAX_ARG_LEN ++ pstr "..."

/-- `shrink_command`: GEOADD triple capping, hard argument-count cap,
per-argument truncation. -/
def shrink_command (argv : List (List Nat)) : List (List Nat) :=
  let argv :=
    if opcode argv = pstr "geoadd" ∧ argv.length > 5 then
      argv.take 1 ++ pySliceII argv 1 2 ++ (argv.drop 2).take (MAX_GEOADD_TRIPLES * 3)
    else argv
  (argv.take MAX_ARGS_TOTAL).map truncate_arg

/-- The inner `while` of `collapse_blocks`: starting from `reps`, count
how many adjacent copies of `block` (`ops[i+reps*size : i+(reps+1)*size]
== block`) follow.  Fuel note: every call below has `block.length = size
> 0`, so each successful comparison needs `i + reps*size + size ≤
ops.length`; hence at most `ops.length` comparisons succeed and fuel
`ops.length + 1` never runs out before the loop's own exit. -/
def repsGo (ops : List (List Nat)) (i size : Nat) (block : List (List Nat)) :
    Nat → Nat → Nat
  | reps, 0 => reps
  | reps, fuel + 1 =>
    if (ops.drop (i + reps * size)).take size = block then
      repsGo ops i size block (reps + 1) fuel
    else reps

/-- `range(MIN_BLOCK, MAX_BLOCK + 1)`. -/
def sizeRange : List Nat := List.range' MIN_BLOCK (MAX_BLOCK + 1 - MIN_BLOCK)

/-- The `for size in range(MIN_BLOCK, MAX_BLOCK+1)` loop of
`collapse_blocks` at scan position `i`: the first size whose block of
that exact length repeats more than MAX_REPEAT_BLOCKS times, with its
repetition count.  `block.length < size` (`len(block) < size`) means the
tail is too short and the size is skipped. -/
def firstQual (ops : List (List Nat)) (i : Nat) : List Nat → Option (Nat × Nat)
  | [] => none
  | size :: rest =>
    let block := (ops.drop i).take size
    if block.length < size then firstQual ops i rest
    else
      let reps := repsGo ops i size block 1 (ops.length + 1)
      if MAX_REPEAT_BLOCKS < reps then some (size, reps) else firstQual ops i rest

/-- The outer `while i < len(cmds)` scan of `collapse_blocks`.  On a
collapse the first `MAX_REPEAT_BLOCKS * size` commands of the run are
emitted and `i` advances by `reps * size`; otherwise one command is
emitted and `i` advances by 1.  Fuel note: `i` strictly increases each
iteration (by `reps*size ≥ 9` or by 1), so fuel `cmds.length + 1` never
runs out before `i` reaches `cmds.length`. -/
def collapseGo (cmds : List (List (List Nat))) (ops : List (List Nat)) :
    Nat → Nat → List (List (List Nat))
  | _, 0 => []
  | i, fuel + 1 =>
    if i < cmds.length then
      match firstQual ops i sizeRange with
      | some (size, reps) =>
        (cmds.drop i).take (MAX_REPEAT_BLOCKS * size) ++
          collapseGo cmds ops (i + reps * size) fuel
      | none => (cmds.drop i).take 1 ++ collapseGo cmds ops (i + 1) fuel
    else []

/-- `collapse_blocks(cmds)` from src/conv.py. -/
def collapse_blocks (cmds : List (List (List Nat))) : List (List (List Nat)) :=
  collapseGo cmds (cmds.map opcode) 0 (cmds.length + 1)

/- ====================================================================
   src/oldconv.py — strict RESP decoding (spec: strict decode mode)
   ==================================================================== -/

/-- Result of the strict decoder: the whole-input command list on normal
loop exit, `fail` when the Python code raises (`ValueError` from a
missing marker, a failed `int(...)`, or `bytes.index` not finding CRLF),
`out` when the supplied fuel is exhausted before the loop exits. -/
inductive SRes where
  | done (prog : List (List (List Nat)))
  | fail
  | out
deriving DecidableEq, Repr

/-- The `for _ in range(argc)` body of oldconv.py's `parse_resp`:
`$<len>CRLF` then `len` payload bytes and CRLF are consumed per
argument.  `none` models a raised ValueError. -/
def argsStrict (data : List Nat) : Nat → Int → List (List Nat) →
    Option (List (List Nat) × Int)
  | 0, i, argv => some (argv, i)
  | k + 1, i, argv =>
    if pySliceII data i (i + 1) ≠ [36] then none
    else
      match findCRLFFrom data (i + 1) with
      | none => none
      | some e =>
        match pyInt (pySliceII data (i + 1) e) with
        | none => none
        | some len =>
          argsStrict data k ((e : Int) + 2 + len + 2)
            (argv ++ [pySliceII data ((e : Int) + 2) ((e : Int) + 2 + len)])

/-- The `while i < n` loop of oldconv.py's `parse_resp` (strict mode).
Commands are yielded unconditionally at the end of each frame. -/
def parseStrictGo (data : List Nat) :
    Nat → Int → List (List (List Nat)) → SRes
  | 0, _, _ => .out
  | fuel + 1, i, acc =>
    if i < (data.length : Int) then
      if pySliceII data i (i + 1) ≠ [42] then .fail
      else
        match findCRLFFrom data (i + 1) with
        | none => .fail
        | some e =>
          match pyInt (pySliceII data (i + 1) e) with
          | none => .fail
          | some argc =>
            match argsStrict data argc.toNat ((e : Int) + 2) [] with
            | none => .fail
            | some (argv, next) => parseStrictGo data fuel next (acc ++ [argv])
    else .done acc

/-- oldconv.py `parse_resp` (the strict decoder), run to completion with
the given outer-loop fuel. -/
def parse_resp_strict (fuel : Nat) (data : List Nat) : SRes :=
  parseStrictGo data fuel 0 []

/- ====================================================================
   Binary length-prefixed encoding (render_resp_strict of mutator.py at
   the byte level: `*<argc>CRLF` then `$<len>CRLF<payload>CRLF` per
   argument; with the default STRICT_RESP=1 both branches of the
   source's keep-toggle emit `b + b"\r\n"`).
   ==================================================================== -/

/-- `$<len>CRLF<payload>CRLF` for one argument. -/
def encArg (b : List Nat) : List Nat :=
  [36] ++ natStr b.length ++ [13, 10] ++ b ++ [13, 10]

def encArgs (argv : List (List Nat)) : List Nat := (argv.map encArg).flatten

def encodeCmd (argv : List (List Nat)) : List Nat :=
  [42] ++ natStr argv.length ++ [13, 10] ++ encArgs argv

/-- Binary encoding of a Program of byte-string commands; empty commands
are skipped (`if not argv: continue`). -/
def render_resp_binary (cmds : List (List (List Nat))) : List Nat :=
  ((cmds.filter (fun argv => argv ≠ [])).map encodeCmd).flatten

/- ====================================================================
   src/conv.py — parse_resp (resilient decoder)
   ==================================================================== -/

/-- Result of one run of the inner `for _ in range(argc)` loop of
conv.py's `parse_resp`: the frame completed (`done`, ok stays True),
aborted this command (`brk`, `ok = False` after a missing `$` marker or
an unparsable length), or ended the whole generator (`ret`, a missing
CRLF or a declared length reaching past the end of the buffer). -/
inductive ARes where
  | done (argv : List (List Nat)) (next : Int)
  | brk (next : Int)
  | ret
deriving DecidableEq, Repr

def respArgs (data : List Nat) : Nat → Int → List (List Nat) → ARes
  | 0, i, argv => .done argv i
  | k + 1, i, argv =>
    if (data.length : Int) ≤ i ∨ pySliceII data i (i + 1) ≠ [36] then .brk i
    else
      match findCRLFFrom data (i + 1) with
      | none => .ret
      | some e =>
        match pyInt (pySliceII data (i + 1) e) with
        | none => .brk (i + 1)
        | some len =>
          if (e : Int) + 2 + len + 2 > (data.length : Int) then .ret
          else
            respArgs data k ((e : Int) + 2 + len + 2)
              (argv ++ [pySliceII data ((e : Int) + 2) ((e : Int) + 2 + len)])

/-- The `while i < n` loop of conv.py's `parse_resp` (resilient mode).
Returns `none` when the fuel runs out — i.e. when the Python loop is
still running after `fuel` iterations. -/
def parseRespGo (data : List Nat) :
    Nat → Int → List (List (List Nat)) → Option (List (List (List Nat)))
  | 0, _, _ => none
  | fuel + 1, i, acc =>
    if i < (data.length : Int) then
      if bytesContains [32, 13, 10] (pySliceII data i (i + 1)) then
        parseRespGo data fuel (i + 1) acc
      else if pySliceII data i (i + 1) ≠ [42] then
        match findCRLFFrom data i with
        | none => some acc
        | some e => parseRespGo data fuel ((e : Int) + 2) acc
      else
        match findCRLFFrom data (i + 1) with
        | none => some acc
        | some e =>
          match pyInt (pySliceII data (i + 1) e) with
          | none => parseRespGo data fuel (i + 1) acc
          | some argc =>
            match respArgs data argc.toNat ((e : Int) + 2) [] with
            | .ret => some acc
            | .brk next => parseRespGo data fuel next acc
            | .done argv next =>
              parseRespGo data fuel next
                (acc ++ if argv ≠ [] then [argv] else [])
    else some acc

/-- conv.py `parse_resp` (the resilient decoder), run with the given
outer-loop fuel. -/
def parse_resp (fuel : Nat) (data : List Nat) :
    Option (List (List (List Nat))) :=
  parseRespGo data fuel 0 []

/-- The in-memory core of conv.py's `convert`: resilient decode, block
collapse, per-command shrink, then one space-joined line per command
(the file reading and writing at the edges are not modelled).  `none`
again means the decoding loop was still running after `fuel`
iterations. -/
def convertCore (fuel : Nat) (data : List Nat) : Option (List Nat) :=
  (parse_resp fuel data).map (fun cmds =>
    ((collapse_blocks cmds).map (fun c =>
      (List.intersperse [32] (shrink_command c)).flatten ++ [10])).flatten)

/- ====================================================================
   Lemmas about collapse_blocks
   ==================================================================== -/

theorem le_repsGo (ops : List (List Nat)) (i size : Nat) (block : List (List Nat)) :
    ∀ fuel reps, reps ≤ repsGo ops i size block reps fuel
  | 0, reps => le_rfl
  | fuel + 1, reps => by
    rw [repsGo]
    split
    · exact le_trans (Nat.le_succ reps) (le_repsGo ops i size block fuel (reps + 1))
    · exact le_rfl

theorem firstQual_two_lt {ops : List (List Nat)} {i : Nat} :
    ∀ {sizes : List Nat} {size reps : Nat},
      firstQual ops i sizes = some (size, reps) → MAX_REPEAT_BLOCKS < reps := by
  intro sizes
  induction sizes with
  | nil => intro size reps h; simp [firstQual] at h
  | cons s rest ih =>
    intro size reps h
    rw [firstQual] at h
    simp only [] at h
    split at h
    · exact ih h
    · split at h
      · rcases h with ⟨rfl, rfl⟩
        assumption
      · exact ih h

theorem collapseGo_length (cmds : List (List (List Nat))) (ops : List (List Nat)) :
    ∀ fuel i, (collapseGo cmds ops i fuel).length ≤ cmds.length - i
  | 0, i => by simp [collapseGo]
  | fuel + 1, i => by
    rw [collapseGo]
    split
    · split
      next size reps hq =>
        have h3 : MAX_REPEAT_BLOCKS < reps := firstQual_two_lt hq
        have hmr : MAX_REPEAT_BLOCKS = 2 := rfl
        have h2 : 2 * size ≤ reps * size := Nat.mul_le_mul_right _ (by omega)
        have hr := collapseGo_length cmds ops fuel (i + reps * size)
        simp only [List.length_append, List.length_take, List.length_drop, hmr]
        omega
      next hq =>
        have hr := collapseGo_length cmds ops fuel (i + 1)
        simp only [List.length_append, List.length_take, List.length_drop]
        omega
    · simp

/- ====================================================================
   Concrete inputs used by the claims about conv.py / oldconv.py
   ==================================================================== -/

/-- Ten identical one-argument commands (the command `get`). -/
def c3prog : List (List (List Nat)) := List.replicate 10 [[103, 101, 116]]

/-- Sixteen one-letter commands whose opcodes read `baabaabaaaaaaaaa`:
a `baa`-block run overlapping an `a`-run of nine. -/
def c4word : List (List (List Nat)) := (pstr "baabaabaaaaaaaaa").map (fun b => [[b]])

/-- `b"*x\r\n*1\r\n$4\r\nPING\r\n"`: a malformed array-count header
followed by one well-formed frame. -/
def c5input : List Nat := pstr "*x\x0d\x0a*1\x0d\x0a$4\x0d\x0aPING\x0d\x0a"

/-- `b"*1\r\n$-12\r\n"`: one frame whose declared bulk-string length is
negative, chosen so that `i += length + 2` sends the read position back
to exactly 0. -/
def c7input : List Nat := pstr "*1\x0d\x0a$-12\x0d\x0a"

/-- `b"*2\r\n$3\r\nGET\r\n$999\r\nk\r\n"` (spec Example 2). -/
def c8input : List Nat := pstr "*2\x0d\x0a$3\x0d\x0aGET\x0d\x0a$999\x0d\x0ak\x0d\x0a"

/- ====================================================================
   C3 — reducer worked example
   ==================================================================== -/

/-- C3 (counterexample): on ten identical one-argument commands with
MIN_BLOCK = 3 and keep-count MAX_REPEAT_BLOCKS = 2, `collapse_blocks`
does NOT return six commands, contradicting the claim's count. -/
theorem c3_ten_identical_commands_not_six :
    (collapse_blocks c3prog).length ≠ 6 := by decide

/-- C3 (amended): ten identical one-argument commands collapse to exactly
SEVEN commands: the size-3 block qualifies first with three repetitions
(nine commands), of which 2 × 3 are kept, and the trailing tenth command
is then emitted unchanged. -/
theorem c3_ten_identical_commands_collapse_to_seven :
    collapse_blocks c3prog = List.replicate 7 [[103, 101, 116]] := by decide

/- ====================================================================
   C4 — idempotence of block collapsing
   ==================================================================== -/

/-- C4 (counterexample): `collapse_blocks` is not idempotent.  On the
16-command opcode word `baabaabaaaaaaaaa` the first pass collapses the
`baa`-run (keeping 6 of its 9 commands) and jumps into the middle of the
9-long `a`-run; the output `baabaa` ++ `a`^7 contains a fresh 9-long
`a`-run, which a second pass collapses (13 commands, then 10). -/
theorem c4_collapse_blocks_not_idempotent :
    collapse_blocks (collapse_blocks c4word) ≠ collapse_blocks c4word := by decide

/-- C4 (amended): the block-collapse step need not be idempotent — a
collapse can skip into the middle of an overlapping qualifying run and
reassemble a collapsible run in its output, so a second application can
strictly shrink the result — but every application of `collapse_blocks`
is non-increasing in command count. -/
theorem c4_collapse_blocks_length_le (cmds : List (List (List Nat))) :
    (collapse_blocks cmds).length ≤ cmds.length := by
  have h := collapseGo_length cmds (cmds.map opcode) (cmds.length + 1) 0
  simpa [collapse_blocks] using h

/- ====================================================================
   C5 — convert and strict decoding
   ==================================================================== -/

/-- C5 (counterexample): `convert` does not decode in strict mode and
a grammar violation is not fatal there.  On `c5input` the strict decoder
(oldconv.py) raises, while `convert`'s actual decode path (conv.py's
resilient `parse_resp`) resynchronizes past the bad `*x` header, skips
the noise byte line, and converts the remaining well-formed frame,
producing the line `PING`. -/
theorem c5_convert_decode_not_strict_fatal :
    parse_resp_strict 10 c5input = .fail ∧
      convertCore 10 c5input = some (pstr "PING\x0a") := by decide

/-- C5 (amended): the offline `convert` entry point decodes its input
with the resilient decoder; a grammar violation (here an unparsable
array count) is recovered from by resynchronization and inline-line
skipping rather than surfaced — for any sufficient fuel the conversion
completes successfully on the malformed input. -/
theorem c5_convert_recovers_resiliently (fuel : Nat) :
    convertCore (fuel + 4) c5input = some (pstr "PING\x0a") := rfl

/- ====================================================================
   C7 — resilient-decoder progress and termination
   ==================================================================== -/

/-- One full iteration of the resilient decoder's outer loop on
`c7input`, starting at position 0: the declared length -12 passes the
`i + length + 2 > n` guard (10 - 12 + 2 = 0), an empty argument is
sliced, and `i += length + 2` moves the read position back to exactly 0,
yielding the command `[b""]` — the scan position does not advance. -/
theorem c7_loop_step (fuel : Nat) (acc : List (List (List Nat))) :
    parseRespGo c7input (fuel + 1) 0 acc = parseRespGo c7input fuel 0 (acc ++ [[[]]]) := rfl

theorem c7_loop_aux : ∀ fuel acc, parseRespGo c7input fuel 0 acc = none
  | 0, _ => rfl
  | fuel + 1, acc => by rw [c7_loop_step]; exact c7_loop_aux fuel _

/-- C7: the resilient decoder does NOT terminate on every byte input:
on `b"*1\r\n$-12\r\n"` the read position returns to 0 on every outer
iteration, so no amount of fuel completes the loop (the Python generator
yields `[b""]` forever and `list(parse_resp(...))` hangs). -/
theorem c7_resilient_decoder_nonterminating (fuel : Nat) :
    parse_resp fuel c7input = none :=
  c7_loop_aux fuel []

/- ====================================================================
   C8 — overlong declared length stops decoding
   ==================================================================== -/

/-- C8: resilient decode of `b"*2\r\n$3\r\nGET\r\n$999\r\nk\r\n"` yields
the empty Program for every positive fuel: the declared length 999
reaches past the end of the buffer, decoding stops entirely, and the
partially parsed `GET` command is dropped, not yielded. -/
theorem c8_overlong_length_yields_empty_program (fuel : Nat) :
    parse_resp (fuel + 1) c8input = some [] := rfl

/- ====================================================================
   Decimal and slice lemmas for the round-trip proof (C2)
   ==================================================================== -/

theorem natStr_ne_nil (n : Nat) : natStr n ≠ [] := by
  unfold natStr
  split
  · simp
  · simp [Nat.digits_ne_nil_iff_ne_zero, *]

theorem natStr_mem {n : Nat} : ∀ b ∈ natStr n, 48 ≤ b ∧ b ≤ 57 := by
  intro b hb
  unfold natStr at hb
  split at hb
  · simp at hb; omega
  next h =>
    simp only [List.mem_reverse, List.mem_map] at hb
    obtain ⟨d, hd, rfl⟩ := hb
    have := Nat.digits_lt_base (by norm_num) hd
    omega

theorem decVal_aux (ds : List Nat) (a : Nat) :
    List.foldl (fun a d => 10 * a + (d - 48)) a ((ds.map (· + 48)).reverse)
      = a * 10 ^ ds.length + Nat.ofDigits 10 ds := by
  induction ds generalizing a with
  | nil => simp
  | cons d ds ih =>
    simp only [List.map_cons, List.reverse_cons, List.foldl_append, List.foldl_cons,
      List.foldl_nil, ih, Nat.ofDigits_cons, List.length_cons]
    have h48 : d + 48 - 48 = d := by omega
    rw [h48]
    ring

theorem decVal_natStr (n : Nat) : decVal (natStr n) = n := by
  unfold natStr decVal
  split
  · simp [*]
  · rw [decVal_aux]
    simpa using Nat.ofDigits_digits 10 n

theorem pyInt_natStr (n : Nat) : pyInt (natStr n) = some (n : Int) := by
  have hmem := @natStr_mem n
  have hne := natStr_ne_nil n
  have hdw : ∀ (l : List Nat), (∀ b ∈ l, 48 ≤ b ∧ b ≤ 57) → l.dropWhile isPyIntWs = l := by
    intro l hl
    cases l with
    | nil => rfl
    | cons x t =>
      rw [List.dropWhile_cons_of_neg]
      have := hl x (by simp)
      simp [isPyIntWs]; omega
  unfold pyInt
  rw [hdw _ hmem, hdw _ (by intro b hb; exact hmem b (by simpa using hb)), List.reverse_reverse]
  unfold pyIntCore
  obtain ⟨x, t, hxt⟩ : ∃ x t, natStr n = x :: t := by
    cases h : natStr n with
    | nil => exact absurd h hne
    | cons x t => exact ⟨x, t, rfl⟩
  have hx := hmem x (by rw [hxt]; simp)
  rw [hxt]
  rw [if_neg (by simp; omega), if_neg (by simp; omega)]
  rw [← hxt]
  unfold pyDigs
  rw [if_pos (by constructor; exact hne; simp only [List.all_eq_true, decide_eq_true_eq]; exact hmem)]
  simp [decVal_natStr]

theorem pyIdx_natCast (n a : Nat) : pyIdx n (a : Int) = min a n := by
  unfold pyIdx
  rw [if_neg (by simp)]
  simp

theorem pySlice_nn {α : Type} (l : List α) (a b : Nat) :
    pySliceII l (a : Int) (b : Int) = (l.take b).drop a := by
  unfold pySliceII
  rw [pyIdx_natCast, pyIdx_natCast]
  have htake : l.take (min b l.length) = l.take b := by
    rcases Nat.le_total b l.length with h | h
    · rw [Nat.min_eq_left h]
    · rw [Nat.min_eq_right h, List.take_of_length_le h, List.take_of_length_le le_rfl]
  rw [htake]
  rcases Nat.le_total a l.length with h | h
  · rw [Nat.min_eq_left h]
  · rw [Nat.min_eq_right h,
      List.drop_of_length_le (by simp),
      List.drop_of_length_le (by simp only [List.length_take]; omega)]

theorem slice_mid {α : Type} (u d v : List α) :
    pySliceII (u ++ (d ++ v)) (u.length : Int) ((u.length : Int) + (d.length : Int)) = d := by
  have h : ((u.length : Int) + (d.length : Int)) = ((u.length + d.length : Nat) : Int) := by
    push_cast; ring
  rw [h, pySlice_nn, List.take_append, List.take_left' rfl, List.drop_left]

theorem slice_cons {α : Type} (u v : List α) (x : α) :
    pySliceII (u ++ x :: v) (u.length : Int) ((u.length : Int) + 1) = [x] := by
  have h := slice_mid u [x] v
  simpa using h

theorem findCRLF_mid (ds v : List Nat) (h : ∀ b ∈ ds, b ≠ 13) :
    findCRLF (ds ++ 13 :: 10 :: v) = some ds.length := by
  induction ds with
  | nil => simp [findCRLF]
  | cons d ds ih =>
    rw [List.cons_append, findCRLF, if_neg (by simp [h d (by simp)]),
      ih (fun b hb => h b (by simp [hb]))]
    simp

theorem findFrom_mid (u ds v : List Nat) (h : ∀ b ∈ ds, b ≠ 13) :
    findCRLFFrom (u ++ (ds ++ 13 :: 10 :: v)) (u.length : Int) = some (u.length + ds.length) := by
  unfold findCRLFFrom
  rw [pyIdx_natCast, Nat.min_eq_left (by simp), List.drop_left, findCRLF_mid ds v h]
  rfl

/- ====================================================================
   C2 — binary round-trip law
   ==================================================================== -/
theorem encodeCmd_eq (argv : List (List Nat)) :
    encodeCmd argv = 42 :: (natStr argv.length ++ 13 :: 10 :: encArgs argv) := by
  simp [encodeCmd]

theorem argsStrict_enc :
    ∀ (args : List (List Nat)) (u v : List Nat) (acc : List (List Nat)),
      argsStrict (u ++ (encArgs args ++ v)) args.length (u.length : Int) acc
        = some (acc ++ args, (u.length : Int) + ((encArgs args).length : Int)) := by
  intro args
  induction args with
  | nil => intro u v acc; simp [argsStrict, encArgs]
  | cons a args ih =>
    intro u v acc
    have hdata : u ++ (encArgs (a :: args) ++ v)
        = u ++ (36 :: (natStr a.length ++ 13 :: 10 :: (a ++ 13 :: 10 :: (encArgs args ++ v)))) := by
      simp [encArgs, encArg]
    rw [List.length_cons, hdata]
    rw [argsStrict]
    rw [if_neg (by rw [slice_cons]; simp)]
    have h1 : ((u.length : Int) + 1) = (((u ++ [36]).length : Nat) : Int) := by simp
    have hassoc1 : u ++ (36 :: (natStr a.length ++ 13 :: 10 :: (a ++ 13 :: 10 :: (encArgs args ++ v))))
        = (u ++ [36]) ++ (natStr a.length ++ 13 :: 10 :: (a ++ 13 :: 10 :: (encArgs args ++ v))) := by
      simp
    rw [h1, hassoc1, findFrom_mid _ _ _ (fun b hb => by have := natStr_mem b hb; omega)]
    dsimp only
    have h2 : (((u ++ [36]).length + (natStr a.length).length : Nat) : Int)
        = (((u ++ [36]).length : Nat) : Int) + (((natStr a.length).length : Nat) : Int) := by
      push_cast; ring
    rw [h2, slice_mid, pyInt_natStr]
    dsimp only
    have h3 : ((((u ++ [36]).length : Nat) : Int) + (((natStr a.length).length : Nat) : Int) + 2)
        = (((u ++ [36] ++ natStr a.length ++ [13, 10]).length : Nat) : Int) := by
      simp; ring
    have hassoc2 : (u ++ [36]) ++ (natStr a.length ++ 13 :: 10 :: (a ++ 13 :: 10 :: (encArgs args ++ v)))
        = (u ++ [36] ++ natStr a.length ++ [13, 10]) ++ (a ++ (13 :: 10 :: (encArgs args ++ v))) := by
      simp
    rw [h3, hassoc2]
    have h4 : (((u ++ [36] ++ natStr a.length ++ [13, 10]).length : Nat) : Int) + (a.length : Int)
        = (((u ++ [36] ++ natStr a.length ++ [13, 10]).length : Nat) : Int) + ((a.length : Nat) : Int) := by
      norm_num
    rw [h4, slice_mid]
    have h5 : ((((u ++ [36] ++ natStr a.length ++ [13, 10]).length : Nat) : Int) + ((a.length : Nat) : Int) + 2)
        = (((u ++ encArg a).length : Nat) : Int) := by
      push_cast [encArg]; simp; ring
    have hassoc3 : (u ++ [36] ++ natStr a.length ++ [13, 10]) ++ (a ++ (13 :: 10 :: (encArgs args ++ v)))
        = (u ++ encArg a) ++ (encArgs args ++ v) := by
      simp [encArg]
    rw [h5, hassoc3, ih (u ++ encArg a) v (acc ++ [a])]
    simp only [Option.some.injEq, Prod.mk.injEq]
    constructor
    · simp
    · have hlen : encArgs (a :: args) = encArg a ++ encArgs args := by simp [encArgs]
      rw [hlen]
      simp only [List.length_append]
      push_cast
      ring

theorem parseStrict_enc :
    ∀ (P : List (List (List Nat))) (u : List Nat) (acc : List (List (List Nat))),
      parseStrictGo (u ++ (P.map encodeCmd).flatten) (P.length + 1) (u.length : Int) acc
        = .done (acc ++ P) := by
  intro P
  induction P with
  | nil => intro u acc; simp [parseStrictGo]
  | cons c P ih =>
    intro u acc
    have hdata : u ++ ((List.map encodeCmd (c :: P)).flatten)
        = u ++ (42 :: (natStr c.length ++ 13 :: 10 :: (encArgs c ++ (P.map encodeCmd).flatten))) := by
      simp [encodeCmd_eq c]
    rw [List.length_cons, hdata]
    rw [parseStrictGo]
    rw [if_pos (by simp only [List.length_append, List.length_cons]; push_cast; omega)]
    rw [if_neg (by rw [slice_cons]; simp)]
    have h1 : ((u.length : Int) + 1) = (((u ++ [42]).length : Nat) : Int) := by simp
    have hassoc1 : u ++ (42 :: (natStr c.length ++ 13 :: 10 :: (encArgs c ++ (P.map encodeCmd).flatten)))
        = (u ++ [42]) ++ (natStr c.length ++ 13 :: 10 :: (encArgs c ++ (P.map encodeCmd).flatten)) := by
      simp
    rw [h1, hassoc1, findFrom_mid _ _ _ (fun b hb => by have := natStr_mem b hb; omega)]
    dsimp only
    have h2 : (((u ++ [42]).length + (natStr c.length).length : Nat) : Int)
        = (((u ++ [42]).length : Nat) : Int) + (((natStr c.length).length : Nat) : Int) := by
      push_cast; ring
    rw [h2, slice_mid, pyInt_natStr]
    dsimp only
    rw [Int.toNat_natCast]
    have h3 : ((((u ++ [42]).length : Nat) : Int) + (((natStr c.length).length : Nat) : Int) + 2)
        = (((u ++ [42] ++ natStr c.length ++ [13, 10]).length : Nat) : Int) := by
      simp; ring
    have hassoc2 : (u ++ [42]) ++ (natStr c.length ++ 13 :: 10 :: (encArgs c ++ (P.map encodeCmd).flatten))
        = (u ++ [42] ++ natStr c.length ++ [13, 10]) ++ (encArgs c ++ (P.map encodeCmd).flatten) := by
      simp
    rw [h3, hassoc2, argsStrict_enc c _ _ []]
    dsimp only
    have h5 : ((((u ++ [42] ++ natStr c.length ++ [13, 10]).length : Nat) : Int) + ((encArgs c).length : Int))
        = (((u ++ encodeCmd c).length : Nat) : Int) := by
      simp only [List.length_append, encodeCmd_eq c, List.length_cons, List.length_nil]
      push_cast
      ring
    have hassoc3 : (u ++ [42] ++ natStr c.length ++ [13, 10]) ++ (encArgs c ++ (P.map encodeCmd).flatten)
        = (u ++ encodeCmd c) ++ (P.map encodeCmd).flatten := by
      simp [encodeCmd_eq c]
    rw [h5, hassoc3, ih (u ++ encodeCmd c) (acc ++ [[] ++ c])]
    simp

/-- C2: the binary round-trip law.  For every Program all of whose
Commands are non-empty, strict-decoding (oldconv.py `parse_resp`) the
binary length-prefixed encoding (`*<argc>CRLF` + `$<len>CRLF<payload>CRLF`
per argument, as emitted by `render_resp_strict`) reproduces the Program
exactly; `P.length + 1` outer iterations always complete the decode. -/
theorem c2_binary_roundtrip (P : List (List (List Nat))) (h : ∀ c ∈ P, c ≠ []) :
    parse_resp_strict (P.length + 1) (render_resp_binary P) = .done P := by
  unfold parse_resp_strict render_resp_binary
  have hfilter : P.filter (fun argv => argv ≠ []) = P := by
    rw [List.filter_eq_self]
    intro a ha
    simpa using h a ha
  rw [hfilter]
  have := parseStrict_enc P [] []
  simpa using this

/-- C2 witness: the round-trip law applied to the concrete one-command
Program `[[b"GET", b"k"]]`. -/
theorem c2_binary_roundtrip_witness :
    (∀ c ∈ [[[71, 69, 84], [107]]], c ≠ ([] : List (List Nat))) ∧
      parse_resp_strict 2 (render_resp_binary [[[71, 69, 84], [107]]])
        = .done [[[71, 69, 84], [107]]] :=
  ⟨by decide, c2_binary_roundtrip [[[71, 69, 84], [107]]] (by decide)⟩

/- ====================================================================
   src/mutator.py — random-source model

   mutator.py draws randomness from two places: the per-call `rng`
   object built by `rng_from_buf` (a Mersenne Twister seeded from
   sha256(buf[:256])[:8]), and the process-global `random` module used
   by the bare `random.choice(...)` calls scattered through the
   generators.  Both are modelled as oracle streams (`Nat → Nat`) with a
   cursor; a primitive consumes one stream element per draw.  The `loc`
   stream stands for the decision sequence of the per-call `rng` (a
   deterministic function of the buffer), the `glob` stream for the
   state of the global `random` module, which persists across calls and
   is NOT derived from the buffer.
   ==================================================================== -/

structure RngS where
  f : Nat → Nat
  i : Nat

structure PyRand where
  loc : RngS
  glob : RngS

def M (α : Type) : Type := PyRand → Option (α × PyRand)

instance : Monad M where
  pure a := fun s => some (a, s)
  bind m f := fun s =>
    match m s with
    | none => none
    | some (a, s2) => f a s2

/-- A raised Python exception (ValueError from an empty `randrange` /
`choice` range; the mutation path is claimed never to reach one). -/
def mfail {α : Type} : M α := fun _ => none

def locDraw : M Nat := fun s =>
  some (s.loc.f s.loc.i, ⟨⟨s.loc.f, s.loc.i + 1⟩, s.glob⟩)

def globDraw : M Nat := fun s =>
  some (s.glob.f s.glob.i, ⟨s.loc, ⟨s.glob.f, s.glob.i + 1⟩⟩)

/-- `rng.random()` modelled in millionths (an integer in [0, 10^6)). -/
def rngRandomM : M Nat := do
  let v ← locDraw
  pure (v % 1000000)

/-- `if rng.random() < p: a else: b` with `p` in millionths. -/
def rngIfLt {α : Type} (p : Nat) (a b : M α) : M α := do
  let v ← rngRandomM
  if v < p then a else b

/-- `rng.randrange(lo, hi)`; raises (fails) when the range is empty. -/
def rngRandrange (lo hi : Int) : M Int :=
  if hi ≤ lo then mfail
  else do
    let v ← locDraw
    pure (lo + ((v % (hi - lo).toNat : Nat) : Int))

/-- `rng.randrange(hi)`. -/
def rngRandrangeN (hi : Int) : M Int := rngRandrange 0 hi

/-- `rng.choice(xs)`; raises on an empty sequence. -/
def rngChoice {α : Type} (xs : List α) : M α :=
  match xs with
  | [] => mfail
  | x :: t => do
    let v ← locDraw
    pure ((x :: t).getD (v % (x :: t).length) x)

/-- `random.choice(xs)` — the GLOBAL random module. -/
def globChoice {α : Type} (xs : List α) : M α :=
  match xs with
  | [] => mfail
  | x :: t => do
    let v ← globDraw
    pure ((x :: t).getD (v % (x :: t).length) x)

def listSwap {α : Type} (l : List α) (i j : Nat) : List α :=
  match l.get? i, l.get? j with
  | some a, some b => (l.set i b).set j a
  | _, _ => l

/-- `rng.shuffle(x)`: Fisher–Yates from the top index down to 1, one
draw per index. -/
def rngShuffleGo {α : Type} (l : List α) : Nat → M (List α)
  | 0 => pure l
  | i + 1 => do
    let v ← locDraw
    rngShuffleGo (listSwap l (i + 1) (v % (i + 2))) i

def rngShuffle {α : Type} (l : List α) : M (List α) :=
  match l.length with
  | 0 => pure l
  | n + 1 => rngShuffleGo l n

/-- Sequential monadic replication (`[g() for _ in range(n)]`). -/
def mRep {α : Type} (g : M α) : Nat → M (List α)
  | 0 => pure []
  | n + 1 => do
    let x ← g
    let rest ← mRep g n
    pure (x :: rest)

/-- Sequential monadic map. -/
def mMap {α β : Type} (g : α → M β) : List α → M (List β)
  | [] => pure []
  | a :: rest => do
    let b ← g a
    let rest2 ← mMap g rest
    pure (b :: rest2)

/-- `(X if rng.random() < p else [])` — an optional argument-vector part. -/
def optPart (p : Nat) (m : M (List (List Nat))) : M (List (List Nat)) :=
  rngIfLt p m (pure [])

/-- `str(rng.randrange(lo, hi))`. -/
def rrStr (lo hi : Int) : M (List Nat) := do
  let n ← rngRandrange lo hi
  pure (intStr n)

/- ====================================================================
   UTF-8 (Python `str.encode("utf-8", errors="ignore")` and
   `bytes.decode("utf-8", errors="replace")`)
   ==================================================================== -/

/-- UTF-8 encoding of one code point; surrogates and out-of-range values
encode to nothing (`errors="ignore"`). -/
def utf8EncChar (c : Nat) : List Nat :=
  if c < 0x80 then [c]
  else if c < 0x800 then [0xC0 + c / 64, 0x80 + c % 64]
  else if c < 0x10000 then
    if 0xD800 ≤ c ∧ c ≤ 0xDFFF then []
    else [0xE0 + c / 4096, 0x80 + (c / 64) % 64, 0x80 + c % 64]
  else if c < 0x110000 then
    [0xF0 + c / 262144, 0x80 + (c / 4096) % 64, 0x80 + (c / 64) % 64, 0x80 + c % 64]
  else []

def utf8Encode (s : List Nat) : List Nat := (s.map utf8EncChar).flatten

def isCont (b : Nat) : Bool := 0x80 ≤ b ∧ b ≤ 0xBF

/-- One UTF-8 decoding step: the code point (or U+FFFD) produced by
leading byte `b`, and how many further bytes it consumes. -/
def utf8Step (b : Nat) (rest : List Nat) : Nat × Nat :=
  if b < 0x80 then (b, 0)
  else if 0xC2 ≤ b ∧ b ≤ 0xDF then
    match rest with
    | b1 :: _ => if isCont b1 then ((b - 0xC0) * 64 + (b1 - 0x80), 1) else (65533, 0)
    | [] => (65533, 0)
  else if 0xE0 ≤ b ∧ b ≤ 0xEF then
    match rest with
    | b1 :: b2 :: _ =>
      if isCont b1 ∧ isCont b2 ∧
          ¬ (b = 0xE0 ∧ b1 < 0xA0) ∧ ¬ (b = 0xED ∧ b1 ≥ 0xA0) then
        ((b - 0xE0) * 4096 + (b1 - 0x80) * 64 + (b2 - 0x80), 2)
      else (65533, 0)
    | _ => (65533, 0)
  else if 0xF0 ≤ b ∧ b ≤ 0xF4 then
    match rest with
    | b1 :: b2 :: b3 :: _ =>
      if isCont b1 ∧ isCont b2 ∧ isCont b3 ∧
          ¬ (b = 0xF0 ∧ b1 < 0x90) ∧ ¬ (b = 0xF4 ∧ b1 ≥ 0x90) then
        ((b - 0xF0) * 262144 + (b1 - 0x80) * 4096 + (b2 - 0x80) * 64 + (b3 - 0x80), 3)
      else (65533, 0)
    | _ => (65533, 0)
  else (65533, 0)

/-- UTF-8 decoding with replacement.  Overlong forms, surrogates and
stray bytes decode to U+FFFD; the exact number of replacement characters
Python emits per malformed sequence is approximated (one per rejected
leading byte), which no theorem below depends on. -/
def utf8DecodeGo : Nat → List Nat → List Nat
  | _, [] => []
  | 0, _ :: _ => []
  | fuel + 1, b :: rest =>
    (utf8Step b rest).1 :: utf8DecodeGo fuel (rest.drop (utf8Step b rest).2)

/-- Each step consumes the leading byte (and possibly more), so
`l.length` steps of fuel always suffice: the fuel-exhaustion arm of
`utf8DecodeGo` is unreachable from this entry point. -/
def utf8Decode (l : List Nat) : List Nat := utf8DecodeGo l.length l

/-- Python `str.isspace` / `str.strip` whitespace, restricted to the
code points that can actually appear here. -/
def isPySpace (c : Nat) : Bool :=
  c = 32 ∨ (9 ≤ c ∧ c ≤ 13) ∨ (28 ≤ c ∧ c ≤ 31) ∨ c = 133 ∨ c = 160 ∨
    (0x2000 ≤ c ∧ c ≤ 0x200A) ∨ c = 0x2028 ∨ c = 0x2029 ∨ c = 0x205F ∨
    c = 0x3000 ∨ c = 0x1680

/- ====================================================================
   src/mutator.py — dictionaries / atoms
   ==================================================================== -/

def REDIS_OPTIONS : List (List Nat) :=
  [ "NX", "XX", "CH", "INCR", "GT", "LT",
    "WITHSCORES", "LIMIT", "COUNT", "BLOCK",
    "ASC", "DESC", "ALPHA",
    "STORE", "STOREDIST",
    "BY", "GET",
    "MATCH", "TYPE",
    "WEIGHTS", "AGGREGATE", "SUM", "MIN", "MAX",
    "REV", "BYLEX", "BYSCORE",
    "MKSTREAM", "NOMKSTREAM",
    "JUSTID", "NOACK", "FORCE",
    "IDLE", "TIME", "RETRYCOUNT", "LASTID",
    "ENTRIESADDED", "ENTRIESREAD",
    "GROUP", "GROUPS", "CONSUMERS", "STREAM", "STREAMS",
    "CREATE", "CREATECONSUMER", "DELCONSUMER",
    "DESTROY", "SETID",
    "CHANNELS", "NUMSUB", "NUMPAT",
    "SHARDCHANNELS", "SHARDNUMSUB",
    "ON", "OFF",
    "ALLKEYS", "RESETKEYS", "~*",
    "ALLCHANNELS", "RESETCHANNELS", "&*",
    "ALLCOMMANDS", "+@ALL",
    "NOCOMMANDS", "-@ALL",
    "NOPASS", "RESETPASS",
    "SETUSER", "DELUSER", "GETUSER",
    "LIST", "USERS", "WHOAMI",
    "LOAD", "SAVE", "CAT", "GENPASS", "LOG",
    "KILL", "LIST", "ID", "TYPE", "ADDR", "LADDR",
    "USER", "SKIPME", "YES", "NO",
    "REPLY", "ON", "OFF", "SKIP",
    "PAUSE", "UNPAUSE", "WRITE", "ALL",
    "TRACKING", "REDIRECT", "BCAST", "OPTIN", "OPTOUT", "NOLOOP", "PREFIX",
    "CACHING", "GETREDIR", "TRACKINGINFO",
    "GET", "SET", "RESETSTAT", "REWRITE",
    "BIND", "DIR", "LOGFILE", "INCLUDE",
    "SAVE", "NOSAVE",
    "RENAME-COMMAND",
    "CLIENT-OUTPUT-BUFFER-LIMIT",
    "OOM-SCORE-ADJ-VALUES",
    "NOTIFY-KEYSPACE-EVENTS",
    "LOADMODULE",
    "SENTINEL",
    "SEGFAULT", "PANIC", "OOM", "ASSERT",
    "RESTART", "CRASH-AND-RECOVER",
    "LOG", "LEAK", "RELOAD",
    "MERGE", "NOFLUSH", "NOSAVE",
    "OBJECT", "SDSLEN", "ZIPLIST",
    "POPULATE", "DIGEST", "DIGEST-VALUE",
    "PROTOCOL", "STRING", "INTEGER", "DOUBLE", "BIGNUM",
    "NULL", "ARRAY", "SET", "MAP", "ATTRIB", "PUSH",
    "TRUE", "FALSE", "VERBATIM",
    "SLEEP", "ERROR", "STRUCTSIZE",
    "HTSTATS", "HTSTATS-KEY",
    "CHANGE-REPL-ID",
    "MEET", "NODES", "MYID", "SLOTS",
    "FLUSHSLOTS", "ADDSLOTS", "DELSLOTS",
    "SETSLOT", "MIGRATING", "IMPORTING", "STABLE", "NODE",
    "BUMPEPOCH", "INFO", "SAVECONFIG",
    "KEYSLOT", "COUNTKEYSINSLOT", "GETKEYSINSLOT",
    "FORGET", "REPLICATE",
    "SLAVES", "REPLICAS",
    "COUNT-FAILURE-REPORTS",
    "FAILOVER", "TAKEOVER", "FORCE",
    "SET-CONFIG-EPOCH",
    "RESET", "HARD", "SOFT",
    "WITHDIST", "WITHHASH", "WITHCOORD",
    "ANY", "FROMMEMBER", "FROMLONLAT",
    "BYRADIUS", "BYBOX",
    "ASC", "DESC", "ALPHA", "LIMIT", "STORE", "BY", "GET",
    "FLUSH", "SYNC", "ASYNC", "EXISTS", "KILL",
    "DEBUG", "YES", "NO",
    "HELP", "STEP", "NEXT", "CONTINUE", "TRACE",
    "MAXLEN", "BREAK", "EVAL", "ABORT", "REDIS",
    "PRINT", "LIST", "WHOLE",
    "ACK", "GETACK", "CAPA", "EOF", "PSYNC2",
    "RDB-ONLY", "LISTENING-PORT", "IP-ADDRESS",
    "TIMEOUT", "TO",
    "REFCOUNT", "ENCODING", "IDLETIME", "FREQ",
    "USAGE", "SAMPLES", "STATS", "MALLOC-STATS", "DOCTOR", "PURGE",
    "MONITOR", "DOWN-AFTER-MILLISECONDS", "FAILOVER-TIMEOUT",
    "PARALLEL-SYNCS", "NOTIFICATION-SCRIPT", "CLIENT-RECONFIG-SCRIPT",
    "AUTH-PASS", "AUTH-USER", "QUORUM",
    "CURRENT-EPOCH", "LEADER-EPOCH",
    "KNOWN-SLAVE", "KNOWN-REPLICA", "KNOWN-SENTINEL",
    "ANNOUNCE-IP", "ANNOUNCE-PORT",
    "DENY-SCRIPTS-RECONFIG",
    "SENTINEL-USER", "SENTINEL-PASS",
    "RESOLVE-HOSTNAMES", "ANNOUNCE-HOSTNAMES",
    "MASTERS", "MASTER", "SENTINELS",
    "IS-MASTER-DOWN-BY-ADDR",
    "PENDING-SCRIPTS", "FLUSHCONFIG",
    "REMOVE", "CKQUORUM", "SIMULATE-FAILURE",
    "CRASH-AFTER-ELECTION", "CRASH-AFTER-PROMOTION",
    "B", "K", "KB", "M", "MB", "G", "GB" ].map pstr

def TOKENS : List (List Nat) :=
  ([ "", "0", "1", "-1", "2", "7", "8", "9", "15", "16", "31", "32", "63", "64",
     "127", "128", "255", "256", "511", "512", "1023", "1024", "4096", "65535",
     "2147483647", "-2147483648", "9223372036854775807", "-9223372036854775808",
     "NaN", "Inf", "-Inf", "1e309", "-1e309",
     "A", "AA", "AAAA" ].map pstr) ++
  [ List.replicate 64 66, List.replicate 256 67 ] ++
  ([ "hello", "world", "fuzz", "FUZZ", "😈",
     "key", "k", "mykey", "dolly", "clone", "zz", "myhash",
     "field", "field1", "field2", "value", "value1", "value2", "QQQQQQQQ",
     "IDS", "COUNT", "BLOCK", "MKSTREAM", "JUSTID", "NOMKSTREAM",
     "OK", "ERR", "nil", "null" ].map pstr) ++ REDIS_OPTIONS

def KEYS : List (List Nat) :=
  [ "k", "k1", "k2", "key", "mykey", "dolly", "clone", "zz", "myhash",
    "list", "set", "zset",
    "stream", "mystream", "3418133648", "3779513606" ].map pstr

def FIELDS : List (List Nat) :=
  [ "f", "f1", "f2", "aa", "bb", "field", "field1", "field2" ].map pstr

def VALUES : List (List Nat) :=
  [ "v", "v1", "v2", "1337", "Hello", "World", "HelloWorld", "99", "-256", "sheep" ].map pstr

def GROUPS : List (List Nat) := [ "g", "mygroup", "group", "3779513606" ].map pstr

def CONSUMERS : List (List Nat) := [ "c", "myconsumer", "consumer" ].map pstr

def ALL_COMMANDS : List (List Nat) :=
  [ "acl", "append", "asking", "auth", "bgrewriteaof", "bgsave", "bitcount", "bitfield",
    "bitfield_ro",
    "bitop", "bitpos", "blmove", "blpop", "brpop", "brpoplpush", "bzpopmax", "bzpopmin",
    "client",
    "cluster", "command", "config", "copy", "dbsize", "debug", "decr", "decrby", "del",
    "discard", "dump",
    "echo", "eval", "evalsha", "exec", "exists", "expire", "expireat", "failover",
    "flushall", "flushdb",
    "geoadd", "geodist", "geohash", "geopos", "georadius", "georadiusbymember",
    "georadiusbymember_ro",
    "georadius_ro", "geosearch", "geosearchstore", "get", "getbit", "getdel", "getex",
    "getrange", "getset",
    "hdel", "hello", "hexists", "hget", "hgetall", "hincrby", "hincrbyfloat", "hkeys",
    "hlen", "hmget", "hmset",
    "host:", "hrandfield", "hscan", "hset", "hsetnx", "hstrlen", "hvals", "incr",
    "incrby", "incrbyfloat",
    "info", "keys", "lastsave", "latency", "lindex", "linsert", "llen", "lmove",
    "lolwut", "lpop", "lpos",
    "lpush", "lpushx", "lrange", "lrem", "lset", "ltrim", "memory", "mget", "migrate",
    "module", "monitor",
    "move", "mset", "msetnx", "multi", "object", "persist", "pexpire", "pexpireat",
    "pfadd", "pfcount",
    "pfdebug", "pfmerge", "pfselftest", "ping", "post", "psetex", "psubscribe", "psync",
    "pttl", "publish",
    "pubsub", "punsubscribe", "randomkey", "readonly", "readwrite", "rename", "renamenx",
    "replconf",
    "replicaof", "reset", "restore", "restore-asking", "role", "rpop", "rpoplpush",
    "rpush", "rpushx", "sadd",
    "save", "scan", "scard", "script", "sdiff", "sdiffstore", "select", "set", "setbit",
    "setex", "setnx",
    "setrange", "shutdown", "sinter", "sinterstore", "sismember", "slaveof", "slowlog",
    "smembers",
    "smismember", "smove", "sort", "spop", "srandmember", "srem", "sscan", "stralgo",
    "strlen", "subscribe",
    "substr", "sunion", "sunionstore", "swapdb", "sync", "time", "touch", "ttl", "type",
    "unlink", "unsubscribe",
    "unwatch", "wait", "watch", "xack", "xadd", "xautoclaim", "xclaim", "xdel", "xgroup",
    "xinfo", "xlen",
    "xpending", "xrange", "xread", "xreadgroup", "xrevrange", "xsetid", "xtrim", "zadd",
    "zcard", "zcount",
    "zdiff", "zdiffstore", "zincrby", "zinter", "zinterstore", "zlexcount", "zmscore",
    "zpopmax", "zpopmin",
    "zrandmember", "zrange", "zrangebylex", "zrangebyscore", "zrangestore", "zrank",
    "zrem", "zremrangebylex",
    "zremrangebyrank", "zremrangebyscore", "zrevrange", "zrevrangebylex",
    "zrevrangebyscore", "zrevrank",
    "zscan", "zscore", "zunion", "zunionstore" ].map pstr

def ALL_COMMANDS_UP : List (List Nat) := ALL_COMMANDS.map asciiUpper

def GENERIC_MODES : List (List Nat) :=
  [ "none", "key", "key_key", "key_int", "key_val", "key_field", "key_field_val",
    "pattern", "ints", "vals" ].map pstr

/-- The boundary-integer pool of `gen_int` (string form). -/
def GEN_INT_CONSTS : List (List Nat) :=
  [ "-1", "0", "1", "7", "8", "9", "15", "16", "31", "32", "63", "64",
    "127", "128", "255", "256", "1024", "4096",
    "2147483647", "-2147483648", "9223372036854775807", "-9223372036854775808" ].map pstr

/-- The boundary-integer pool of `mutate_int_str` (integer form). -/
def MUT_INT_CONSTS : List Int :=
  [ -1, 0, 1, 7, 8, 9, 15, 16, 31, 32, 63, 64, 127, 128, 255, 256, 1024, 4096,
    2^31 - 1, -(2^31), 2^63 - 1, -(2^63) ]

/- ====================================================================
   src/mutator.py — single-value mutators
   ==================================================================== -/

/-- `re.fullmatch(r"-?\d+", a or "")` (ASCII digits; `\d` additionally
matches non-ASCII decimal digits, which do not occur here). -/
def isIntLike (a : List Nat) : Bool :=
  let isDig := fun b => decide (48 ≤ b ∧ b ≤ 57)
  match a with
  | 45 :: t => ¬ t.isEmpty ∧ t.all isDig
  | t => ¬ t.isEmpty ∧ t.all isDig

/-- `mutate_string`'s preamble: the empty string is first replaced by a
dictionary token (or `"A"`) drawn from the GLOBAL random module
(`if not s: s = random.choice(TOKENS) or b"A"`). -/
def mutStrInit (s0 : List Nat) : M (List Nat) :=
  if s0 = [] then do
    let t ← globChoice TOKENS
    pure (if t = [] then pstr "A" else t)
  else pure s0

/-- Body of `mutate_string(s, rng)` after the empty-string preamble: one of
seven operators chosen by `rng.randrange(7)`. -/
def mutate_string_core (s : List Nat) : M (List Nat) := do
  let action ← rngRandrangeN 7
  if action = 0 then
    -- single-byte XOR flip in the UTF-8 encoding
    let b := utf8Encode s
    if b = [] then pure (utf8Decode b)
    else do
      let i ← rngRandrangeN (b.length : Int)
      let x ← rngRandrange 1 256
      pure (utf8Decode (b.set i.toNat (Nat.xor (b.getD i.toNat 0) x.toNat)))
  else if action = 1 then
    -- substring run-length duplication
    if s.length ≥ 2 then do
      let i ← rngRandrangeN (s.length : Int)
      let j ← rngRandrange i (s.length : Int)
      let sl := if j > i then pySliceII s i j else pySliceII s i (i + 1)
      let k ← rngRandrange 2 40
      pure (pySliceII s 0 i ++ (List.replicate k.toNat sl).flatten ++
        pySliceII s i (s.length : Int))
    else pure (s ++ s)
  else if action = 2 then
    -- substring deletion
    if s.length ≥ 2 then do
      let i ← rngRandrangeN (s.length : Int)
      let j ← rngRandrange i (s.length : Int)
      pure (pySliceII s 0 i ++ pySliceII s j (s.length : Int))
    else pure []
  else if action = 3 then
    globChoice (TOKENS ++ KEYS ++ FIELDS ++ VALUES ++ GROUPS ++ CONSUMERS)
  else if action = 4 then do
    -- random-printable-suffix append
    let n ← rngRandrange 1 256
    let tail ← mRep (do let c ← rngRandrange 32 127; pure c.toNat) n.toNat
    pure (s ++ tail)
  else if action = 5 then do
    -- prefix truncation
    let n ← rngRandrange 0 ((s.length : Int) + 1)
    pure (pySliceII s 0 n)
  else do
    -- action == 6: NUL-byte-suffix append
    let n ← rngRandrange 0 32
    pure (s ++ List.replicate n.toNat 0)

/-- `mutate_string(s, rng)` = empty-string preamble, then one of seven
operators. -/
def mutate_string (s0 : List Nat) : M (List Nat) :=
  mutStrInit s0 >>= fun s => mutate_string_core s

/-- `mutate_int_str(s, rng)`. -/
def mutate_int_str (s : List Nat) : M (List Nat) :=
  rngIfLt 750000
    (match pyInt s with
     | some v =>
       rngIfLt 300000
         (do let w ← globChoice MUT_INT_CONSTS; pure (intStr w))
         (do let d ← rngRandrange (-4096) 4097; pure (intStr (v + d)))
     | none => globChoice TOKENS)
    (globChoice TOKENS)

/- ====================================================================
   src/mutator.py — value generators
   ==================================================================== -/

def gen_stream_id : M (List Nat) := do
  let ms ← rngRandrange 0 (2 ^ 48)
  let seq ← rngRandrange 0 (2 ^ 16)
  pure (intStr ms ++ [45] ++ intStr seq)

/-- `gen_float`.  The non-edge-case branch computes
`(rng.random() - 0.5) * 10**rng.randrange(0, 12)` and returns `str(v)`;
floating-point formatting is not modelled bit-exactly — the value is
rendered from its exact millionths numerator as `<num>e<exp-6>`.  Every
theorem below treats the produced numeral as an opaque token. -/
def gen_float : M (List Nat) :=
  rngIfLt 200000
    (globChoice ([ "NaN", "Inf", "-Inf", "1e309", "-1e309" ].map pstr))
    (do
      let r ← rngRandomM
      let e ← rngRandrange 0 12
      pure (intStr ((r : Int) - 500000) ++ [101] ++ intStr (e - 6)))

def gen_int : M (List Nat) :=
  rngIfLt 300000
    (globChoice GEN_INT_CONSTS)
    (do let v ← rngRandrange (-(2 ^ 31)) (2 ^ 31); pure (intStr v))

def gen_key : M (List Nat) :=
  rngIfLt 700000
    (globChoice KEYS)
    (do let k ← globChoice KEYS; mutate_string k)

def gen_field : M (List Nat) :=
  rngIfLt 800000
    (globChoice FIELDS)
    (do let f ← globChoice FIELDS; mutate_string f)

def gen_value : M (List Nat) :=
  rngIfLt 800000
    (globChoice VALUES)
    (do let v ← globChoice VALUES; mutate_string v)

def gen_pattern : M (List Nat) :=
  globChoice ([ "*", "k*", "user:*", "zz*", "stream*", "??", "[a-z]*", "\\x00*", ".*" ].map pstr)

def gen_channel : M (List Nat) :=
  globChoice ([ "chan", "news", "updates", "pub", "sub", "x", "test" ].map pstr)

def gen_kv_pair_list (n : Nat) : M (List (List Nat)) :=
  match n with
  | 0 => pure []
  | m + 1 => do
    let k ← gen_key
    let v ← gen_value
    let rest ← gen_kv_pair_list m
    pure (k :: v :: rest)

def gen_field_value_list (n : Nat) : M (List (List Nat)) :=
  match n with
  | 0 => pure []
  | m + 1 => do
    let f ← gen_field
    let v ← gen_value
    let rest ← gen_field_value_list m
    pure (f :: v :: rest)

def gen_members (n : Nat) : M (List (List Nat)) := mRep gen_value n

def gen_stream_ids (n : Nat) : M (List (List Nat)) :=
  mRep (rngIfLt 850000 gen_stream_id (do let x ← gen_stream_id; mutate_string x)) n

def gen_zadd_pairs (n : Nat) : M (List (List Nat)) :=
  match n with
  | 0 => pure []
  | m + 1 => do
    let f ← gen_float
    let v ← gen_value
    let rest ← gen_zadd_pairs m
    pure (f :: v :: rest)

/- ====================================================================
   src/mutator.py — spec-driven generation (the add_spec table)
   ==================================================================== -/

def gen_minimal_eval : M (List (List Nat)) := do
  let script ← globChoice ([ "return 1", "return redis.call(\x27PING\x27)",
    "redis.call(\x27SET\x27,\x27k\x27,\x27v\x27); return redis.call(\x27GET\x27,\x27k\x27)",
    "redis.call(\x27XADD\x27,\x27mystream\x27,\x27*\x27,\x27f\x27,\x27v\x27); return 0" ].map pstr)
  let numkeys ← globChoice ([ "0", "1", "2" ].map pstr)
  let keys ← match pyInt numkeys with
    | some v => mRep gen_key v.toNat
    | none => mfail
  let extra ← rngIfLt 600000 (do let n ← rngRandrangeN 10; mRep gen_value n.toNat) (pure [])
  pure ([pstr "EVAL", script, numkeys] ++ keys ++ extra)

def gen_scan_like (base : List Nat) : M (List (List Nat)) := do
  let c ← gen_int
  let m ← optPart 600000 (do let p ← gen_pattern; pure [pstr "MATCH", p])
  let cnt ← optPart 600000 (do let n ← rrStr 0 100000; pure [pstr "COUNT", n])
  let ty ← optPart 200000 (do
    let t ← globChoice ([ "string", "hash", "list", "set", "zset", "stream" ].map pstr)
    pure [pstr "TYPE", t])
  pure ([base, c] ++ m ++ cnt ++ ty)

def gen_xgroup : M (List (List Nat)) := do
  let stream ← gen_key
  let group ← globChoice GROUPS
  let sub ← globChoice ([ "CREATE", "CREATECONSUMER", "DELCONSUMER", "DESTROY", "SETID" ].map pstr)
  if sub = pstr "CREATE" then do
    let a ← globChoice ([ "0-0", "$" ].map pstr)
    let b ← globChoice ([ "MKSTREAM", "ENTRIESREAD", "0", "1", "2", "500" ].map pstr)
    pure [pstr "XGROUP", pstr "CREATE", stream, group, a, b]
  else if sub = pstr "SETID" then do
    let sid ← gen_stream_id
    let a ← globChoice [pstr "0-0", pstr "$", pstr "1-0", sid]
    pure [pstr "XGROUP", pstr "SETID", stream, group, a]
  else if sub = pstr "CREATECONSUMER" then do
    let c ← globChoice CONSUMERS
    pure [pstr "XGROUP", pstr "CREATECONSUMER", stream, group, c]
  else if sub = pstr "DELCONSUMER" then do
    let c ← globChoice CONSUMERS
    pure [pstr "XGROUP", pstr "DELCONSUMER", stream, group, c]
  else pure [pstr "XGROUP", pstr "DESTROY", stream, group]

def gen_xreadgroup : M (List (List Nat)) := do
  let stream ← gen_key
  let group ← globChoice GROUPS
  let consumer ← globChoice CONSUMERS
  let cnt ← optPart 700000 (do let n ← rrStr 0 100000; pure [pstr "COUNT", n])
  let blk ← optPart 500000 (do let n ← rrStr 0 100000; pure [pstr "BLOCK", n])
  let sid ← gen_stream_id
  let last ← globChoice [pstr ">", pstr "0-0", sid]
  pure ([pstr "XREADGROUP", pstr "GROUP", group, consumer] ++ cnt ++ blk ++
    [pstr "STREAMS", stream, last])

def gen_xackdel_like (name : List Nat) : M (List (List Nat)) := do
  let stream ← gen_key
  let group ← globChoice GROUPS
  let n ← rngChoice ([0, 1, 2, 7, 8, 9, 10, 15, 16, 17, 31, 32, 64, 65, 128] : List Int)
  let bump ← rngIfLt 300000 (rngRandrangeN 128) (pure 0)
  let ids ← gen_stream_ids (max 0 (min (n + bump) 512)).toNat
  pure ([name, stream, group, pstr "IDS", intStr n] ++ ids)

def gen_zinter_union (name : List Nat) : M (List (List Nat)) := do
  let numkeys ← rngRandrangeN 32
  let keys ← mRep gen_key numkeys.toNat
  let w ← (do
    let v ← rngRandomM
    if v < 500000 ∧ numkeys > 0 then do
      let ws ← mRep gen_float numkeys.toNat
      pure (pstr "WEIGHTS" :: ws)
    else pure ([] : List (List Nat)))
  let agg ← optPart 500000 (do
    let a ← globChoice ([ "SUM", "MIN", "MAX", "foo", "" ].map pstr)
    pure [pstr "AGGREGATE", a])
  let ws ← optPart 300000 (pure [pstr "WITHSCORES"])
  pure ([name, intStr numkeys] ++ keys ++ w ++ agg ++ ws)

/- Core strings -/

def sPING : M (List (List Nat)) :=
  rngIfLt 500000 (pure [pstr "PING"]) (do let v ← gen_value; pure [pstr "PING", v])

def sECHO : M (List (List Nat)) := do
  let v ← gen_value
  pure [pstr "ECHO", v]

def sGET : M (List (List Nat)) := do
  let k ← gen_key
  pure [pstr "GET", k]

def sSET : M (List (List Nat)) := do
  let k ← gen_key
  let v ← gen_value
  let ex ← optPart 300000 (do let n ← rrStr 0 100000; pure [pstr "EX", n])
  let px ← optPart 200000 (do let n ← rrStr 0 100000; pure [pstr "PX", n])
  let nx ← optPart 200000 (pure [pstr "NX"])
  let xx ← optPart 200000 (pure [pstr "XX"])
  pure ([pstr "SET", k, v] ++ ex ++ px ++ nx ++ xx)

def sAPPEND : M (List (List Nat)) := do
  let k ← gen_key
  let v ← gen_value
  pure [pstr "APPEND", k, v]

def sINCR : M (List (List Nat)) := do
  let k ← gen_key
  pure [pstr "INCR", k]

def sINCRBY : M (List (List Nat)) := do
  let k ← gen_key
  let n ← gen_int
  pure [pstr "INCRBY", k, n]

def sINCRBYFLOAT : M (List (List Nat)) := do
  let k ← gen_key
  let f ← gen_float
  pure [pstr "INCRBYFLOAT", k, f]

def sDECR : M (List (List Nat)) := do
  let k ← gen_key
  pure [pstr "DECR", k]

def sDECRBY : M (List (List Nat)) := do
  let k ← gen_key
  let n ← gen_int
  pure [pstr "DECRBY", k, n]

def sSTRLEN : M (List (List Nat)) := do
  let k ← gen_key
  pure [pstr "STRLEN", k]

def sGETRANGE : M (List (List Nat)) := do
  let k ← gen_key
  let a ← gen_int
  let b ← gen_int
  pure [pstr "GETRANGE", k, a, b]

def sSETRANGE : M (List (List Nat)) := do
  let k ← gen_key
  let a ← gen_int
  let v ← gen_value
  pure [pstr "SETRANGE", k, a, v]

def sGETSET : M (List (List Nat)) := do
  let k ← gen_key
  let v ← gen_value
  pure [pstr "GETSET", k, v]

def sGETDEL : M (List (List Nat)) := do
  let k ← gen_key
  pure [pstr "GETDEL", k]

def sGETEX : M (List (List Nat)) := do
  let k ← gen_key
  let a ← rrStr 0 100000
  let b ← rrStr 0 100000
  let opt ← globChoice [[pstr "EX", a], [pstr "PX", b], [pstr "PERSIST"], []]
  pure ([pstr "GETEX", k] ++ opt)

def sSETEX : M (List (List Nat)) := do
  let k ← gen_key
  let n ← rrStr 0 100000
  let v ← gen_value
  pure [pstr "SETEX", k, n, v]

def sPSETEX : M (List (List Nat)) := do
  let k ← gen_key
  let n ← rrStr 0 100000
  let v ← gen_value
  pure [pstr "PSETEX", k, n, v]

def sSETNX : M (List (List Nat)) := do
  let k ← gen_key
  let v ← gen_value
  pure [pstr "SETNX", k, v]

/- Keyspace -/

def sDEL : M (List (List Nat)) := do
  let n ← rngRandrangeN 128
  let ks ← mRep gen_key n.toNat
  pure (pstr "DEL" :: ks)

def sUNLINK : M (List (List Nat)) := do
  let n ← rngRandrangeN 128
  let ks ← mRep gen_key n.toNat
  pure (pstr "UNLINK" :: ks)

def sEXISTS : M (List (List Nat)) := do
  let n ← rngRandrangeN 128
  let ks ← mRep gen_key n.toNat
  pure (pstr "EXISTS" :: ks)

def sTYPE : M (List (List Nat)) := do
  let k ← gen_key
  pure [pstr "TYPE", k]

def sTTL : M (List (List Nat)) := do
  let k ← gen_key
  pure [pstr "TTL", k]

def sPTTL : M (List (List Nat)) := do
  let k ← gen_key
  pure [pstr "PTTL", k]

def sEXPIRE : M (List (List Nat)) := do
  let k ← gen_key
  let n ← rrStr (-10) 100000
  pure [pstr "EXPIRE", k, n]

def sPEXPIRE : M (List (List Nat)) := do
  let k ← gen_key
  let n ← rrStr (-10) 100000
  pure [pstr "PEXPIRE", k, n]

def sEXPIREAT : M (List (List Nat)) := do
  let k ← gen_key
  let n ← rrStr (-10) (2 ^ 31)
  pure [pstr "EXPIREAT", k, n]

def sPEXPIREAT : M (List (List Nat)) := do
  let k ← gen_key
  let n ← rrStr (-10) (2 ^ 31)
  pure [pstr "PEXPIREAT", k, n]

def sPERSIST : M (List (List Nat)) := do
  let k ← gen_key
  pure [pstr "PERSIST", k]

def sRENAME : M (List (List Nat)) := do
  let a ← gen_key
  let b ← gen_key
  pure [pstr "RENAME", a, b]

def sRENAMENX : M (List (List Nat)) := do
  let a ← gen_key
  let b ← gen_key
  pure [pstr "RENAMENX", a, b]

def sMOVE : M (List (List Nat)) := do
  let k ← gen_key
  let n ← rrStr (-10) 100
  pure [pstr "MOVE", k, n]

def sSELECT : M (List (List Nat)) := do
  let n ← rrStr (-10) 256
  pure [pstr "SELECT", n]

def sKEYS : M (List (List Nat)) := do
  let p ← gen_pattern
  pure [pstr "KEYS", p]

def sDBSIZE : M (List (List Nat)) := pure [pstr "DBSIZE"]

def sRANDOMKEY : M (List (List Nat)) := pure [pstr "RANDOMKEY"]

/- Hashes -/

def sHSET : M (List (List Nat)) := do
  let k ← gen_key
  let n ← rngRandrangeN 64
  let fv ← gen_field_value_list n.toNat
  pure ([pstr "HSET", k] ++ fv)

def sHSETNX : M (List (List Nat)) := do
  let k ← gen_key
  let f ← gen_field
  let v ← gen_value
  pure [pstr "HSETNX", k, f, v]

def sHGET : M (List (List Nat)) := do
  let k ← gen_key
  let f ← gen_field
  pure [pstr "HGET", k, f]

def sHGETALL : M (List (List Nat)) := do
  let k ← gen_key
  pure [pstr "HGETALL", k]

def sHDEL : M (List (List Nat)) := do
  let k ← gen_key
  let n ← rngRandrangeN 128
  let fs ← mRep gen_field n.toNat
  pure ([pstr "HDEL", k] ++ fs)

def sHEXISTS : M (List (List Nat)) := do
  let k ← gen_key
  let f ← gen_field
  pure [pstr "HEXISTS", k, f]

def sHLEN : M (List (List Nat)) := do
  let k ← gen_key
  pure [pstr "HLEN", k]

def sHSTRLEN : M (List (List Nat)) := do
  let k ← gen_key
  let f ← gen_field
  pure [pstr "HSTRLEN", k, f]

def sHINCRBY : M (List (List Nat)) := do
  let k ← gen_key
  let f ← gen_field
  let n ← gen_int
  pure [pstr "HINCRBY", k, f, n]

def sHINCRBYFLOAT : M (List (List Nat)) := do
  let k ← gen_key
  let f ← gen_field
  let x ← gen_float
  pure [pstr "HINCRBYFLOAT", k, f, x]

def sHKEYS : M (List (List Nat)) := do
  let k ← gen_key
  pure [pstr "HKEYS", k]

def sHVALS : M (List (List Nat)) := do
  let k ← gen_key
  pure [pstr "HVALS", k]

def sHMGET : M (List (List Nat)) := do
  let k ← gen_key
  let n ← rngRandrangeN 128
  let fs ← mRep gen_field n.toNat
  pure ([pstr "HMGET", k] ++ fs)

def sHMSET : M (List (List Nat)) := do
  let k ← gen_key
  let n ← rngRandrangeN 64
  let fv ← gen_field_value_list n.toNat
  pure ([pstr "HMSET", k] ++ fv)

def sHRANDFIELD : M (List (List Nat)) := do
  let k ← gen_key
  let c ← optPart 700000 (do let n ← gen_int; pure [n])
  let w ← optPart 400000 (pure [pstr "WITHVALUES"])
  pure ([pstr "HRANDFIELD", k] ++ c ++ w)

/-- The first (hash-section) HSCAN spec; overwritten later in the table
by `gen_scan_like`. -/
def sHSCAN1 : M (List (List Nat)) := do
  let k ← gen_key
  let c ← gen_int
  let m ← optPart 600000 (do let p ← gen_pattern; pure [pstr "MATCH", p])
  let cnt ← optPart 600000 (do let n ← rrStr 0 100000; pure [pstr "COUNT", n])
  pure ([pstr "HSCAN", k, c] ++ m ++ cnt)

/- Lists -/

def sLPUSH : M (List (List Nat)) := do
  let k ← gen_key
  let n ← rngRandrangeN 256
  let ms ← gen_members n.toNat
  pure ([pstr "LPUSH", k] ++ ms)

def sRPUSH : M (List (List Nat)) := do
  let k ← gen_key
  let n ← rngRandrangeN 256
  let ms ← gen_members n.toNat
  pure ([pstr "RPUSH", k] ++ ms)

def sLPUSHX : M (List (List Nat)) := do
  let k ← gen_key
  let n ← rngRandrangeN 256
  let ms ← gen_members n.toNat
  pure ([pstr "LPUSHX", k] ++ ms)

def sRPUSHX : M (List (List Nat)) := do
  let k ← gen_key
  let n ← rngRandrangeN 256
  let ms ← gen_members n.toNat
  pure ([pstr "RPUSHX", k] ++ ms)

def sLPOP : M (List (List Nat)) := do
  let k ← gen_key
  let c ← optPart 500000 (do let n ← rrStr 0 100000; pure [n])
  pure ([pstr "LPOP", k] ++ c)

def sRPOP : M (List (List Nat)) := do
  let k ← gen_key
  let c ← optPart 500000 (do let n ← rrStr 0 100000; pure [n])
  pure ([pstr "RPOP", k] ++ c)

def sLRANGE : M (List (List Nat)) := do
  let k ← gen_key
  let a ← gen_int
  let b ← gen_int
  pure [pstr "LRANGE", k, a, b]

def sLLEN : M (List (List Nat)) := do
  let k ← gen_key
  pure [pstr "LLEN", k]

def sLINDEX : M (List (List Nat)) := do
  let k ← gen_key
  let a ← gen_int
  pure [pstr "LINDEX", k, a]

def sLSET : M (List (List Nat)) := do
  let k ← gen_key
  let a ← gen_int
  let v ← gen_value
  pure [pstr "LSET", k, a, v]

def sLREM : M (List (List Nat)) := do
  let k ← gen_key
  let a ← gen_int
  let v ← gen_value
  pure [pstr "LREM", k, a, v]

def sLTRIM : M (List (List Nat)) := do
  let k ← gen_key
  let a ← gen_int
  let b ← gen_int
  pure [pstr "LTRIM", k, a, b]

def sLINSERT : M (List (List Nat)) := do
  let k ← gen_key
  let w ← globChoice ([ "BEFORE", "AFTER", "X", "" ].map pstr)
  let p ← gen_value
  let v ← gen_value
  pure [pstr "LINSERT", k, w, p, v]

def sRPOPLPUSH : M (List (List Nat)) := do
  let a ← gen_key
  let b ← gen_key
  pure [pstr "RPOPLPUSH", a, b]

def sLMOVE : M (List (List Nat)) := do
  let a ← gen_key
  let b ← gen_key
  let w1 ← globChoice ([ "LEFT", "RIGHT", "X", "" ].map pstr)
  let w2 ← globChoice ([ "LEFT", "RIGHT", "Y", "" ].map pstr)
  pure [pstr "LMOVE", a, b, w1, w2]

/- Sets -/

def sSADD : M (List (List Nat)) := do
  let k ← gen_key
  let n ← rngRandrangeN 512
  let ms ← gen_members n.toNat
  pure ([pstr "SADD", k] ++ ms)

def sSREM : M (List (List Nat)) := do
  let k ← gen_key
  let n ← rngRandrangeN 512
  let ms ← gen_members n.toNat
  pure ([pstr "SREM", k] ++ ms)

def sSCARD : M (List (List Nat)) := do
  let k ← gen_key
  pure [pstr "SCARD", k]

def sSMEMBERS : M (List (List Nat)) := do
  let k ← gen_key
  pure [pstr "SMEMBERS", k]

def sSISMEMBER : M (List (List Nat)) := do
  let k ← gen_key
  let v ← gen_value
  pure [pstr "SISMEMBER", k, v]

def sSMISMEMBER : M (List (List Nat)) := do
  let k ← gen_key
  let n ← rngRandrangeN 512
  let ms ← gen_members n.toNat
  pure ([pstr "SMISMEMBER", k] ++ ms)

def sSPOP : M (List (List Nat)) := do
  let k ← gen_key
  let c ← optPart 600000 (do let n ← rrStr 0 100000; pure [n])
  pure ([pstr "SPOP", k] ++ c)

def sSRANDMEMBER : M (List (List Nat)) := do
  let k ← gen_key
  let c ← optPart 600000 (do let n ← gen_int; pure [n])
  pure ([pstr "SRANDMEMBER", k] ++ c)

def sSMOVE : M (List (List Nat)) := do
  let a ← gen_key
  let b ← gen_key
  let v ← gen_value
  pure [pstr "SMOVE", a, b, v]

def sSDIFF : M (List (List Nat)) := do
  let n ← rngRandrangeN 64
  let ks ← mRep gen_key n.toNat
  pure (pstr "SDIFF" :: ks)

def sSDIFFSTORE : M (List (List Nat)) := do
  let k ← gen_key
  let n ← rngRandrangeN 64
  let ks ← mRep gen_key n.toNat
  pure ([pstr "SDIFFSTORE", k] ++ ks)

def sSINTER : M (List (List Nat)) := do
  let n ← rngRandrangeN 64
  let ks ← mRep gen_key n.toNat
  pure (pstr "SINTER" :: ks)

def sSINTERSTORE : M (List (List Nat)) := do
  let k ← gen_key
  let n ← rngRandrangeN 64
  let ks ← mRep gen_key n.toNat
  pure ([pstr "SINTERSTORE", k] ++ ks)

def sSUNION : M (List (List Nat)) := do
  let n ← rngRandrangeN 64
  let ks ← mRep gen_key n.toNat
  pure (pstr "SUNION" :: ks)

def sSUNIONSTORE : M (List (List Nat)) := do
  let k ← gen_key
  let n ← rngRandrangeN 64
  let ks ← mRep gen_key n.toNat
  pure ([pstr "SUNIONSTORE", k] ++ ks)

/-- The first (set-section) SSCAN spec; overwritten later by
`gen_scan_like`. -/
def sSSCAN1 : M (List (List Nat)) := do
  let k ← gen_key
  let c ← gen_int
  let m ← optPart 600000 (do let p ← gen_pattern; pure [pstr "MATCH", p])
  let cnt ← optPart 600000 (do let n ← rrStr 0 100000; pure [pstr "COUNT", n])
  pure ([pstr "SSCAN", k, c] ++ m ++ cnt)

/- Zsets -/

def sZADD : M (List (List Nat)) := do
  let k ← gen_key
  let nx ← optPart 200000 (pure [pstr "NX"])
  let xx ← optPart 200000 (pure [pstr "XX"])
  let ch ← optPart 200000 (pure [pstr "CH"])
  let incr ← optPart 200000 (pure [pstr "INCR"])
  let n ← rngRandrangeN 256
  let ps ← gen_zadd_pairs n.toNat
  pure ([pstr "ZADD", k] ++ nx ++ xx ++ ch ++ incr ++ ps)

def sZREM : M (List (List Nat)) := do
  let k ← gen_key
  let n ← rngRandrangeN 512
  let ms ← gen_members n.toNat
  pure ([pstr "ZREM", k] ++ ms)

def sZCARD : M (List (List Nat)) := do
  let k ← gen_key
  pure [pstr "ZCARD", k]

def sZCOUNT : M (List (List Nat)) := do
  let k ← gen_key
  let a ← gen_float
  let b ← gen_float
  pure [pstr "ZCOUNT", k, a, b]

def sZSCORE : M (List (List Nat)) := do
  let k ← gen_key
  let v ← gen_value
  pure [pstr "ZSCORE", k, v]

def sZRANK : M (List (List Nat)) := do
  let k ← gen_key
  let v ← gen_value
  pure [pstr "ZRANK", k, v]

def sZREVRANK : M (List (List Nat)) := do
  let k ← gen_key
  let v ← gen_value
  pure [pstr "ZREVRANK", k, v]

def sZRANGE : M (List (List Nat)) := do
  let k ← gen_key
  let a ← gen_int
  let b ← gen_int
  let w ← optPart 400000 (pure [pstr "WITHSCORES"])
  pure ([pstr "ZRANGE", k, a, b] ++ w)

def sZREVRANGE : M (List (List Nat)) := do
  let k ← gen_key
  let a ← gen_int
  let b ← gen_int
  let w ← optPart 400000 (pure [pstr "WITHSCORES"])
  pure ([pstr "ZREVRANGE", k, a, b] ++ w)

def sZRANGEBYSCORE : M (List (List Nat)) := do
  let k ← gen_key
  let a ← gen_float
  let b ← gen_float
  let lim ← optPart 500000 (do
    let x ← gen_int
    let y ← gen_int
    pure [pstr "LIMIT", x, y])
  let w ← optPart 400000 (pure [pstr "WITHSCORES"])
  pure ([pstr "ZRANGEBYSCORE", k, a, b] ++ lim ++ w)

def sZREVRANGEBYSCORE : M (List (List Nat)) := do
  let k ← gen_key
  let a ← gen_float
  let b ← gen_float
  let lim ← optPart 500000 (do
    let x ← gen_int
    let y ← gen_int
    pure [pstr "LIMIT", x, y])
  let w ← optPart 400000 (pure [pstr "WITHSCORES"])
  pure ([pstr "ZREVRANGEBYSCORE", k, a, b] ++ lim ++ w)

def sZLEXCOUNT : M (List (List Nat)) := do
  let k ← gen_key
  let a ← globChoice ([ "-", "[a", "(a", "[z", "+" ].map pstr)
  let b ← globChoice ([ "+", "[z", "(z", "[a", "-" ].map pstr)
  pure [pstr "ZLEXCOUNT", k, a, b]

def sZRANGEBYLEX : M (List (List Nat)) := do
  let k ← gen_key
  let a ← globChoice ([ "-", "[a", "(a", "[z", "+" ].map pstr)
  let b ← globChoice ([ "+", "[z", "(z", "[a", "-" ].map pstr)
  pure [pstr "ZRANGEBYLEX", k, a, b]

def sZREVRANGEBYLEX : M (List (List Nat)) := do
  let k ← gen_key
  let a ← globChoice ([ "+", "[z", "(z", "[a", "-" ].map pstr)
  let b ← globChoice ([ "-", "[a", "(a", "[z", "+" ].map pstr)
  pure [pstr "ZREVRANGEBYLEX", k, a, b]

/-- The first (zset-section) ZSCAN spec; overwritten later by
`gen_scan_like`. -/
def sZSCAN1 : M (List (List Nat)) := do
  let k ← gen_key
  let c ← gen_int
  let m ← optPart 600000 (do let p ← gen_pattern; pure [pstr "MATCH", p])
  let cnt ← optPart 600000 (do let n ← rrStr 0 100000; pure [pstr "COUNT", n])
  pure ([pstr "ZSCAN", k, c] ++ m ++ cnt)

def sZPOPMAX : M (List (List Nat)) := do
  let k ← gen_key
  let c ← optPart 600000 (do let n ← rrStr 0 100000; pure [n])
  pure ([pstr "ZPOPMAX", k] ++ c)

def sZPOPMIN : M (List (List Nat)) := do
  let k ← gen_key
  let c ← optPart 600000 (do let n ← rrStr 0 100000; pure [n])
  pure ([pstr "ZPOPMIN", k] ++ c)

def sZRANDMEMBER : M (List (List Nat)) := do
  let k ← gen_key
  let c ← optPart 700000 (do let n ← gen_int; pure [n])
  let w ← optPart 400000 (pure [pstr "WITHSCORES"])
  pure ([pstr "ZRANDMEMBER", k] ++ c ++ w)

def sZINCRBY : M (List (List Nat)) := do
  let k ← gen_key
  let x ← gen_float
  let v ← gen_value
  pure [pstr "ZINCRBY", k, x, v]

def sZREMRANGEBYRANK : M (List (List Nat)) := do
  let k ← gen_key
  let a ← gen_int
  let b ← gen_int
  pure [pstr "ZREMRANGEBYRANK", k, a, b]

def sZREMRANGEBYSCORE : M (List (List Nat)) := do
  let k ← gen_key
  let a ← gen_float
  let b ← gen_float
  pure [pstr "ZREMRANGEBYSCORE", k, a, b]

def sZREMRANGEBYLEX : M (List (List Nat)) := do
  let k ← gen_key
  let a ← globChoice ([ "-", "[a", "(a", "[z", "+" ].map pstr)
  let b ← globChoice ([ "+", "[z", "(z", "[a", "-" ].map pstr)
  pure [pstr "ZREMRANGEBYLEX", k, a, b]

def sZMSCORE : M (List (List Nat)) := do
  let k ← gen_key
  let n ← rngRandrangeN 512
  let ms ← gen_members n.toNat
  pure ([pstr "ZMSCORE", k] ++ ms)

def sZINTER : M (List (List Nat)) := gen_zinter_union (pstr "ZINTER")

def sZUNION : M (List (List Nat)) := gen_zinter_union (pstr "ZUNION")

def sZINTERSTORE : M (List (List Nat)) := do
  let k ← gen_key
  let zi ← gen_zinter_union (pstr "ZINTER")
  pure ([pstr "ZINTERSTORE", k] ++ zi.drop 1)

def sZUNIONSTORE : M (List (List Nat)) := do
  let k ← gen_key
  let zu ← gen_zinter_union (pstr "ZUNION")
  pure ([pstr "ZUNIONSTORE", k] ++ zu.drop 1)

/- Streams -/

def sXADD : M (List (List Nat)) := do
  let k ← gen_key
  let sid ← gen_stream_id
  let a ← globChoice [pstr "*", pstr "0-0", sid]
  let n ← rngRandrangeN 64
  let fv ← gen_field_value_list n.toNat
  pure ([pstr "XADD", k, a] ++ fv)

def sXDEL : M (List (List Nat)) := do
  let k ← gen_key
  let n ← rngRandrangeN 512
  let ids ← gen_stream_ids n.toNat
  pure ([pstr "XDEL", k] ++ ids)

def sXLEN : M (List (List Nat)) := do
  let k ← gen_key
  pure [pstr "XLEN", k]

def sXRANGE : M (List (List Nat)) := do
  let k ← gen_key
  let s1 ← gen_stream_id
  let a ← globChoice [pstr "-", pstr "0-0", s1]
  let s2 ← gen_stream_id
  let b ← globChoice [pstr "+", pstr "$", s2]
  let c ← optPart 500000 (do let n ← rrStr 0 100000; pure [pstr "COUNT", n])
  pure ([pstr "XRANGE", k, a, b] ++ c)

def sXREVRANGE : M (List (List Nat)) := do
  let k ← gen_key
  let s1 ← gen_stream_id
  let a ← globChoice [pstr "+", pstr "$", s1]
  let s2 ← gen_stream_id
  let b ← globChoice [pstr "-", pstr "0-0", s2]
  let c ← optPart 500000 (do let n ← rrStr 0 100000; pure [pstr "COUNT", n])
  pure ([pstr "XREVRANGE", k, a, b] ++ c)

def sXREAD : M (List (List Nat)) := do
  let c ← optPart 700000 (do let n ← rrStr 0 100000; pure [pstr "COUNT", n])
  let b ← optPart 500000 (do let n ← rrStr 0 100000; pure [pstr "BLOCK", n])
  let k ← gen_key
  let sid ← gen_stream_id
  let a ← globChoice [pstr "$", pstr "0-0", sid]
  pure ([pstr "XREAD"] ++ c ++ b ++ [pstr "STREAMS", k, a])

def sXPENDING : M (List (List Nat)) := do
  let k ← gen_key
  let g ← globChoice GROUPS
  let ext ← optPart 500000 (do
    let a ← globChoice [pstr "-", pstr "+"]
    let b ← globChoice [pstr "-", pstr "+"]
    let n ← rrStr 0 100000
    pure [a, b, n])
  pure ([pstr "XPENDING", k, g] ++ ext)

def sXINFO : M (List (List Nat)) := do
  let w ← globChoice ([ "STREAM", "GROUPS", "CONSUMERS" ].map pstr)
  let k ← gen_key
  let ext ← optPart 300000 (do
    let g ← globChoice GROUPS
    let c ← globChoice CONSUMERS
    pure [g, c])
  pure ([pstr "XINFO", w, k] ++ ext)

def sXACK : M (List (List Nat)) := do
  let k ← gen_key
  let g ← globChoice GROUPS
  let n ← rngRandrangeN 512
  let ids ← gen_stream_ids n.toNat
  pure ([pstr "XACK", k, g] ++ ids)

def sXCLAIM : M (List (List Nat)) := do
  let k ← gen_key
  let g ← globChoice GROUPS
  let c ← globChoice CONSUMERS
  let t ← rrStr 0 100000
  let n ← rngRandrangeN 128
  let ids ← gen_stream_ids n.toNat
  let j ← optPart 300000 (pure [pstr "JUSTID"])
  pure ([pstr "XCLAIM", k, g, c, t] ++ ids ++ j)

def sXAUTOCLAIM : M (List (List Nat)) := do
  let k ← gen_key
  let g ← globChoice GROUPS
  let c ← globChoice CONSUMERS
  let t ← rrStr 0 100000
  let sid ← gen_stream_id
  let a ← globChoice [pstr "0-0", sid, pstr "$"]
  let cnt ← optPart 700000 (do let n ← rrStr 0 100000; pure [pstr "COUNT", n])
  pure ([pstr "XAUTOCLAIM", k, g, c, t, a] ++ cnt)

def sXSETID : M (List (List Nat)) := do
  let k ← gen_key
  let sid ← gen_stream_id
  let a ← globChoice [pstr "0-0", pstr "$", sid]
  let e ← optPart 400000 (do let n ← gen_int; pure [pstr "ENTRIESADDED", n])
  pure ([pstr "XSETID", k, a] ++ e)

def sXTRIM : M (List (List Nat)) := do
  let k ← gen_key
  let w ← globChoice [pstr "MAXLEN", pstr "MINID"]
  let t ← globChoice [pstr "~", pstr "=", pstr ""]
  let n ← rrStr 0 100000
  let lim ← optPart 500000 (do let m ← rrStr 0 100000; pure [pstr "LIMIT", m])
  pure ([pstr "XTRIM", k, w, t, n] ++ lim)

def sXACKDEL : M (List (List Nat)) := gen_xackdel_like (pstr "XACKDEL")

/- PubSub -/

def sPUBLISH : M (List (List Nat)) := do
  let c ← gen_channel
  let v ← gen_value
  pure [pstr "PUBLISH", c, v]

def sSUBSCRIBE : M (List (List Nat)) := do
  let n ← rngRandrangeN 64
  let cs ← mRep gen_channel n.toNat
  pure (pstr "SUBSCRIBE" :: cs)

def sUNSUBSCRIBE : M (List (List Nat)) := do
  let n ← rngRandrangeN 64
  let cs ← mRep gen_channel n.toNat
  pure (pstr "UNSUBSCRIBE" :: cs)

def sPSUBSCRIBE : M (List (List Nat)) := do
  let n ← rngRandrangeN 64
  let ps ← mRep gen_pattern n.toNat
  pure (pstr "PSUBSCRIBE" :: ps)

def sPUNSUBSCRIBE : M (List (List Nat)) := do
  let n ← rngRandrangeN 64
  let ps ← mRep gen_pattern n.toNat
  pure (pstr "PUNSUBSCRIBE" :: ps)

def sPUBSUB : M (List (List Nat)) :=
  rngIfLt 700000
    (do
      let w ← globChoice ([ "CHANNELS", "NUMSUB", "NUMPAT" ].map pstr)
      let p ← gen_pattern
      pure [pstr "PUBSUB", w, p])
    (do
      let w ← globChoice ([ "HELP", "SHARDCHANNELS", "SHARDNUMSUB" ].map pstr)
      pure [pstr "PUBSUB", w])

/- Scripting -/

def sEVALSHA : M (List (List Nat)) := do
  let h ← mutate_string (List.replicate 40 48)
  let n ← globChoice ([ "0", "1", "2" ].map pstr)
  let k ← optPart 500000 (do let x ← gen_key; pure [x])
  let v ← optPart 500000 (do let x ← gen_value; pure [x])
  pure ([pstr "EVALSHA", h, n] ++ k ++ v)

def sSCRIPT : M (List (List Nat)) :=
  rngIfLt 600000
    (do
      let w ← globChoice ([ "LOAD", "EXISTS", "FLUSH", "KILL", "HELP" ].map pstr)
      let v ← gen_value
      pure [pstr "SCRIPT", w, v])
    (pure [pstr "SCRIPT", pstr "HELP"])

/- Multi/exec, M*, watch -/

def sMULTI : M (List (List Nat)) := pure [pstr "MULTI"]

def sEXEC : M (List (List Nat)) := pure [pstr "EXEC"]

def sDISCARD : M (List (List Nat)) := pure [pstr "DISCARD"]

def sWATCH : M (List (List Nat)) := do
  let n ← rngRandrangeN 64
  let ks ← mRep gen_key n.toNat
  pure (pstr "WATCH" :: ks)

def sUNWATCH : M (List (List Nat)) := pure [pstr "UNWATCH"]

def sMGET : M (List (List Nat)) := do
  let n ← rngRandrangeN 256
  let ks ← mRep gen_key n.toNat
  pure (pstr "MGET" :: ks)

def sMSET : M (List (List Nat)) := do
  let n ← rngRandrangeN 128
  let kv ← gen_kv_pair_list n.toNat
  pure (pstr "MSET" :: kv)

def sMSETNX : M (List (List Nat)) := do
  let n ← rngRandrangeN 128
  let kv ← gen_kv_pair_list n.toNat
  pure (pstr "MSETNX" :: kv)

/-- The `add_spec` table, in source order.  The source stores specs in a
dict, so a later entry for the same name overwrites an earlier one
(HSCAN/SSCAN/ZSCAN are re-registered as `gen_scan_like` near the end);
`specLookup` therefore takes the LAST matching entry. -/
def SPECS : List (List Nat × M (List (List Nat))) :=
  [ (pstr "PING", sPING), (pstr "ECHO", sECHO), (pstr "GET", sGET), (pstr "SET", sSET),
    (pstr "APPEND", sAPPEND), (pstr "INCR", sINCR), (pstr "INCRBY", sINCRBY),
    (pstr "INCRBYFLOAT", sINCRBYFLOAT), (pstr "DECR", sDECR), (pstr "DECRBY", sDECRBY),
    (pstr "STRLEN", sSTRLEN), (pstr "GETRANGE", sGETRANGE), (pstr "SETRANGE", sSETRANGE),
    (pstr "GETSET", sGETSET), (pstr "GETDEL", sGETDEL), (pstr "GETEX", sGETEX),
    (pstr "SETEX", sSETEX), (pstr "PSETEX", sPSETEX), (pstr "SETNX", sSETNX),
    (pstr "DEL", sDEL), (pstr "UNLINK", sUNLINK), (pstr "EXISTS", sEXISTS),
    (pstr "TYPE", sTYPE), (pstr "TTL", sTTL), (pstr "PTTL", sPTTL),
    (pstr "EXPIRE", sEXPIRE), (pstr "PEXPIRE", sPEXPIRE), (pstr "EXPIREAT", sEXPIREAT),
    (pstr "PEXPIREAT", sPEXPIREAT), (pstr "PERSIST", sPERSIST), (pstr "RENAME", sRENAME),
    (pstr "RENAMENX", sRENAMENX), (pstr "MOVE", sMOVE), (pstr "SELECT", sSELECT),
    (pstr "KEYS", sKEYS), (pstr "DBSIZE", sDBSIZE), (pstr "RANDOMKEY", sRANDOMKEY),
    (pstr "HSET", sHSET), (pstr "HSETNX", sHSETNX), (pstr "HGET", sHGET),
    (pstr "HGETALL", sHGETALL), (pstr "HDEL", sHDEL), (pstr "HEXISTS", sHEXISTS),
    (pstr "HLEN", sHLEN), (pstr "HSTRLEN", sHSTRLEN), (pstr "HINCRBY", sHINCRBY),
    (pstr "HINCRBYFLOAT", sHINCRBYFLOAT), (pstr "HKEYS", sHKEYS), (pstr "HVALS", sHVALS),
    (pstr "HMGET", sHMGET), (pstr "HMSET", sHMSET), (pstr "HRANDFIELD", sHRANDFIELD),
    (pstr "HSCAN", sHSCAN1),
    (pstr "LPUSH", sLPUSH), (pstr "RPUSH", sRPUSH), (pstr "LPUSHX", sLPUSHX),
    (pstr "RPUSHX", sRPUSHX), (pstr "LPOP", sLPOP), (pstr "RPOP", sRPOP),
    (pstr "LRANGE", sLRANGE), (pstr "LLEN", sLLEN), (pstr "LINDEX", sLINDEX),
    (pstr "LSET", sLSET), (pstr "LREM", sLREM), (pstr "LTRIM", sLTRIM),
    (pstr "LINSERT", sLINSERT), (pstr "RPOPLPUSH", sRPOPLPUSH), (pstr "LMOVE", sLMOVE),
    (pstr "SADD", sSADD), (pstr "SREM", sSREM), (pstr "SCARD", sSCARD),
    (pstr "SMEMBERS", sSMEMBERS), (pstr "SISMEMBER", sSISMEMBER),
    (pstr "SMISMEMBER", sSMISMEMBER), (pstr "SPOP", sSPOP),
    (pstr "SRANDMEMBER", sSRANDMEMBER), (pstr "SMOVE", sSMOVE), (pstr "SDIFF", sSDIFF),
    (pstr "SDIFFSTORE", sSDIFFSTORE), (pstr "SINTER", sSINTER),
    (pstr "SINTERSTORE", sSINTERSTORE), (pstr "SUNION", sSUNION),
    (pstr "SUNIONSTORE", sSUNIONSTORE), (pstr "SSCAN", sSSCAN1),
    (pstr "ZADD", sZADD), (pstr "ZREM", sZREM), (pstr "ZCARD", sZCARD),
    (pstr "ZCOUNT", sZCOUNT), (pstr "ZSCORE", sZSCORE), (pstr "ZRANK", sZRANK),
    (pstr "ZREVRANK", sZREVRANK), (pstr "ZRANGE", sZRANGE),
    (pstr "ZREVRANGE", sZREVRANGE), (pstr "ZRANGEBYSCORE", sZRANGEBYSCORE),
    (pstr "ZREVRANGEBYSCORE", sZREVRANGEBYSCORE), (pstr "ZLEXCOUNT", sZLEXCOUNT),
    (pstr "ZRANGEBYLEX", sZRANGEBYLEX), (pstr "ZREVRANGEBYLEX", sZREVRANGEBYLEX),
    (pstr "ZSCAN", sZSCAN1), (pstr "ZPOPMAX", sZPOPMAX), (pstr "ZPOPMIN", sZPOPMIN),
    (pstr "ZRANDMEMBER", sZRANDMEMBER), (pstr "ZINCRBY", sZINCRBY),
    (pstr "ZREMRANGEBYRANK", sZREMRANGEBYRANK),
    (pstr "ZREMRANGEBYSCORE", sZREMRANGEBYSCORE),
    (pstr "ZREMRANGEBYLEX", sZREMRANGEBYLEX), (pstr "ZMSCORE", sZMSCORE),
    (pstr "ZINTER", sZINTER), (pstr "ZUNION", sZUNION),
    (pstr "ZINTERSTORE", sZINTERSTORE), (pstr "ZUNIONSTORE", sZUNIONSTORE),
    (pstr "XADD", sXADD), (pstr "XDEL", sXDEL), (pstr "XLEN", sXLEN),
    (pstr "XRANGE", sXRANGE), (pstr "XREVRANGE", sXREVRANGE),
    (pstr "XGROUP", gen_xgroup), (pstr "XREADGROUP", gen_xreadgroup),
    (pstr "XREAD", sXREAD), (pstr "XPENDING", sXPENDING), (pstr "XINFO", sXINFO),
    (pstr "XACK", sXACK), (pstr "XCLAIM", sXCLAIM), (pstr "XAUTOCLAIM", sXAUTOCLAIM),
    (pstr "XSETID", sXSETID), (pstr "XTRIM", sXTRIM),
    (pstr "XACKDEL", sXACKDEL),
    (pstr "PUBLISH", sPUBLISH), (pstr "SUBSCRIBE", sSUBSCRIBE),
    (pstr "UNSUBSCRIBE", sUNSUBSCRIBE), (pstr "PSUBSCRIBE", sPSUBSCRIBE),
    (pstr "PUNSUBSCRIBE", sPUNSUBSCRIBE), (pstr "PUBSUB", sPUBSUB),
    (pstr "EVAL", gen_minimal_eval), (pstr "EVALSHA", sEVALSHA),
    (pstr "SCRIPT", sSCRIPT),
    (pstr "SCAN", gen_scan_like (pstr "SCAN")),
    (pstr "HSCAN", gen_scan_like (pstr "HSCAN")),
    (pstr "SSCAN", gen_scan_like (pstr "SSCAN")),
    (pstr "ZSCAN", gen_scan_like (pstr "ZSCAN")),
    (pstr "MULTI", sMULTI), (pstr "EXEC", sEXEC), (pstr "DISCARD", sDISCARD),
    (pstr "WATCH", sWATCH), (pstr "UNWATCH", sUNWATCH),
    (pstr "MGET", sMGET), (pstr "MSET", sMSET), (pstr "MSETNX", sMSETNX) ]

/-- `SPECS[name]` with dict overwrite semantics: the last binding wins. -/
def specLookup (name : List Nat) : Option (M (List (List Nat))) :=
  (SPECS.reverse.find? (fun p => p.1 = name)).map (fun p => p.2)

/- ====================================================================
   src/mutator.py — generic fallback and command dispatch
   ==================================================================== -/

def gen_generic (cmdname : List Nat) : M (List (List Nat)) := do
  let mode ← rngChoice GENERIC_MODES
  if mode = pstr "none" then pure [cmdname]
  else if mode = pstr "key" then do
    let k ← gen_key
    pure [cmdname, k]
  else if mode = pstr "key_key" then do
    let a ← gen_key
    let b ← gen_key
    pure [cmdname, a, b]
  else if mode = pstr "key_int" then do
    let k ← gen_key
    let n ← gen_int
    pure [cmdname, k, n]
  else if mode = pstr "key_val" then do
    let k ← gen_key
    let v ← gen_value
    pure [cmdname, k, v]
  else if mode = pstr "key_field" then do
    let k ← gen_key
    let f ← gen_field
    pure [cmdname, k, f]
  else if mode = pstr "key_field_val" then do
    let k ← gen_key
    let f ← gen_field
    let v ← gen_value
    pure [cmdname, k, f, v]
  else if mode = pstr "pattern" then do
    let p ← gen_pattern
    pure [cmdname, p]
  else if mode = pstr "ints" then do
    let n ← rngRandrangeN 32
    let xs ← mRep gen_int n.toNat
    pure (cmdname :: xs)
  else do
    -- vals
    let n ← rngRandrangeN 64
    let xs ← mRep gen_value n.toNat
    pure (cmdname :: xs)

def gen_any_command : M (List (List Nat)) := do
  let name ← rngChoice ALL_COMMANDS_UP
  if name = pstr "HOST:" then
    rngIfLt 500000
      (do let v ← gen_value; pure [pstr "HOST:", v])
      (pure [pstr "HOST:"])
  else
    match specLookup name with
    | some g => rngIfLt 850000 g (gen_generic name)
    | none => gen_generic name

/- ====================================================================
   src/mutator.py — command-level mutation
   ==================================================================== -/

/-- AFL++ knobs (environment defaults: MUTATOR_REDIS_MAX_CMDS=2000,
MUTATOR_REDIS_MAX_ARGS=4096). -/
def MAX_CMDS : Nat := 2000
def MAX_ARGS : Nat := 4096

def mutate_varlen_stream_ids (argv : List (List Nat)) : M (List (List Nat)) := do
  if argv = [] then pure argv
  else do
    let cmd := asciiUpper (argv.headD [])
    let out := argv
    if cmd = pstr "XACKDEL" then do
      let stream ← if out.length > 1 then pure (out.getD 1 []) else gen_key
      let group ← if out.length > 2 then pure (out.getD 2 []) else globChoice GROUPS
      let n ← rngChoice ([0, 1, 2, 7, 8, 9, 10, 15, 16, 17, 31, 32, 64, 65, 128, 256] : List Int)
      let idsLen ← (do
        let v ← rngRandomM
        if v < 400000 then do
          let b ← rngRandrange 1 128
          pure (max 0 (min (n + b) 512))
        else pure n)
      let idsLen ← (do
        let v ← rngRandomM
        if v < 200000 then pure (max 0 (min (max 0 (n / 2)) 512))
        else pure idsLen)
      let ids ← gen_stream_ids idsLen.toNat
      pure ([pstr "XACKDEL", stream, group, pstr "IDS", intStr n] ++ ids)
    else if cmd = pstr "XACK" then do
      let stream ← if out.length > 1 then pure (out.getD 1 []) else gen_key
      let group ← if out.length > 2 then pure (out.getD 2 []) else globChoice GROUPS
      let n ← rngChoice ([0, 1, 2, 7, 8, 9, 10, 15, 16, 17, 31, 32, 64, 65, 128, 512] : List Int)
      let ids ← gen_stream_ids (min n 512).toNat
      let ids ← (do
        let v ← rngRandomM
        if v < 300000 then do
          let k ← rngRandrange 2 20
          pure ((List.replicate k.toNat ids).flatten)
        else pure ids)
      pure ([pstr "XACK", stream, group] ++ ids.take MAX_ARGS)
    else if cmd = pstr "XDEL" then do
      let stream ← if out.length > 1 then pure (out.getD 1 []) else gen_key
      let n ← rngChoice ([0, 1, 2, 7, 8, 9, 10, 15, 16, 17, 31, 32, 64, 65, 128, 512] : List Int)
      let ids ← gen_stream_ids (min n 512).toNat
      let ids ← (do
        let v ← rngRandomM
        if v < 300000 then do
          let k ← rngRandrange 2 20
          pure ((List.replicate k.toNat ids).flatten)
        else pure ids)
      pure ([pstr "XDEL", stream] ++ ids.take MAX_ARGS)
    else pure out

/-- The `for i in range(1, len(out))` loop of `mutate_one_command`:
each non-command argument is, with probability 0.20, mutated by
`mutate_int_str` when it looks like a base-10 integer, else by
`mutate_string`. -/
def mutArgsGo : List (List Nat) → M (List (List Nat))
  | [] => pure []
  | a :: rest => do
    let a2 ← (do
      let v ← rngRandomM
      if v < 200000 then
        if isIntLike a then mutate_int_str a else mutate_string a
      else pure a)
    let rest2 ← mutArgsGo rest
    pure (a2 :: rest2)

/-- The `rng.random() < 0.22` insertion step of `mutate_one_command`. -/
def mocInsert (out : List (List Nat)) : M (List (List Nat)) := do
  let v ← rngRandomM
  if v < 220000 then do
    let pos ← rngRandrange 1 ((out.length : Int) + 1)
    let pool ← rngIfLt 300000
      (pure (TOKENS ++ KEYS ++ FIELDS ++ VALUES ++ REDIS_OPTIONS))
      (pure (TOKENS ++ KEYS ++ FIELDS ++ VALUES))
    let x ← rngChoice pool
    pure (out.take pos.toNat ++ [x] ++ out.drop pos.toNat)
  else pure out

/-- The `rng.random() < 0.15 and len(out) > 1` deletion step. -/
def mocDelete (out : List (List Nat)) : M (List (List Nat)) := do
  let v ← rngRandomM
  if v < 150000 ∧ out.length > 1 then do
    let pos ← rngRandrange 1 (out.length : Int)
    pure (out.take pos.toNat ++ out.drop (pos.toNat + 1))
  else pure out

/-- The `rng.random() < 0.12 and len(out) > 2` block-duplication step. -/
def mocDup (out : List (List Nat)) : M (List (List Nat)) := do
  let v ← rngRandomM
  if v < 120000 ∧ out.length > 2 then do
    let i ← rngRandrange 1 (out.length : Int)
    let j ← rngRandrange i (out.length : Int)
    let sl := if j > i then pySliceII out i j else [out.getD i.toNat []]
    let pos ← rngRandrange 1 ((out.length : Int) + 1)
    let k ← rngRandrange 2 40
    pure (out.take pos.toNat ++ (List.replicate k.toNat sl).flatten ++ out.drop pos.toNat)
  else pure out

/-- The vararg-explosion step (only for the listed vararg commands). -/
def mocVararg (cmd0 : List Nat) (out : List (List Nat)) : M (List (List Nat)) :=
  if cmd0 = pstr "MSET" ∨ cmd0 = pstr "SADD" ∨ cmd0 = pstr "ZADD" ∨ cmd0 = pstr "DEL" ∨
      cmd0 = pstr "UNLINK" ∨ cmd0 = pstr "EXISTS" ∨ cmd0 = pstr "MGET" ∨
      cmd0 = pstr "HDEL" ∨ cmd0 = pstr "HMGET" ∨ cmd0 = pstr "ZREM" then do
    let v ← rngRandomM
    if v < 350000 then do
      let extra ← rngRandrangeN 512
      if cmd0 = pstr "MSET" then do
        let xs ← gen_kv_pair_list (extra.toNat / 2)
        pure (out ++ xs)
      else if cmd0 = pstr "ZADD" then do
        let xs ← gen_zadd_pairs (extra.toNat / 2)
        pure (out ++ xs)
      else if cmd0 = pstr "DEL" ∨ cmd0 = pstr "UNLINK" ∨ cmd0 = pstr "EXISTS" ∨
          cmd0 = pstr "MGET" then do
        let xs ← mRep gen_key extra.toNat
        pure (out ++ xs)
      else if cmd0 = pstr "HDEL" ∨ cmd0 = pstr "HMGET" then do
        let xs ← mRep gen_field extra.toNat
        pure (out ++ xs)
      else do
        let xs ← mRep gen_value extra.toNat
        pure (out ++ xs)
    else pure out
  else pure out

/-- `mutate_one_command` after the whole-replacement and stream-ID
special cases: casing, per-argument mutation, insert/delete/duplicate,
vararg explosion, MAX_ARGS cap.  `cmd0` is the upper-cased ORIGINAL
first argument. -/
def mutate_one_core (out0 : List (List Nat)) (cmd0 : List Nat) : M (List (List Nat)) := do
  let h ← rngIfLt 900000 (pure cmd0) (mutate_string (out0.headD []))
  let tail2 ← mutArgsGo out0.tail
  let out := h :: tail2
  let out ← mocInsert out
  let out ← mocDelete out
  let out ← mocDup out
  let out ← mocVararg cmd0 out
  pure (if out.length > MAX_ARGS then out.take MAX_ARGS else out)

def mutate_one_command (argv : List (List Nat)) : M (List (List Nat)) := do
  if argv = [] then pure argv
  else do
    let cmd0 := asciiUpper (argv.headD [])
    rngIfLt 180000 gen_any_command
      (if cmd0 = pstr "XACKDEL" ∨ cmd0 = pstr "XACK" ∨ cmd0 = pstr "XDEL" then
        rngIfLt 850000 (mutate_varlen_stream_ids argv) (mutate_one_core argv cmd0)
      else mutate_one_core argv cmd0)

/- ====================================================================
   src/mutator.py — program-level mutation
   ==================================================================== -/

/-- Bootstrap of an empty decoded Program:
`[gen_any_command(rng) for _ in range(rng.randrange(1, 8))]`. -/
def bootstrapProg : M (List (List (List Nat))) := do
  let k ← rngRandrange 1 8
  mRep gen_any_command k.toNat

/-- Action-1 batch: `for _ in range(n)` pick a random index and mutate
that command in place. -/
def batchGo (cmds : List (List (List Nat))) : Nat → M (List (List (List Nat)))
  | 0 => pure cmds
  | n + 1 => do
    let idx ← rngRandrangeN (cmds.length : Int)
    let c2 ← mutate_one_command (cmds.getD idx.toNat [])
    batchGo (cmds.set idx.toNat c2) n

/-- Else-branch rewrite: each command is independently replaced by a
freshly generated one with probability 0.6. -/
def rewriteGo : List (List (List Nat)) → M (List (List (List Nat)))
  | [] => pure []
  | c :: rest => do
    let c2 ← rngIfLt 600000 gen_any_command (pure c)
    let rest2 ← rewriteGo rest
    pure (c2 :: rest2)

/-- Everything of `mutate_program` after the bootstrap: the
action dispatch and the MAX_CMDS cap.  Note the Python `elif action ==
3 and len(cmds) > 1` chain: when action is 3 but only one command is
present, control falls through to the final else (the rewrite
branch). -/
def mutateAction (action : Int) (cmds : List (List (List Nat))) :
    M (List (List (List Nat))) :=
    if action = 0 then do
      let idx ← rngRandrangeN (cmds.length : Int)
      let c2 ← mutate_one_command (cmds.getD idx.toNat [])
      pure (cmds.set idx.toNat c2)
    else if action = 1 then do
      let n ← rngRandrange 1 (((min 8 cmds.length : Nat) : Int) + 1)
      batchGo cmds n.toNat
    else if action = 2 then do
      let idx ← rngRandrangeN ((cmds.length : Int) + 1)
      let c ← gen_any_command
      pure (cmds.take idx.toNat ++ [c] ++ cmds.drop idx.toNat)
    else if action = 3 ∧ cmds.length > 1 then do
      let idx ← rngRandrangeN (cmds.length : Int)
      pure (cmds.take idx.toNat ++ cmds.drop (idx.toNat + 1))
    else if action = 4 then rngShuffle cmds
    else if action = 5 then do
      let i ← rngRandrangeN (cmds.length : Int)
      let j ← rngRandrange i (cmds.length : Int)
      let block := if j > i then pySliceII cmds i j else [cmds.getD i.toNat []]
      let pos ← rngRandrangeN ((cmds.length : Int) + 1)
      let k ← rngRandrange 2 30
      pure (cmds.take pos.toNat ++ (List.replicate k.toNat block).flatten ++
        cmds.drop pos.toNat)
    else if action = 6 then do
      let stream ← gen_key
      let group ← globChoice GROUPS
      let cmds := [pstr "XADD", stream, pstr "*", pstr "field1", pstr "value1"] ::
        [pstr "XGROUP", pstr "CREATE", stream, group, pstr "0-0", pstr "MKSTREAM"] :: cmds
      let x ← gen_xackdel_like (pstr "XACKDEL")
      pure (cmds ++ [x])
    else rewriteGo cmds

def mutateRest (cmds : List (List (List Nat))) : M (List (List (List Nat))) := do
  let action ← rngRandrangeN 8
  let cmds ← mutateAction action cmds
  pure (if cmds.length > MAX_CMDS then cmds.take MAX_CMDS else cmds)

/-- `mutate_program(cmds, rng)`: copy out the non-empty commands,
bootstrap when none remain, apply one program-level action, cap. -/
def mutate_program (cmds0 : List (List (List Nat))) : M (List (List (List Nat))) :=
  let cmds := cmds0.filter (fun c => ¬ c.isEmpty)
  (if cmds.isEmpty then bootstrapProg else pure cmds) >>= fun cmds =>
  mutateRest cmds

/- ====================================================================
   src/mutator.py — inline tokenization and rendering
   ==================================================================== -/

/-- `str.splitlines` boundary characters. -/
def isLineBreak (c : Nat) : Bool :=
  c = 10 ∨ c = 13 ∨ c = 11 ∨ c = 12 ∨ c = 28 ∨ c = 29 ∨ c = 30 ∨ c = 133 ∨
    c = 0x2028 ∨ c = 0x2029

def splitlinesGo : Nat → List Nat → List Nat → List (List Nat)
  | _, [], cur => [cur]
  | 0, _ :: _, _ => []
  | fuel + 1, c :: rest, cur =>
    if c = 13 ∧ rest.head? = some 10 then
      cur :: (if rest.tail.isEmpty then [] else splitlinesGo fuel rest.tail [])
    else if isLineBreak c then
      cur :: (if rest.isEmpty then [] else splitlinesGo fuel rest [])
    else splitlinesGo fuel rest (cur ++ [c])

/-- Every `splitlinesGo` step drops at least the leading character, so
`s.length` steps of fuel always suffice and the fuel-exhaustion arm is
unreachable from this entry point. -/
def pySplitlines (s : List Nat) : List (List Nat) :=
  match s with
  | [] => []
  | l => splitlinesGo l.length l []

/-- `str.strip()`. -/
def pyStripStr (l : List Nat) : List Nat :=
  (l.dropWhile isPySpace).reverse.dropWhile isPySpace |>.reverse

/-- The quoted alternative of `_TOKEN_RE`, entered after the opening
quote: consume `\\.`-pairs and non-quote, non-backslash characters until
a closing quote; returns the consumed body and the remainder, `none`
when no closing quote is reachable. -/
def tokQ : List Nat → Option (List Nat × List Nat)
  | [] => none
  | 34 :: rest => some ([], rest)
  | 92 :: [] => none
  | 92 :: d :: r2 => (tokQ r2).map (fun p => (92 :: d :: p.1, p.2))
  | c :: rest => (tokQ rest).map (fun p => (c :: p.1, p.2))

theorem dropWhile_length_le (p : Nat → Bool) :
    ∀ (l : List Nat), (l.dropWhile p).length ≤ l.length
  | [] => le_rfl
  | a :: t => by
    rw [List.dropWhile_cons]
    split
    · exact le_trans (dropWhile_length_le p t) (Nat.le_succ _)
    · exact le_rfl

theorem tokQ_rest_le : ∀ (l : List Nat), ∀ inner r,
    tokQ l = some (inner, r) → r.length ≤ l.length := by
  intro l
  induction l using tokQ.induct with
  | case1 => intro inner r h; simp [tokQ] at h
  | case2 rest => intro inner r h; simp [tokQ] at h; simp [h.2.symm]
  | case3 => intro inner r h; simp [tokQ] at h
  | case4 d r2 ih =>
    intro inner r h
    simp only [tokQ, Option.map_eq_some'] at h
    obtain ⟨p, hp, heq⟩ := h
    have h2 : p.2 = r := by simpa using congrArg Prod.snd heq
    subst h2
    have := ih p.1 p.2 hp
    simp only [List.length_cons]
    omega
  | case5 c rest hne1 hne2 hne3 ih =>
    intro inner r h
    simp only [tokQ, Option.map_eq_some'] at h
    obtain ⟨p, hp, heq⟩ := h
    have h2 : p.2 = r := by simpa using congrArg Prod.snd heq
    subst h2
    have := ih p.1 p.2 hp
    simp only [List.length_cons]
    omega

/-- `_TOKEN_RE.findall(line)`: at each scan position the quoted
alternative is tried first, then the greedy bare-word `[^\s]+`;
whitespace advances the scan. -/
def findTokensGo : Nat → List Nat → List (List Nat)
  | _, [] => []
  | 0, _ :: _ => []
  | fuel + 1, c :: rest =>
    if c = 34 then
      match tokQ rest with
      | some (inner, r) => (34 :: (inner ++ [34])) :: findTokensGo fuel r
      | none =>
        (c :: rest.takeWhile (fun x => ¬ isPySpace x)) ::
          findTokensGo fuel (rest.dropWhile (fun x => ¬ isPySpace x))
    else if ¬ isPySpace c then
      (c :: rest.takeWhile (fun x => ¬ isPySpace x)) ::
        findTokensGo fuel (rest.dropWhile (fun x => ¬ isPySpace x))
    else findTokensGo fuel rest

/-- Every scan step of `findTokensGo` consumes at least the leading
character (`tokQ_rest_le` and `dropWhile_length_le` bound the remainder
by `rest.length`), so `l.length` steps of fuel always suffice: the
fuel-exhaustion arm is unreachable from this entry point. -/
def findTokens (l : List Nat) : List (List Nat) := findTokensGo l.length l

/-- `_unquote(tok)`: strip a surrounding quote pair, then the two
SEQUENTIAL replaces of the source (`\"` to `"` first, `\\` to `\`
second). -/
def pyReplace2 (p1 p2 : Nat) (repl : List Nat) : List Nat → List Nat
  | [] => []
  | [x] => [x]
  | x :: y :: rest =>
    if x = p1 ∧ y = p2 then repl ++ pyReplace2 p1 p2 repl rest
    else x :: pyReplace2 p1 p2 repl (y :: rest)

def pyUnquote (tok : List Nat) : List Nat :=
  if tok.length ≥ 2 ∧ tok.head? = some 34 ∧ tok.getLast? = some 34 then
    pyReplace2 92 92 [92] (pyReplace2 92 34 [34] ((tok.drop 1).dropLast))
  else tok

/-- `parse_inline(buf)`. -/
def parse_inline (buf : List Nat) : List (List (List Nat)) :=
  let s := utf8Decode buf
  ((pySplitlines s).map (fun line =>
    let line := pyStripStr line
    if line.isEmpty then []
    else if line.head? = some 35 ∨ line.take 2 = [47, 47] then []
    else (findTokens line).map pyUnquote)).filter (fun argv => ¬ argv.isEmpty)

/- ====================================================================
   src/mutator.py — rendering and fuzz
   ==================================================================== -/

/-- `_quote(tok, rng)`: always quote when the token contains whitespace
or a quote; otherwise quote with probability 0.10 (the random draw is
short-circuited away when quoting is forced). -/
def pyQuote (tok : List Nat) : M (List Nat) := do
  let forced := tok.any isPySpace ∨ 34 ∈ tok
  let q ← if forced then pure true else (do
    let v ← rngRandomM
    pure (decide (v < 100000)))
  if q then
    pure ([34] ++ (tok.map (fun c =>
      if c = 92 then [92, 92] else if c = 34 then [92, 34] else [c])).flatten ++ [34])
  else pure tok

/-- The line-building loop of `render_inline`: one space-joined line per
non-empty command. -/
def renderLinesGo : List (List (List Nat)) → M (List (List Nat))
  | [] => pure []
  | argv :: rest =>
    if argv.isEmpty then renderLinesGo rest
    else do
      let qs ← mMap pyQuote argv
      let rest2 ← renderLinesGo rest
      pure ((List.intersperse [32] qs).flatten :: rest2)

/-- `render_inline(cmds, rng)`: newline-joined lines plus a trailing
newline, UTF-8 encoded. -/
def render_inline (cmds : List (List (List Nat))) : M (List Nat) := do
  let lines ← renderLinesGo cmds
  pure (utf8Encode ((List.intersperse [10] lines).flatten ++ [10]))

/-- `render_resp_strict(cmds)`: string-level arguments are UTF-8 encoded
and framed by the binary length-prefixed encoding (`render_resp_binary`);
with the default STRICT_RESP=1 both branches of the source's keep-toggle
emit `b + b"\r\n"`. -/
def render_resp_strict (cmds : List (List (List Nat))) : List Nat :=
  render_resp_binary (cmds.map (fun argv => argv.map utf8Encode))

/-- The `if cmds:`-guarded first splice cut of the donor branch. -/
def spliceCut1 (cmds : List (List (List Nat))) : M Nat :=
  if cmds ≠ [] then do
    let c ← rngRandrangeN ((cmds.length : Int) + 1)
    pure c.toNat
  else pure 0

/-- The `add_buf` donor-splice step of `fuzz` (probability 0.25 when a
non-empty donor is present). -/
def spliceDonor (cmds : List (List (List Nat))) (add_buf : Option (List Nat)) :
    M (List (List (List Nat))) :=
  match add_buf with
  | some ab =>
    if ab ≠ [] then
      rngIfLt 250000
        (do
          let other := parse_inline ab
          if other ≠ [] then do
            let cut1 ← spliceCut1 cmds
            let cut2 ← rngRandrangeN ((other.length : Int) + 1)
            pure ((if cmds ≠ [] then cmds.take cut1 else []) ++ other.drop cut2.toNat)
          else pure cmds)
        (pure cmds)
    else pure cmds
  | none => pure cmds

/-- `fuzz(buf, add_buf, max_size)` of mutator.py.  The per-call
`rng_from_buf` seeding (sha256 of `buf[:256]`, low 8 bytes) makes the
`loc` stream of the monad state a function of the buffer; the `glob`
stream is the global random module's state.  `fmtResp` is the
`MUTATOR_REDIS_FORMAT=resp` configuration switch (default false =
inline).  The `_initialized` flag set by `init` has no effect on the
output and is not modelled. -/
def fuzz (buf : List Nat) (add_buf : Option (List Nat)) (max_size : Int)
    (fmtResp : Bool) : M (List Nat) :=
  let cmds := parse_inline buf
  spliceDonor cmds add_buf >>= fun cmds =>
  mutate_program cmds >>= fun mutated =>
  (if fmtResp then pure (render_resp_strict mutated) else render_inline mutated) >>=
    fun out =>
  pure (if (out.length : Int) > max_size then pySliceII out 0 max_size else out)

/- ====================================================================
   Totality of the mutation path.

   `MTot m P` states that the computation `m` completes from EVERY
   random-source state (no Python exception is raised), and that its
   result satisfies `P`.  The lemmas below walk the entire generator
   and mutator call graph of mutator.py, establishing claims C6, C9 and
   C10.
   ==================================================================== -/

def nonNil (l : List (List Nat)) : Prop := l ≠ []

def MTot {α : Type} (m : M α) (P : α → Prop) : Prop :=
  ∀ s, ∃ a s2, m s = some (a, s2) ∧ P a

def MAll {α : Type} (m : M α) : Prop := MTot m (fun _ => True)

theorem bind_run {α β : Type} (m : M α) (f : α → M β) (s : PyRand) :
    (m >>= f) s = match m s with
      | none => none
      | some (a, s2) => f a s2 := rfl

theorem MTot.pure {α : Type} {P : α → Prop} {a : α} (h : P a) :
    MTot (pure a : M α) P := fun s => ⟨a, s, rfl, h⟩

theorem MTot.bind {α β : Type} {m : M α} {f : α → M β} {P : α → Prop} {Q : β → Prop}
    (hm : MTot m P) (hf : ∀ a, P a → MTot (f a) Q) : MTot (m >>= f) Q := by
  intro s
  obtain ⟨a, s2, h1, hp⟩ := hm s
  obtain ⟨b, s3, h2, hq⟩ := hf a hp s2
  exact ⟨b, s3, by rw [bind_run, h1]; exact h2, hq⟩

theorem MTot.mono {α : Type} {m : M α} {P Q : α → Prop}
    (hm : MTot m P) (h : ∀ a, P a → Q a) : MTot m Q := by
  intro s
  obtain ⟨a, s2, h1, hp⟩ := hm s
  exact ⟨a, s2, h1, h a hp⟩

theorem MAll.bind_ne {α : Type} {m : M α} {f : α → M (List (List Nat))}
    (hm : MAll m) (hf : ∀ a, MTot (f a) nonNil) : MTot (m >>= f) nonNil :=
  MTot.bind hm (fun a _ => hf a)

theorem MAll.bind_all {α β : Type} {m : M α} {f : α → M β}
    (hm : MAll m) (hf : ∀ a, MAll (f a)) : MAll (m >>= f) :=
  MTot.bind hm (fun a _ => hf a)

theorem locDraw_tot : MAll locDraw := fun _ => ⟨_, _, rfl, trivial⟩

theorem globDraw_tot : MAll globDraw := fun _ => ⟨_, _, rfl, trivial⟩

theorem rngRandomM_tot : MAll rngRandomM :=
  MAll.bind_all locDraw_tot (fun _ => MTot.pure trivial)

theorem MTot.ifLt {α : Type} {P : α → Prop} (p : Nat) {a b : M α}
    (h1 : MTot a P) (h2 : MTot b P) : MTot (rngIfLt p a b) P := by
  unfold rngIfLt
  exact MTot.bind rngRandomM_tot (fun v _ => by
    by_cases h : v < p
    · rw [if_pos h]; exact h1
    · rw [if_neg h]; exact h2)

theorem MTot.ite {α : Type} {P : α → Prop} (c : Prop) [Decidable c] {a b : M α}
    (h1 : c → MTot a P) (h2 : ¬ c → MTot b P) : MTot (if c then a else b) P := by
  by_cases h : c
  · rw [if_pos h]; exact h1 h
  · rw [if_neg h]; exact h2 h

theorem rngRandrange_tot {lo hi : Int} (h : lo < hi) :
    MTot (rngRandrange lo hi) (fun v => lo ≤ v ∧ v < hi) := by
  unfold rngRandrange
  rw [if_neg (by omega)]
  refine MTot.bind locDraw_tot (fun v _ => MTot.pure ?_)
  have hpos : 0 < (hi - lo).toNat := by omega
  have hm := Nat.mod_lt v hpos
  omega

theorem rngRandrangeN_tot {hi : Int} (h : 0 < hi) :
    MTot (rngRandrangeN hi) (fun v => 0 ≤ v ∧ v < hi) :=
  rngRandrange_tot h

theorem getD_mem {α : Type} (l : List α) (n : Nat) (d : α) (h : n < l.length) :
    l.getD n d ∈ l := by
  rw [List.getD_eq_getElem?_getD, List.getElem?_eq_getElem h]
  exact List.getElem_mem h

theorem rngChoice_tot {α : Type} {xs : List α} (h : xs ≠ []) :
    MTot (rngChoice xs) (fun a => a ∈ xs) := by
  match xs with
  | [] => exact absurd rfl h
  | x :: t =>
    refine MTot.bind locDraw_tot (fun v _ => MTot.pure ?_)
    exact getD_mem _ _ _ (Nat.mod_lt _ (by simp))

theorem globChoice_tot {α : Type} {xs : List α} (h : xs ≠ []) :
    MTot (globChoice xs) (fun a => a ∈ xs) := by
  match xs with
  | [] => exact absurd rfl h
  | x :: t =>
    refine MTot.bind globDraw_tot (fun v _ => MTot.pure ?_)
    exact getD_mem _ _ _ (Nat.mod_lt _ (by simp))

theorem rngChoice_all {α : Type} {xs : List α} (h : xs ≠ []) : MAll (rngChoice xs) :=
  (rngChoice_tot h).mono (fun _ _ => trivial)

theorem globChoice_all {α : Type} {xs : List α} (h : xs ≠ []) : MAll (globChoice xs) :=
  (globChoice_tot h).mono (fun _ _ => trivial)

theorem rngRandrange_all {lo hi : Int} (h : lo < hi) : MAll (rngRandrange lo hi) :=
  (rngRandrange_tot h).mono (fun _ _ => trivial)

theorem rrStr_tot {lo hi : Int} (h : lo < hi) : MAll (rrStr lo hi) :=
  MAll.bind_all (rngRandrange_all h) (fun _ => MTot.pure trivial)

theorem mRep_tot {α : Type} {g : M α} {P : α → Prop} (hg : MTot g P) :
    ∀ n, MTot (mRep g n) (fun l => l.length = n ∧ ∀ x ∈ l, P x)
  | 0 => MTot.pure (by simp)
  | n + 1 => by
    refine MTot.bind hg (fun x hx => ?_)
    refine MTot.bind (mRep_tot hg n) (fun l hl => MTot.pure ?_)
    obtain ⟨h1, h2⟩ := hl
    refine ⟨by simp [h1], ?_⟩
    intro y hy
    rcases List.mem_cons.mp hy with rfl | hy2
    · exact hx
    · exact h2 y hy2

theorem mRep_all {α : Type} {g : M α} (hg : MAll g) (n : Nat) : MAll (mRep g n) :=
  (mRep_tot hg n).mono (fun _ _ => trivial)

theorem mMap_all {α β : Type} {g : α → M β} (hg : ∀ a, MAll (g a)) :
    ∀ l, MAll (mMap g l)
  | [] => MTot.pure trivial
  | a :: rest =>
    MAll.bind_all (hg a) (fun _ =>
      MAll.bind_all (mMap_all hg rest) (fun _ => MTot.pure trivial))

theorem optPart_all (p : Nat) {m : M (List (List Nat))} (hm : MAll m) :
    MAll (optPart p m) :=
  MTot.ifLt p hm (MTot.pure trivial)

theorem listSwap_length {α : Type} (l : List α) (i j : Nat) :
    (listSwap l i j).length = l.length := by
  unfold listSwap
  split
  · simp
  · rfl

theorem listSwap_mem {α : Type} {l : List α} {i j : Nat} {a : α}
    (h : a ∈ listSwap l i j) : a ∈ l := by
  unfold listSwap at h
  split at h
  next b c hb hc =>
    rcases List.mem_or_eq_of_mem_set h with h2 | rfl
    · rcases List.mem_or_eq_of_mem_set h2 with h3 | rfl
      · exact h3
      · exact List.get?_mem hc
    · exact List.get?_mem hb
  next => exact h

theorem rngShuffleGo_tot {α : Type} (P : α → Prop) :
    ∀ (n : Nat) (l : List α), (∀ x ∈ l, P x) →
      MTot (rngShuffleGo l n) (fun r => r.length = l.length ∧ ∀ x ∈ r, P x)
  | 0, l, hl => MTot.pure ⟨rfl, hl⟩
  | n + 1, l, hl => by
    refine MTot.bind locDraw_tot (fun v _ => ?_)
    refine (rngShuffleGo_tot P n (listSwap l (n + 1) (v % (n + 2)))
      (fun x hx => hl x (listSwap_mem hx))).mono ?_
    intro r ⟨h1, h2⟩
    exact ⟨by rw [h1, listSwap_length], h2⟩

theorem rngShuffle_tot {α : Type} {P : α → Prop} {l : List α} (hl : ∀ x ∈ l, P x) :
    MTot (rngShuffle l) (fun r => r.length = l.length ∧ ∀ x ∈ r, P x) := by
  unfold rngShuffle
  split
  · exact MTot.pure ⟨rfl, hl⟩
  · exact rngShuffleGo_tot P _ l hl

set_option maxRecDepth 8192 in
theorem map_pstr_ne (s : String) (l : List String) : (s :: l).map pstr ≠ [] := by
  simp

theorem app_ne_left {α : Type} {l1 : List α} (h : l1 ≠ []) (l2 : List α) :
    l1 ++ l2 ≠ [] := by
  intro he
  exact h (List.append_eq_nil.mp he).1

set_option maxRecDepth 8192 in
theorem TOKENS_ne : TOKENS ≠ [] := by
  unfold TOKENS
  simp only [List.map_cons, List.cons_append]
  exact List.cons_ne_nil _ _

theorem KEYS_ne : KEYS ≠ [] := map_pstr_ne _ _

theorem FIELDS_ne : FIELDS ≠ [] := map_pstr_ne _ _

theorem VALUES_ne : VALUES ≠ [] := map_pstr_ne _ _

theorem GROUPS_ne : GROUPS ≠ [] := map_pstr_ne _ _

theorem CONSUMERS_ne : CONSUMERS ≠ [] := map_pstr_ne _ _

theorem GEN_INT_CONSTS_ne : GEN_INT_CONSTS ≠ [] := map_pstr_ne _ _

theorem MUT_INT_CONSTS_ne : MUT_INT_CONSTS ≠ [] := by unfold MUT_INT_CONSTS; simp

theorem GENERIC_MODES_ne : GENERIC_MODES ≠ [] := map_pstr_ne _ _

set_option maxRecDepth 8192 in
theorem ALL_COMMANDS_UP_ne : ALL_COMMANDS_UP ≠ [] := by
  unfold ALL_COMMANDS_UP ALL_COMMANDS
  simp only [List.map_cons]
  exact List.cons_ne_nil _ _

theorem mutStrInit_tot (s0 : List Nat) : MAll (mutStrInit s0) := by
  unfold mutStrInit
  exact MTot.ite (s0 = [])
    (fun _ => MAll.bind_all (globChoice_all TOKENS_ne) (fun _ => MTot.pure trivial))
    (fun _ => MTot.pure trivial)

theorem mutate_string_core_tot (s : List Nat) : MAll (mutate_string_core s) := by
  unfold mutate_string_core
  refine MTot.bind (rngRandrangeN_tot (by norm_num)) (fun action _ => ?_)
  refine MTot.ite (action = 0) (fun _ => ?_) (fun _ => ?_)
  · -- action 0
    refine MTot.ite (utf8Encode s = []) (fun _ => MTot.pure trivial) (fun hb => ?_)
    have hpos : (0 : Int) < ((utf8Encode s).length : Int) := by
      have := List.length_pos.mpr hb
      omega
    refine MTot.bind (rngRandrangeN_tot hpos) (fun i _ => ?_)
    exact MAll.bind_all (rngRandrange_all (by norm_num)) (fun x => MTot.pure trivial)
  refine MTot.ite (action = 1) (fun _ => ?_) (fun _ => ?_)
  · -- action 1
    refine MTot.ite (s.length ≥ 2) (fun hlen => ?_) (fun _ => MTot.pure trivial)
    have hpos : (0 : Int) < (s.length : Int) := by omega
    refine MTot.bind (rngRandrangeN_tot hpos) (fun i hi => ?_)
    refine MTot.bind (rngRandrange_tot hi.2) (fun j _ => ?_)
    exact MAll.bind_all (rngRandrange_all (by norm_num)) (fun k => MTot.pure trivial)
  refine MTot.ite (action = 2) (fun _ => ?_) (fun _ => ?_)
  · -- action 2
    refine MTot.ite (s.length ≥ 2) (fun hlen => ?_) (fun _ => MTot.pure trivial)
    have hpos : (0 : Int) < (s.length : Int) := by omega
    refine MTot.bind (rngRandrangeN_tot hpos) (fun i hi => ?_)
    exact MAll.bind_all (rngRandrange_all hi.2) (fun j => MTot.pure trivial)
  refine MTot.ite (action = 3) (fun _ => ?_) (fun _ => ?_)
  · -- action 3
    exact globChoice_all
      (app_ne_left (app_ne_left (app_ne_left (app_ne_left (app_ne_left TOKENS_ne _) _) _) _) _)
  refine MTot.ite (action = 4) (fun _ => ?_) (fun _ => ?_)
  · -- action 4
    refine MTot.bind (rngRandrange_tot (by norm_num)) (fun n _ => ?_)
    refine MAll.bind_all (mRep_all ?_ n.toNat) (fun tail => MTot.pure trivial)
    exact MAll.bind_all (rngRandrange_all (by norm_num)) (fun c => MTot.pure trivial)
  refine MTot.ite (action = 5) (fun _ => ?_) (fun _ => ?_)
  · -- action 5
    refine MAll.bind_all (rngRandrange_all (by omega)) (fun n => MTot.pure trivial)
  · -- action 6
    exact MAll.bind_all (rngRandrange_all (by norm_num)) (fun n => MTot.pure trivial)

theorem mutate_string_tot (s0 : List Nat) : MAll (mutate_string s0) :=
  MAll.bind_all (mutStrInit_tot s0) (fun s => mutate_string_core_tot s)

theorem mutate_int_str_tot (s : List Nat) : MAll (mutate_int_str s) := by
  unfold mutate_int_str
  refine MTot.ifLt _ ?_ (globChoice_all TOKENS_ne)
  match pyInt s with
  | some v =>
    exact MTot.ifLt _
      (MAll.bind_all (globChoice_all MUT_INT_CONSTS_ne) (fun _ => MTot.pure trivial))
      (MAll.bind_all (rngRandrange_all (by norm_num)) (fun _ => MTot.pure trivial))
  | none => exact globChoice_all TOKENS_ne

theorem gen_stream_id_tot : MAll gen_stream_id :=
  MAll.bind_all (rngRandrange_all (by norm_num)) (fun _ =>
    MAll.bind_all (rngRandrange_all (by norm_num)) (fun _ => MTot.pure trivial))

theorem gen_float_tot : MAll gen_float :=
  MTot.ifLt _ (globChoice_all (by simp [pstr]))
    (MAll.bind_all rngRandomM_tot (fun _ =>
      MAll.bind_all (rngRandrange_all (by norm_num)) (fun _ => MTot.pure trivial)))

theorem gen_int_tot : MAll gen_int :=
  MTot.ifLt _ (globChoice_all GEN_INT_CONSTS_ne)
    (MAll.bind_all (rngRandrange_all (by norm_num)) (fun _ => MTot.pure trivial))

theorem gen_key_tot : MAll gen_key :=
  MTot.ifLt _ (globChoice_all KEYS_ne)
    (MAll.bind_all (globChoice_all KEYS_ne) (fun k => mutate_string_tot k))

theorem gen_field_tot : MAll gen_field :=
  MTot.ifLt _ (globChoice_all FIELDS_ne)
    (MAll.bind_all (globChoice_all FIELDS_ne) (fun f => mutate_string_tot f))

theorem gen_value_tot : MAll gen_value :=
  MTot.ifLt _ (globChoice_all VALUES_ne)
    (MAll.bind_all (globChoice_all VALUES_ne) (fun v => mutate_string_tot v))

theorem gen_pattern_tot : MAll gen_pattern := globChoice_all (map_pstr_ne _ _)

theorem gen_channel_tot : MAll gen_channel := globChoice_all (map_pstr_ne _ _)

theorem gen_kv_pair_list_tot : ∀ n, MAll (gen_kv_pair_list n)
  | 0 => MTot.pure trivial
  | m + 1 =>
    MAll.bind_all gen_key_tot (fun _ =>
      MAll.bind_all gen_value_tot (fun _ =>
        MAll.bind_all (gen_kv_pair_list_tot m) (fun _ => MTot.pure trivial)))

theorem gen_field_value_list_tot : ∀ n, MAll (gen_field_value_list n)
  | 0 => MTot.pure trivial
  | m + 1 =>
    MAll.bind_all gen_field_tot (fun _ =>
      MAll.bind_all gen_value_tot (fun _ =>
        MAll.bind_all (gen_field_value_list_tot m) (fun _ => MTot.pure trivial)))

theorem gen_members_tot (n : Nat) : MAll (gen_members n) :=
  mRep_all gen_value_tot n

theorem gen_stream_ids_tot (n : Nat) : MAll (gen_stream_ids n) :=
  mRep_all
    (MTot.ifLt _ gen_stream_id_tot
      (MAll.bind_all gen_stream_id_tot (fun x => mutate_string_tot x))) n

theorem gen_zadd_pairs_tot : ∀ n, MAll (gen_zadd_pairs n)
  | 0 => MTot.pure trivial
  | m + 1 =>
    MAll.bind_all gen_float_tot (fun _ =>
      MAll.bind_all gen_value_tot (fun _ =>
        MAll.bind_all (gen_zadd_pairs_tot m) (fun _ => MTot.pure trivial)))

/- Totality (and non-emptiness of the produced argv) for every spec of
the add_spec table and for the shared generators.  The repeated proof
script walks each generator's draw chain with the primitive lemmas
above. -/

set_option linter.unreachableTactic false
set_option linter.unusedTactic false

theorem gen_xackdel_like_tot (name : List Nat) : MTot (gen_xackdel_like name) nonNil := by
  unfold gen_xackdel_like
  repeat'
    first
    | exact MTot.pure (List.cons_ne_nil _ _)
    | exact MTot.pure trivial
    | exact gen_key_tot
    | exact gen_value_tot
    | exact gen_int_tot
    | exact gen_float_tot
    | exact gen_field_tot
    | exact gen_pattern_tot
    | exact gen_channel_tot
    | exact gen_stream_id_tot
    | exact rngRandomM_tot
    | exact mutate_string_tot _
    | exact mutate_int_str_tot _
    | exact gen_members_tot _
    | exact gen_field_value_list_tot _
    | exact gen_kv_pair_list_tot _
    | exact gen_zadd_pairs_tot _
    | exact gen_stream_ids_tot _
    | exact globChoice_all TOKENS_ne
    | exact globChoice_all GROUPS_ne
    | exact globChoice_all CONSUMERS_ne
    | exact rngChoice_all GENERIC_MODES_ne
    | exact globChoice_all (List.cons_ne_nil _ _)
    | exact rngChoice_all (List.cons_ne_nil _ _)
    | exact rrStr_tot (by norm_num)
    | exact rngRandrange_all (by norm_num)
    | apply optPart_all
    | apply mRep_all
    | apply MTot.ifLt
    | apply MTot.ite
    | apply MAll.bind_ne
    | apply MAll.bind_all
    | intro _

theorem gen_zinter_union_tot (name : List Nat) : MTot (gen_zinter_union name) nonNil := by
  unfold gen_zinter_union
  repeat'
    first
    | exact MTot.pure (List.cons_ne_nil _ _)
    | exact MTot.pure trivial
    | exact gen_key_tot
    | exact gen_value_tot
    | exact gen_int_tot
    | exact gen_float_tot
    | exact gen_field_tot
    | exact gen_pattern_tot
    | exact gen_channel_tot
    | exact gen_stream_id_tot
    | exact rngRandomM_tot
    | exact mutate_string_tot _
    | exact mutate_int_str_tot _
    | exact gen_members_tot _
    | exact gen_field_value_list_tot _
    | exact gen_kv_pair_list_tot _
    | exact gen_zadd_pairs_tot _
    | exact gen_stream_ids_tot _
    | exact globChoice_all TOKENS_ne
    | exact globChoice_all GROUPS_ne
    | exact globChoice_all CONSUMERS_ne
    | exact rngChoice_all GENERIC_MODES_ne
    | exact globChoice_all (List.cons_ne_nil _ _)
    | exact rngChoice_all (List.cons_ne_nil _ _)
    | exact rrStr_tot (by norm_num)
    | exact rngRandrange_all (by norm_num)
    | apply optPart_all
    | apply mRep_all
    | apply MTot.ifLt
    | apply MTot.ite
    | apply MAll.bind_ne
    | apply MAll.bind_all
    | intro _

theorem gen_scan_like_tot (base : List Nat) : MTot (gen_scan_like base) nonNil := by
  unfold gen_scan_like
  repeat'
    first
    | exact MTot.pure (List.cons_ne_nil _ _)
    | exact MTot.pure trivial
    | exact gen_key_tot
    | exact gen_value_tot
    | exact gen_int_tot
    | exact gen_float_tot
    | exact gen_field_tot
    | exact gen_pattern_tot
    | exact gen_channel_tot
    | exact gen_stream_id_tot
    | exact rngRandomM_tot
    | exact mutate_string_tot _
    | exact mutate_int_str_tot _
    | exact gen_members_tot _
    | exact gen_field_value_list_tot _
    | exact gen_kv_pair_list_tot _
    | exact gen_zadd_pairs_tot _
    | exact gen_stream_ids_tot _
    | exact globChoice_all TOKENS_ne
    | exact globChoice_all GROUPS_ne
    | exact globChoice_all CONSUMERS_ne
    | exact rngChoice_all GENERIC_MODES_ne
    | exact globChoice_all (List.cons_ne_nil _ _)
    | exact rngChoice_all (List.cons_ne_nil _ _)
    | exact rrStr_tot (by norm_num)
    | exact rngRandrange_all (by norm_num)
    | apply optPart_all
    | apply mRep_all
    | apply MTot.ifLt
    | apply MTot.ite
    | apply MAll.bind_ne
    | apply MAll.bind_all
    | intro _

theorem gen_xgroup_tot : MTot gen_xgroup nonNil := by
  unfold gen_xgroup
  repeat'
    first
    | exact MTot.pure (List.cons_ne_nil _ _)
    | exact MTot.pure trivial
    | exact gen_key_tot
    | exact gen_value_tot
    | exact gen_int_tot
    | exact gen_float_tot
    | exact gen_field_tot
    | exact gen_pattern_tot
    | exact gen_channel_tot
    | exact gen_stream_id_tot
    | exact rngRandomM_tot
    | exact mutate_string_tot _
    | exact mutate_int_str_tot _
    | exact gen_members_tot _
    | exact gen_field_value_list_tot _
    | exact gen_kv_pair_list_tot _
    | exact gen_zadd_pairs_tot _
    | exact gen_stream_ids_tot _
    | exact globChoice_all TOKENS_ne
    | exact globChoice_all GROUPS_ne
    | exact globChoice_all CONSUMERS_ne
    | exact rngChoice_all GENERIC_MODES_ne
    | exact globChoice_all (List.cons_ne_nil _ _)
    | exact rngChoice_all (List.cons_ne_nil _ _)
    | exact rrStr_tot (by norm_num)
    | exact rngRandrange_all (by norm_num)
    | apply optPart_all
    | apply mRep_all
    | apply MTot.ifLt
    | apply MTot.ite
    | apply MAll.bind_ne
    | apply MAll.bind_all
    | intro _

theorem gen_xreadgroup_tot : MTot gen_xreadgroup nonNil := by
  unfold gen_xreadgroup
  repeat'
    first
    | exact MTot.pure (List.cons_ne_nil _ _)
    | exact MTot.pure trivial
    | exact gen_key_tot
    | exact gen_value_tot
    | exact gen_int_tot
    | exact gen_float_tot
    | exact gen_field_tot
    | exact gen_pattern_tot
    | exact gen_channel_tot
    | exact gen_stream_id_tot
    | exact rngRandomM_tot
    | exact mutate_string_tot _
    | exact mutate_int_str_tot _
    | exact gen_members_tot _
    | exact gen_field_value_list_tot _
    | exact gen_kv_pair_list_tot _
    | exact gen_zadd_pairs_tot _
    | exact gen_stream_ids_tot _
    | exact globChoice_all TOKENS_ne
    | exact globChoice_all GROUPS_ne
    | exact globChoice_all CONSUMERS_ne
    | exact rngChoice_all GENERIC_MODES_ne
    | exact globChoice_all (List.cons_ne_nil _ _)
    | exact rngChoice_all (List.cons_ne_nil _ _)
    | exact rrStr_tot (by norm_num)
    | exact rngRandrange_all (by norm_num)
    | apply optPart_all
    | apply mRep_all
    | apply MTot.ifLt
    | apply MTot.ite
    | apply MAll.bind_ne
    | apply MAll.bind_all
    | intro _

/-- `gen_minimal_eval` draws numkeys from `{"0","1","2"}`, so the
`int(numkeys)` conversion always succeeds. -/
theorem gen_minimal_eval_tot : MTot gen_minimal_eval nonNil := by
  unfold gen_minimal_eval
  apply MAll.bind_ne (globChoice_all (List.cons_ne_nil _ _))
  intro script
  apply MTot.bind (globChoice_tot (List.cons_ne_nil _ _))
  intro numkeys hnk
  simp only [List.map_cons, List.map_nil, List.mem_cons, List.not_mem_nil,
    or_false] at hnk
  rcases hnk with rfl | rfl | rfl <;>
    repeat'
      first
      | exact MTot.pure (List.cons_ne_nil _ _)
      | exact MTot.pure trivial
      | exact gen_key_tot
      | exact gen_value_tot
      | exact gen_int_tot
      | exact gen_float_tot
      | exact gen_field_tot
      | exact gen_pattern_tot
      | exact gen_channel_tot
      | exact gen_stream_id_tot
      | exact rngRandomM_tot
      | exact mutate_string_tot _
      | exact mutate_int_str_tot _
      | exact gen_members_tot _
      | exact gen_field_value_list_tot _
      | exact gen_kv_pair_list_tot _
      | exact gen_zadd_pairs_tot _
      | exact gen_stream_ids_tot _
      | exact globChoice_all TOKENS_ne
      | exact globChoice_all GROUPS_ne
      | exact globChoice_all CONSUMERS_ne
      | exact rngChoice_all GENERIC_MODES_ne
      | exact globChoice_all (List.cons_ne_nil _ _)
      | exact rngChoice_all (List.cons_ne_nil _ _)
      | exact rrStr_tot (by norm_num)
      | exact rngRandrange_all (by norm_num)
      | apply optPart_all
      | apply mRep_all
      | apply MTot.ifLt
      | apply MTot.ite
      | apply MAll.bind_ne
      | apply MAll.bind_all
      | intro _

theorem sPING_tot : MTot sPING nonNil := by
  unfold sPING
  repeat'
    first
    | exact MTot.pure (List.cons_ne_nil _ _)
    | exact MTot.pure trivial
    | exact gen_key_tot
    | exact gen_value_tot
    | exact gen_int_tot
    | exact gen_float_tot
    | exact gen_field_tot
    | exact gen_pattern_tot
    | exact gen_channel_tot
    | exact gen_stream_id_tot
    | exact rngRandomM_tot
    | exact mutate_string_tot _
    | exact mutate_int_str_tot _
    | exact gen_members_tot _
    | exact gen_field_value_list_tot _
    | exact gen_kv_pair_list_tot _
    | exact gen_zadd_pairs_tot _
    | exact gen_stream_ids_tot _
    | exact globChoice_all TOKENS_ne
    | exact globChoice_all GROUPS_ne
    | exact globChoice_all CONSUMERS_ne
    | exact rngChoice_all GENERIC_MODES_ne
    | exact globChoice_all (List.cons_ne_nil _ _)
    | exact rngChoice_all (List.cons_ne_nil _ _)
    | exact rrStr_tot (by norm_num)
    | exact rngRandrange_all (by norm_num)
    | apply optPart_all
    | apply mRep_all
    | apply MTot.ifLt
    | apply MTot.ite
    | apply MAll.bind_ne
    | apply MAll.bind_all
    | intro _

theorem sECHO_tot : MTot sECHO nonNil := by
  unfold sECHO
  repeat'
    first
    | exact MTot.pure (List.cons_ne_nil _ _)
    | exact MTot.pure trivial
    | exact gen_key_tot
    | exact gen_value_tot
    | exact gen_int_tot
    | exact gen_float_tot
    | exact gen_field_tot
    | exact gen_pattern_tot
    | exact gen_channel_tot
    | exact gen_stream_id_tot
    | exact rngRandomM_tot
    | exact mutate_string_tot _
    | exact mutate_int_str_tot _
    | exact gen_members_tot _
    | exact gen_field_value_list_tot _
    | exact gen_kv_pair_list_tot _
    | exact gen_zadd_pairs_tot _
    | exact gen_stream_ids_tot _
    | exact globChoice_all TOKENS_ne
    | exact globChoice_all GROUPS_ne
    | exact globChoice_all CONSUMERS_ne
    | exact rngChoice_all GENERIC_MODES_ne
    | exact globChoice_all (List.cons_ne_nil _ _)
    | exact rngChoice_all (List.cons_ne_nil _ _)
    | exact rrStr_tot (by norm_num)
    | exact rngRandrange_all (by norm_num)
    | apply optPart_all
    | apply mRep_all
    | apply MTot.ifLt
    | apply MTot.ite
    | apply MAll.bind_ne
    | apply MAll.bind_all
    | intro _

theorem sGET_tot : MTot sGET nonNil := by
  unfold sGET
  repeat'
    first
    | exact MTot.pure (List.cons_ne_nil _ _)
    | exact MTot.pure trivial
    | exact gen_key_tot
    | exact gen_value_tot
    | exact gen_int_tot
    | exact gen_float_tot
    | exact gen_field_tot
    | exact gen_pattern_tot
    | exact gen_channel_tot
    | exact gen_stream_id_tot
    | exact rngRandomM_tot
    | exact mutate_string_tot _
    | exact mutate_int_str_tot _
    | exact gen_members_tot _
    | exact gen_field_value_list_tot _
    | exact gen_kv_pair_list_tot _
    | exact gen_zadd_pairs_tot _
    | exact gen_stream_ids_tot _
    | exact globChoice_all TOKENS_ne
    | exact globChoice_all GROUPS_ne
    | exact globChoice_all CONSUMERS_ne
    | exact rngChoice_all GENERIC_MODES_ne
    | exact globChoice_all (List.cons_ne_nil _ _)
    | exact rngChoice_all (List.cons_ne_nil _ _)
    | exact rrStr_tot (by norm_num)
    | exact rngRandrange_all (by norm_num)
    | apply optPart_all
    | apply mRep_all
    | apply MTot.ifLt
    | apply MTot.ite
    | apply MAll.bind_ne
    | apply MAll.bind_all
    | intro _

theorem sSET_tot : MTot sSET nonNil := by
  unfold sSET
  repeat'
    first
    | exact MTot.pure (List.cons_ne_nil _ _)
    | exact MTot.pure trivial
    | exact gen_key_tot
    | exact gen_value_tot
    | exact gen_int_tot
    | exact gen_float_tot
    | exact gen_field_tot
    | exact gen_pattern_tot
    | exact gen_channel_tot
    | exact gen_stream_id_tot
    | exact rngRandomM_tot
    | exact mutate_string_tot _
    | exact mutate_int_str_tot _
    | exact gen_members_tot _
    | exact gen_field_value_list_tot _
    | exact gen_kv_pair_list_tot _
    | exact gen_zadd_pairs_tot _
    | exact gen_stream_ids_tot _
    | exact globChoice_all TOKENS_ne
    | exact globChoice_all GROUPS_ne
    | exact globChoice_all CONSUMERS_ne
    | exact rngChoice_all GENERIC_MODES_ne
    | exact globChoice_all (List.cons_ne_nil _ _)
    | exact rngChoice_all (List.cons_ne_nil _ _)
    | exact rrStr_tot (by norm_num)
    | exact rngRandrange_all (by norm_num)
    | apply optPart_all
    | apply mRep_all
    | apply MTot.ifLt
    | apply MTot.ite
    | apply MAll.bind_ne
    | apply MAll.bind_all
    | intro _

theorem sAPPEND_tot : MTot sAPPEND nonNil := by
  unfold sAPPEND
  repeat'
    first
    | exact MTot.pure (List.cons_ne_nil _ _)
    | exact MTot.pure trivial
    | exact gen_key_tot
    | exact gen_value_tot
    | exact gen_int_tot
    | exact gen_float_tot
    | exact gen_field_tot
    | exact gen_pattern_tot
    | exact gen_channel_tot
    | exact gen_stream_id_tot
    | exact rngRandomM_tot
    | exact mutate_string_tot _
    | exact mutate_int_str_tot _
    | exact gen_members_tot _
    | exact gen_field_value_list_tot _
    | exact gen_kv_pair_list_tot _
    | exact gen_zadd_pairs_tot _
    | exact gen_stream_ids_tot _
    | exact globChoice_all TOKENS_ne
    | exact globChoice_all GROUPS_ne
    | exact globChoice_all CONSUMERS_ne
    | exact rngChoice_all GENERIC_MODES_ne
    | exact globChoice_all (List.cons_ne_nil _ _)
    | exact rngChoice_all (List.cons_ne_nil _ _)
    | exact rrStr_tot (by norm_num)
    | exact rngRandrange_all (by norm_num)
    | apply optPart_all
    | apply mRep_all
    | apply MTot.ifLt
    | apply MTot.ite
    | apply MAll.bind_ne
    | apply MAll.bind_all
    | intro _

theorem sINCR_tot : MTot sINCR nonNil := by
  unfold sINCR
  repeat'
    first
    | exact MTot.pure (List.cons_ne_nil _ _)
    | exact MTot.pure trivial
    | exact gen_key_tot
    | exact gen_value_tot
    | exact gen_int_tot
    | exact gen_float_tot
    | exact gen_field_tot
    | exact gen_pattern_tot
    | exact gen_channel_tot
    | exact gen_stream_id_tot
    | exact rngRandomM_tot
    | exact mutate_string_tot _
    | exact mutate_int_str_tot _
    | exact gen_members_tot _
    | exact gen_field_value_list_tot _
    | exact gen_kv_pair_list_tot _
    | exact gen_zadd_pairs_tot _
    | exact gen_stream_ids_tot _
    | exact globChoice_all TOKENS_ne
    | exact globChoice_all GROUPS_ne
    | exact globChoice_all CONSUMERS_ne
    | exact rngChoice_all GENERIC_MODES_ne
    | exact globChoice_all (List.cons_ne_nil _ _)
    | exact rngChoice_all (List.cons_ne_nil _ _)
    | exact rrStr_tot (by norm_num)
    | exact rngRandrange_all (by norm_num)
    | apply optPart_all
    | apply mRep_all
    | apply MTot.ifLt
    | apply MTot.ite
    | apply MAll.bind_ne
    | apply MAll.bind_all
    | intro _

theorem sINCRBY_tot : MTot sINCRBY nonNil := by
  unfold sINCRBY
  repeat'
    first
    | exact MTot.pure (List.cons_ne_nil _ _)
    | exact MTot.pure trivial
    | exact gen_key_tot
    | exact gen_value_tot
    | exact gen_int_tot
    | exact gen_float_tot
    | exact gen_field_tot
    | exact gen_pattern_tot
    | exact gen_channel_tot
    | exact gen_stream_id_tot
    | exact rngRandomM_tot
    | exact mutate_string_tot _
    | exact mutate_int_str_tot _
    | exact gen_members_tot _
    | exact gen_field_value_list_tot _
    | exact gen_kv_pair_list_tot _
    | exact gen_zadd_pairs_tot _
    | exact gen_stream_ids_tot _
    | exact globChoice_all TOKENS_ne
    | exact globChoice_all GROUPS_ne
    | exact globChoice_all CONSUMERS_ne
    | exact rngChoice_all GENERIC_MODES_ne
    | exact globChoice_all (List.cons_ne_nil _ _)
    | exact rngChoice_all (List.cons_ne_nil _ _)
    | exact rrStr_tot (by norm_num)
    | exact rngRandrange_all (by norm_num)
    | apply optPart_all
    | apply mRep_all
    | apply MTot.ifLt
    | apply MTot.ite
    | apply MAll.bind_ne
    | apply MAll.bind_all
    | intro _

theorem sINCRBYFLOAT_tot : MTot sINCRBYFLOAT nonNil := by
  unfold sINCRBYFLOAT
  repeat'
    first
    | exact MTot.pure (List.cons_ne_nil _ _)
    | exact MTot.pure trivial
    | exact gen_key_tot
    | exact gen_value_tot
    | exact gen_int_tot
    | exact gen_float_tot
    | exact gen_field_tot
    | exact gen_pattern_tot
    | exact gen_channel_tot
    | exact gen_stream_id_tot
    | exact rngRandomM_tot
    | exact mutate_string_tot _
    | exact mutate_int_str_tot _
    | exact gen_members_tot _
    | exact gen_field_value_list_tot _
    | exact gen_kv_pair_list_tot _
    | exact gen_zadd_pairs_tot _
    | exact gen_stream_ids_tot _
    | exact globChoice_all TOKENS_ne
    | exact globChoice_all GROUPS_ne
    | exact globChoice_all CONSUMERS_ne
    | exact rngChoice_all GENERIC_MODES_ne
    | exact globChoice_all (List.cons_ne_nil _ _)
    | exact rngChoice_all (List.cons_ne_nil _ _)
    | exact rrStr_tot (by norm_num)
    | exact rngRandrange_all (by norm_num)
    | apply optPart_all
    | apply mRep_all
    | apply MTot.ifLt
    | apply MTot.ite
    | apply MAll.bind_ne
    | apply MAll.bind_all
    | intro _

theorem sDECR_tot : MTot sDECR nonNil := by
  unfold sDECR
  repeat'
    first
    | exact MTot.pure (List.cons_ne_nil _ _)
    | exact MTot.pure trivial
    | exact gen_key_tot
    | exact gen_value_tot
    | exact gen_int_tot
    | exact gen_float_tot
    | exact gen_field_tot
    | exact gen_pattern_tot
    | exact gen_channel_tot
    | exact gen_stream_id_tot
    | exact rngRandomM_tot
    | exact mutate_string_tot _
    | exact mutate_int_str_tot _
    | exact gen_members_tot _
    | exact gen_field_value_list_tot _
    | exact gen_kv_pair_list_tot _
    | exact gen_zadd_pairs_tot _
    | exact gen_stream_ids_tot _
    | exact globChoice_all TOKENS_ne
    | exact globChoice_all GROUPS_ne
    | exact globChoice_all CONSUMERS_ne
    | exact rngChoice_all GENERIC_MODES_ne
    | exact globChoice_all (List.cons_ne_nil _ _)
    | exact rngChoice_all (List.cons_ne_nil _ _)
    | exact rrStr_tot (by norm_num)
    | exact rngRandrange_all (by norm_num)
    | apply optPart_all
    | apply mRep_all
    | apply MTot.ifLt
    | apply MTot.ite
    | apply MAll.bind_ne
    | apply MAll.bind_all
    | intro _

theorem sDECRBY_tot : MTot sDECRBY nonNil := by
  unfold sDECRBY
  repeat'
    first
    | exact MTot.pure (List.cons_ne_nil _ _)
    | exact MTot.pure trivial
    | exact gen_key_tot
    | exact gen_value_tot
    | exact gen_int_tot
    | exact gen_float_tot
    | exact gen_field_tot
    | exact gen_pattern_tot
    | exact gen_channel_tot
    | exact gen_stream_id_tot
    | exact rngRandomM_tot
    | exact mutate_string_tot _
    | exact mutate_int_str_tot _
    | exact gen_members_tot _
    | exact gen_field_value_list_tot _
    | exact gen_kv_pair_list_tot _
    | exact gen_zadd_pairs_tot _
    | exact gen_stream_ids_tot _
    | exact globChoice_all TOKENS_ne
    | exact globChoice_all GROUPS_ne
    | exact globChoice_all CONSUMERS_ne
    | exact rngChoice_all GENERIC_MODES_ne
    | exact globChoice_all (List.cons_ne_nil _ _)
    | exact rngChoice_all (List.cons_ne_nil _ _)
    | exact rrStr_tot (by norm_num)
    | exact rngRandrange_all (by norm_num)
    | apply optPart_all
    | apply mRep_all
    | apply MTot.ifLt
    | apply MTot.ite
    | apply MAll.bind_ne
    | apply MAll.bind_all
    | intro _

theorem sSTRLEN_tot : MTot sSTRLEN nonNil := by
  unfold sSTRLEN
  repeat'
    first
    | exact MTot.pure (List.cons_ne_nil _ _)
    | exact MTot.pure trivial
    | exact gen_key_tot
    | exact gen_value_tot
    | exact gen_int_tot
    | exact gen_float_tot
    | exact gen_field_tot
    | exact gen_pattern_tot
    | exact gen_channel_tot
    | exact gen_stream_id_tot
    | exact rngRandomM_tot
    | exact mutate_string_tot _
    | exact mutate_int_str_tot _
    | exact gen_members_tot _
    | exact gen_field_value_list_tot _
    | exact gen_kv_pair_list_tot _
    | exact gen_zadd_pairs_tot _
    | exact gen_stream_ids_tot _
    | exact globChoice_all TOKENS_ne
    | exact globChoice_all GROUPS_ne
    | exact globChoice_all CONSUMERS_ne
    | exact rngChoice_all GENERIC_MODES_ne
    | exact globChoice_all (List.cons_ne_nil _ _)
    | exact rngChoice_all (List.cons_ne_nil _ _)
    | exact rrStr_tot (by norm_num)
    | exact rngRandrange_all (by norm_num)
    | apply optPart_all
    | apply mRep_all
    | apply MTot.ifLt
    | apply MTot.ite
    | apply MAll.bind_ne
    | apply MAll.bind_all
    | intro _

theorem sGETRANGE_tot : MTot sGETRANGE nonNil := by
  unfold sGETRANGE
  repeat'
    first
    | exact MTot.pure (List.cons_ne_nil _ _)
    | exact MTot.pure trivial
    | exact gen_key_tot
    | exact gen_value_tot
    | exact gen_int_tot
    | exact gen_float_tot
    | exact gen_field_tot
    | exact gen_pattern_tot
    | exact gen_channel_tot
    | exact gen_stream_id_tot
    | exact rngRandomM_tot
    | exact mutate_string_tot _
    | exact mutate_int_str_tot _
    | exact gen_members_tot _
    | exact gen_field_value_list_tot _
    | exact gen_kv_pair_list_tot _
    | exact gen_zadd_pairs_tot _
    | exact gen_stream_ids_tot _
    | exact globChoice_all TOKENS_ne
    | exact globChoice_all GROUPS_ne
    | exact globChoice_all CONSUMERS_ne
    | exact rngChoice_all GENERIC_MODES_ne
    | exact globChoice_all (List.cons_ne_nil _ _)
    | exact rngChoice_all (List.cons_ne_nil _ _)
    | exact rrStr_tot (by norm_num)
    | exact rngRandrange_all (by norm_num)
    | apply optPart_all
    | apply mRep_all
    | apply MTot.ifLt
    | apply MTot.ite
    | apply MAll.bind_ne
    | apply MAll.bind_all
    | intro _

theorem sSETRANGE_tot : MTot sSETRANGE nonNil := by
  unfold sSETRANGE
  repeat'
    first
    | exact MTot.pure (List.cons_ne_nil _ _)
    | exact MTot.pure trivial
    | exact gen_key_tot
    | exact gen_value_tot
    | exact gen_int_tot
    | exact gen_float_tot
    | exact gen_field_tot
    | exact gen_pattern_tot
    | exact gen_channel_tot
    | exact gen_stream_id_tot
    | exact rngRandomM_tot
    | exact mutate_string_tot _
    | exact mutate_int_str_tot _
    | exact gen_members_tot _
    | exact gen_field_value_list_tot _
    | exact gen_kv_pair_list_tot _
    | exact gen_zadd_pairs_tot _
    | exact gen_stream_ids_tot _
    | exact globChoice_all TOKENS_ne
    | exact globChoice_all GROUPS_ne
    | exact globChoice_all CONSUMERS_ne
    | exact rngChoice_all GENERIC_MODES_ne
    | exact globChoice_all (List.cons_ne_nil _ _)
    | exact rngChoice_all (List.cons_ne_nil _ _)
    | exact rrStr_tot (by norm_num)
    | exact rngRandrange_all (by norm_num)
    | apply optPart_all
    | apply mRep_all
    | apply MTot.ifLt
    | apply MTot.ite
    | apply MAll.bind_ne
    | apply MAll.bind_all
    | intro _

theorem sGETSET_tot : MTot sGETSET nonNil := by
  unfold sGETSET
  repeat'
    first
    | exact MTot.pure (List.cons_ne_nil _ _)
    | exact MTot.pure trivial
    | exact gen_key_tot
    | exact gen_value_tot
    | exact gen_int_tot
    | exact gen_float_tot
    | exact gen_field_tot
    | exact gen_pattern_tot
    | exact gen_channel_tot
    | exact gen_stream_id_tot
    | exact rngRandomM_tot
    | exact mutate_string_tot _
    | exact mutate_int_str_tot _
    | exact gen_members_tot _
    | exact gen_field_value_list_tot _
    | exact gen_kv_pair_list_tot _
    | exact gen_zadd_pairs_tot _
    | exact gen_stream_ids_tot _
    | exact globChoice_all TOKENS_ne
    | exact globChoice_all GROUPS_ne
    | exact globChoice_all CONSUMERS_ne
    | exact rngChoice_all GENERIC_MODES_ne
    | exact globChoice_all (List.cons_ne_nil _ _)
    | exact rngChoice_all (List.cons_ne_nil _ _)
    | exact rrStr_tot (by norm_num)
    | exact rngRandrange_all (by norm_num)
    | apply optPart_all
    | apply mRep_all
    | apply MTot.ifLt
    | apply MTot.ite
    | apply MAll.bind_ne
    | apply MAll.bind_all
    | intro _

theorem sGETDEL_tot : MTot sGETDEL nonNil := by
  unfold sGETDEL
  repeat'
    first
    | exact MTot.pure (List.cons_ne_nil _ _)
    | exact MTot.pure trivial
    | exact gen_key_tot
    | exact gen_value_tot
    | exact gen_int_tot
    | exact gen_float_tot
    | exact gen_field_tot
    | exact gen_pattern_tot
    | exact gen_channel_tot
    | exact gen_stream_id_tot
    | exact rngRandomM_tot
    | exact mutate_string_tot _
    | exact mutate_int_str_tot _
    | exact gen_members_tot _
    | exact gen_field_value_list_tot _
    | exact gen_kv_pair_list_tot _
    | exact gen_zadd_pairs_tot _
    | exact gen_stream_ids_tot _
    | exact globChoice_all TOKENS_ne
    | exact globChoice_all GROUPS_ne
    | exact globChoice_all CONSUMERS_ne
    | exact rngChoice_all GENERIC_MODES_ne
    | exact globChoice_all (List.cons_ne_nil _ _)
    | exact rngChoice_all (List.cons_ne_nil _ _)
    | exact rrStr_tot (by norm_num)
    | exact rngRandrange_all (by norm_num)
    | apply optPart_all
    | apply mRep_all
    | apply MTot.ifLt
    | apply MTot.ite
    | apply MAll.bind_ne
    | apply MAll.bind_all
    | intro _

theorem sGETEX_tot : MTot sGETEX nonNil := by
  unfold sGETEX
  repeat'
    first
    | exact MTot.pure (List.cons_ne_nil _ _)
    | exact MTot.pure trivial
    | exact gen_key_tot
    | exact gen_value_tot
    | exact gen_int_tot
    | exact gen_float_tot
    | exact gen_field_tot
    | exact gen_pattern_tot
    | exact gen_channel_tot
    | exact gen_stream_id_tot
    | exact rngRandomM_tot
    | exact mutate_string_tot _
    | exact mutate_int_str_tot _
    | exact gen_members_tot _
    | exact gen_field_value_list_tot _
    | exact gen_kv_pair_list_tot _
    | exact gen_zadd_pairs_tot _
    | exact gen_stream_ids_tot _
    | exact globChoice_all TOKENS_ne
    | exact globChoice_all GROUPS_ne
    | exact globChoice_all CONSUMERS_ne
    | exact rngChoice_all GENERIC_MODES_ne
    | exact globChoice_all (List.cons_ne_nil _ _)
    | exact rngChoice_all (List.cons_ne_nil _ _)
    | exact rrStr_tot (by norm_num)
    | exact rngRandrange_all (by norm_num)
    | apply optPart_all
    | apply mRep_all
    | apply MTot.ifLt
    | apply MTot.ite
    | apply MAll.bind_ne
    | apply MAll.bind_all
    | intro _

theorem sSETEX_tot : MTot sSETEX nonNil := by
  unfold sSETEX
  repeat'
    first
    | exact MTot.pure (List.cons_ne_nil _ _)
    | exact MTot.pure trivial
    | exact gen_key_tot
    | exact gen_value_tot
    | exact gen_int_tot
    | exact gen_float_tot
    | exact gen_field_tot
    | exact gen_pattern_tot
    | exact gen_channel_tot
    | exact gen_stream_id_tot
    | exact rngRandomM_tot
    | exact mutate_string_tot _
    | exact mutate_int_str_tot _
    | exact gen_members_tot _
    | exact gen_field_value_list_tot _
    | exact gen_kv_pair_list_tot _
    | exact gen_zadd_pairs_tot _
    | exact gen_stream_ids_tot _
    | exact globChoice_all TOKENS_ne
    | exact globChoice_all GROUPS_ne
    | exact globChoice_all CONSUMERS_ne
    | exact rngChoice_all GENERIC_MODES_ne
    | exact globChoice_all (List.cons_ne_nil _ _)
    | exact rngChoice_all (List.cons_ne_nil _ _)
    | exact rrStr_tot (by norm_num)
    | exact rngRandrange_all (by norm_num)
    | apply optPart_all
    | apply mRep_all
    | apply MTot.ifLt
    | apply MTot.ite
    | apply MAll.bind_ne
    | apply MAll.bind_all
    | intro _

theorem sPSETEX_tot : MTot sPSETEX nonNil := by
  unfold sPSETEX
  repeat'
    first
    | exact MTot.pure (List.cons_ne_nil _ _)
    | exact MTot.pure trivial
    | exact gen_key_tot
    | exact gen_value_tot
    | exact gen_int_tot
    | exact gen_float_tot
    | exact gen_field_tot
    | exact gen_pattern_tot
    | exact gen_channel_tot
    | exact gen_stream_id_tot
    | exact rngRandomM_tot
    | exact mutate_string_tot _
    | exact mutate_int_str_tot _
    | exact gen_members_tot _
    | exact gen_field_value_list_tot _
    | exact gen_kv_pair_list_tot _
    | exact gen_zadd_pairs_tot _
    | exact gen_stream_ids_tot _
    | exact globChoice_all TOKENS_ne
    | exact globChoice_all GROUPS_ne
    | exact globChoice_all CONSUMERS_ne
    | exact rngChoice_all GENERIC_MODES_ne
    | exact globChoice_all (List.cons_ne_nil _ _)
    | exact rngChoice_all (List.cons_ne_nil _ _)
    | exact rrStr_tot (by norm_num)
    | exact rngRandrange_all (by norm_num)
    | apply optPart_all
    | apply mRep_all
    | apply MTot.ifLt
    | apply MTot.ite
    | apply MAll.bind_ne
    | apply MAll.bind_all
    | intro _

theorem sSETNX_tot : MTot sSETNX nonNil := by
  unfold sSETNX
  repeat'
    first
    | exact MTot.pure (List.cons_ne_nil _ _)
    | exact MTot.pure trivial
    | exact gen_key_tot
    | exact gen_value_tot
    | exact gen_int_tot
    | exact gen_float_tot
    | exact gen_field_tot
    | exact gen_pattern_tot
    | exact gen_channel_tot
    | exact gen_stream_id_tot
    | exact rngRandomM_tot
    | exact mutate_string_tot _
    | exact mutate_int_str_tot _
    | exact gen_members_tot _
    | exact gen_field_value_list_tot _
    | exact gen_kv_pair_list_tot _
    | exact gen_zadd_pairs_tot _
    | exact gen_stream_ids_tot _
    | exact globChoice_all TOKENS_ne
    | exact globChoice_all GROUPS_ne
    | exact globChoice_all CONSUMERS_ne
    | exact rngChoice_all GENERIC_MODES_ne
    | exact globChoice_all (List.cons_ne_nil _ _)
    | exact rngChoice_all (List.cons_ne_nil _ _)
    | exact rrStr_tot (by norm_num)
    | exact rngRandrange_all (by norm_num)
    | apply optPart_all
    | apply mRep_all
    | apply MTot.ifLt
    | apply MTot.ite
    | apply MAll.bind_ne
    | apply MAll.bind_all
    | intro _

theorem sDEL_tot : MTot sDEL nonNil := by
  unfold sDEL
  repeat'
    first
    | exact MTot.pure (List.cons_ne_nil _ _)
    | exact MTot.pure trivial
    | exact gen_key_tot
    | exact gen_value_tot
    | exact gen_int_tot
    | exact gen_float_tot
    | exact gen_field_tot
    | exact gen_pattern_tot
    | exact gen_channel_tot
    | exact gen_stream_id_tot
    | exact rngRandomM_tot
    | exact mutate_string_tot _
    | exact mutate_int_str_tot _
    | exact gen_members_tot _
    | exact gen_field_value_list_tot _
    | exact gen_kv_pair_list_tot _
    | exact gen_zadd_pairs_tot _
    | exact gen_stream_ids_tot _
    | exact globChoice_all TOKENS_ne
    | exact globChoice_all GROUPS_ne
    | exact globChoice_all CONSUMERS_ne
    | exact rngChoice_all GENERIC_MODES_ne
    | exact globChoice_all (List.cons_ne_nil _ _)
    | exact rngChoice_all (List.cons_ne_nil _ _)
    | exact rrStr_tot (by norm_num)
    | exact rngRandrange_all (by norm_num)
    | apply optPart_all
    | apply mRep_all
    | apply MTot.ifLt
    | apply MTot.ite
    | apply MAll.bind_ne
    | apply MAll.bind_all
    | intro _

theorem sUNLINK_tot : MTot sUNLINK nonNil := by
  unfold sUNLINK
  repeat'
    first
    | exact MTot.pure (List.cons_ne_nil _ _)
    | exact MTot.pure trivial
    | exact gen_key_tot
    | exact gen_value_tot
    | exact gen_int_tot
    | exact gen_float_tot
    | exact gen_field_tot
    | exact gen_pattern_tot
    | exact gen_channel_tot
    | exact gen_stream_id_tot
    | exact rngRandomM_tot
    | exact mutate_string_tot _
    | exact mutate_int_str_tot _
    | exact gen_members_tot _
    | exact gen_field_value_list_tot _
    | exact gen_kv_pair_list_tot _
    | exact gen_zadd_pairs_tot _
    | exact gen_stream_ids_tot _
    | exact globChoice_all TOKENS_ne
    | exact globChoice_all GROUPS_ne
    | exact globChoice_all CONSUMERS_ne
    | exact rngChoice_all GENERIC_MODES_ne
    | exact globChoice_all (List.cons_ne_nil _ _)
    | exact rngChoice_all (List.cons_ne_nil _ _)
    | exact rrStr_tot (by norm_num)
    | exact rngRandrange_all (by norm_num)
    | apply optPart_all
    | apply mRep_all
    | apply MTot.ifLt
    | apply MTot.ite
    | apply MAll.bind_ne
    | apply MAll.bind_all
    | intro _

theorem sEXISTS_tot : MTot sEXISTS nonNil := by
  unfold sEXISTS
  repeat'
    first
    | exact MTot.pure (List.cons_ne_nil _ _)
    | exact MTot.pure trivial
    | exact gen_key_tot
    | exact gen_value_tot
    | exact gen_int_tot
    | exact gen_float_tot
    | exact gen_field_tot
    | exact gen_pattern_tot
    | exact gen_channel_tot
    | exact gen_stream_id_tot
    | exact rngRandomM_tot
    | exact mutate_string_tot _
    | exact mutate_int_str_tot _
    | exact gen_members_tot _
    | exact gen_field_value_list_tot _
    | exact gen_kv_pair_list_tot _
    | exact gen_zadd_pairs_tot _
    | exact gen_stream_ids_tot _
    | exact globChoice_all TOKENS_ne
    | exact globChoice_all GROUPS_ne
    | exact globChoice_all CONSUMERS_ne
    | exact rngChoice_all GENERIC_MODES_ne
    | exact globChoice_all (List.cons_ne_nil _ _)
    | exact rngChoice_all (List.cons_ne_nil _ _)
    | exact rrStr_tot (by norm_num)
    | exact rngRandrange_all (by norm_num)
    | apply optPart_all
    | apply mRep_all
    | apply MTot.ifLt
    | apply MTot.ite
    | apply MAll.bind_ne
    | apply MAll.bind_all
    | intro _

theorem sTYPE_tot : MTot sTYPE nonNil := by
  unfold sTYPE
  repeat'
    first
    | exact MTot.pure (List.cons_ne_nil _ _)
    | exact MTot.pure trivial
    | exact gen_key_tot
    | exact gen_value_tot
    | exact gen_int_tot
    | exact gen_float_tot
    | exact gen_field_tot
    | exact gen_pattern_tot
    | exact gen_channel_tot
    | exact gen_stream_id_tot
    | exact rngRandomM_tot
    | exact mutate_string_tot _
    | exact mutate_int_str_tot _
    | exact gen_members_tot _
    | exact gen_field_value_list_tot _
    | exact gen_kv_pair_list_tot _
    | exact gen_zadd_pairs_tot _
    | exact gen_stream_ids_tot _
    | exact globChoice_all TOKENS_ne
    | exact globChoice_all GROUPS_ne
    | exact globChoice_all CONSUMERS_ne
    | exact rngChoice_all GENERIC_MODES_ne
    | exact globChoice_all (List.cons_ne_nil _ _)
    | exact rngChoice_all (List.cons_ne_nil _ _)
    | exact rrStr_tot (by norm_num)
    | exact rngRandrange_all (by norm_num)
    | apply optPart_all
    | apply mRep_all
    | apply MTot.ifLt
    | apply MTot.ite
    | apply MAll.bind_ne
    | apply MAll.bind_all
    | intro _

theorem sTTL_tot : MTot sTTL nonNil := by
  unfold sTTL
  repeat'
    first
    | exact MTot.pure (List.cons_ne_nil _ _)
    | exact MTot.pure trivial
    | exact gen_key_tot
    | exact gen_value_tot
    | exact gen_int_tot
    | exact gen_float_tot
    | exact gen_field_tot
    | exact gen_pattern_tot
    | exact gen_channel_tot
    | exact gen_stream_id_tot
    | exact rngRandomM_tot
    | exact mutate_string_tot _
    | exact mutate_int_str_tot _
    | exact gen_members_tot _
    | exact gen_field_value_list_tot _
    | exact gen_kv_pair_list_tot _
    | exact gen_zadd_pairs_tot _
    | exact gen_stream_ids_tot _
    | exact globChoice_all TOKENS_ne
    | exact globChoice_all GROUPS_ne
    | exact globChoice_all CONSUMERS_ne
    | exact rngChoice_all GENERIC_MODES_ne
    | exact globChoice_all (List.cons_ne_nil _ _)
    | exact rngChoice_all (List.cons_ne_nil _ _)
    | exact rrStr_tot (by norm_num)
    | exact rngRandrange_all (by norm_num)
    | apply optPart_all
    | apply mRep_all
    | apply MTot.ifLt
    | apply MTot.ite
    | apply MAll.bind_ne
    | apply MAll.bind_all
    | intro _

theorem sPTTL_tot : MTot sPTTL nonNil := by
  unfold sPTTL
  repeat'
    first
    | exact MTot.pure (List.cons_ne_nil _ _)
    | exact MTot.pure trivial
    | exact gen_key_tot
    | exact gen_value_tot
    | exact gen_int_tot
    | exact gen_float_tot
    | exact gen_field_tot
    | exact gen_pattern_tot
    | exact gen_channel_tot
    | exact gen_stream_id_tot
    | exact rngRandomM_tot
    | exact mutate_string_tot _
    | exact mutate_int_str_tot _
    | exact gen_members_tot _
    | exact gen_field_value_list_tot _
    | exact gen_kv_pair_list_tot _
    | exact gen_zadd_pairs_tot _
    | exact gen_stream_ids_tot _
    | exact globChoice_all TOKENS_ne
    | exact globChoice_all GROUPS_ne
    | exact globChoice_all CONSUMERS_ne
    | exact rngChoice_all GENERIC_MODES_ne
    | exact globChoice_all (List.cons_ne_nil _ _)
    | exact rngChoice_all (List.cons_ne_nil _ _)
    | exact rrStr_tot (by norm_num)
    | exact rngRandrange_all (by norm_num)
    | apply optPart_all
    | apply mRep_all
    | apply MTot.ifLt
    | apply MTot.ite
    | apply MAll.bind_ne
    | apply MAll.bind_all
    | intro _

theorem sEXPIRE_tot : MTot sEXPIRE nonNil := by
  unfold sEXPIRE
  repeat'
    first
    | exact MTot.pure (List.cons_ne_nil _ _)
    | exact MTot.pure trivial
    | exact gen_key_tot
    | exact gen_value_tot
    | exact gen_int_tot
    | exact gen_float_tot
    | exact gen_field_tot
    | exact gen_pattern_tot
    | exact gen_channel_tot
    | exact gen_stream_id_tot
    | exact rngRandomM_tot
    | exact mutate_string_tot _
    | exact mutate_int_str_tot _
    | exact gen_members_tot _
    | exact gen_field_value_list_tot _
    | exact gen_kv_pair_list_tot _
    | exact gen_zadd_pairs_tot _
    | exact gen_stream_ids_tot _
    | exact globChoice_all TOKENS_ne
    | exact globChoice_all GROUPS_ne
    | exact globChoice_all CONSUMERS_ne
    | exact rngChoice_all GENERIC_MODES_ne
    | exact globChoice_all (List.cons_ne_nil _ _)
    | exact rngChoice_all (List.cons_ne_nil _ _)
    | exact rrStr_tot (by norm_num)
    | exact rngRandrange_all (by norm_num)
    | apply optPart_all
    | apply mRep_all
    | apply MTot.ifLt
    | apply MTot.ite
    | apply MAll.bind_ne
    | apply MAll.bind_all
    | intro _

theorem sPEXPIRE_tot : MTot sPEXPIRE nonNil := by
  unfold sPEXPIRE
  repeat'
    first
    | exact MTot.pure (List.cons_ne_nil _ _)
    | exact MTot.pure trivial
    | exact gen_key_tot
    | exact gen_value_tot
    | exact gen_int_tot
    | exact gen_float_tot
    | exact gen_field_tot
    | exact gen_pattern_tot
    | exact gen_channel_tot
    | exact gen_stream_id_tot
    | exact rngRandomM_tot
    | exact mutate_string_tot _
    | exact mutate_int_str_tot _
    | exact gen_members_tot _
    | exact gen_field_value_list_tot _
    | exact gen_kv_pair_list_tot _
    | exact gen_zadd_pairs_tot _
    | exact gen_stream_ids_tot _
    | exact globChoice_all TOKENS_ne
    | exact globChoice_all GROUPS_ne
    | exact globChoice_all CONSUMERS_ne
    | exact rngChoice_all GENERIC_MODES_ne
    | exact globChoice_all (List.cons_ne_nil _ _)
    | exact rngChoice_all (List.cons_ne_nil _ _)
    | exact rrStr_tot (by norm_num)
    | exact rngRandrange_all (by norm_num)
    | apply optPart_all
    | apply mRep_all
    | apply MTot.ifLt
    | apply MTot.ite
    | apply MAll.bind_ne
    | apply MAll.bind_all
    | intro _

theorem sEXPIREAT_tot : MTot sEXPIREAT nonNil := by
  unfold sEXPIREAT
  repeat'
    first
    | exact MTot.pure (List.cons_ne_nil _ _)
    | exact MTot.pure trivial
    | exact gen_key_tot
    | exact gen_value_tot
    | exact gen_int_tot
    | exact gen_float_tot
    | exact gen_field_tot
    | exact gen_pattern_tot
    | exact gen_channel_tot
    | exact gen_stream_id_tot
    | exact rngRandomM_tot
    | exact mutate_string_tot _
    | exact mutate_int_str_tot _
    | exact gen_members_tot _
    | exact gen_field_value_list_tot _
    | exact gen_kv_pair_list_tot _
    | exact gen_zadd_pairs_tot _
    | exact gen_stream_ids_tot _
    | exact globChoice_all TOKENS_ne
    | exact globChoice_all GROUPS_ne
    | exact globChoice_all CONSUMERS_ne
    | exact rngChoice_all GENERIC_MODES_ne
    | exact globChoice_all (List.cons_ne_nil _ _)
    | exact rngChoice_all (List.cons_ne_nil _ _)
    | exact rrStr_tot (by norm_num)
    | exact rngRandrange_all (by norm_num)
    | apply optPart_all
    | apply mRep_all
    | apply MTot.ifLt
    | apply MTot.ite
    | apply MAll.bind_ne
    | apply MAll.bind_all
    | intro _

theorem sPEXPIREAT_tot : MTot sPEXPIREAT nonNil := by
  unfold sPEXPIREAT
  repeat'
    first
    | exact MTot.pure (List.cons_ne_nil _ _)
    | exact MTot.pure trivial
    | exact gen_key_tot
    | exact gen_value_tot
    | exact gen_int_tot
    | exact gen_float_tot
    | exact gen_field_tot
    | exact gen_pattern_tot
    | exact gen_channel_tot
    | exact gen_stream_id_tot
    | exact rngRandomM_tot
    | exact mutate_string_tot _
    | exact mutate_int_str_tot _
    | exact gen_members_tot _
    | exact gen_field_value_list_tot _
    | exact gen_kv_pair_list_tot _
    | exact gen_zadd_pairs_tot _
    | exact gen_stream_ids_tot _
    | exact globChoice_all TOKENS_ne
    | exact globChoice_all GROUPS_ne
    | exact globChoice_all CONSUMERS_ne
    | exact rngChoice_all GENERIC_MODES_ne
    | exact globChoice_all (List.cons_ne_nil _ _)
    | exact rngChoice_all (List.cons_ne_nil _ _)
    | exact rrStr_tot (by norm_num)
    | exact rngRandrange_all (by norm_num)
    | apply optPart_all
    | apply mRep_all
    | apply MTot.ifLt
    | apply MTot.ite
    | apply MAll.bind_ne
    | apply MAll.bind_all
    | intro _

theorem sPERSIST_tot : MTot sPERSIST nonNil := by
  unfold sPERSIST
  repeat'
    first
    | exact MTot.pure (List.cons_ne_nil _ _)
    | exact MTot.pure trivial
    | exact gen_key_tot
    | exact gen_value_tot
    | exact gen_int_tot
    | exact gen_float_tot
    | exact gen_field_tot
    | exact gen_pattern_tot
    | exact gen_channel_tot
    | exact gen_stream_id_tot
    | exact rngRandomM_tot
    | exact mutate_string_tot _
    | exact mutate_int_str_tot _
    | exact gen_members_tot _
    | exact gen_field_value_list_tot _
    | exact gen_kv_pair_list_tot _
    | exact gen_zadd_pairs_tot _
    | exact gen_stream_ids_tot _
    | exact globChoice_all TOKENS_ne
    | exact globChoice_all GROUPS_ne
    | exact globChoice_all CONSUMERS_ne
    | exact rngChoice_all GENERIC_MODES_ne
    | exact globChoice_all (List.cons_ne_nil _ _)
    | exact rngChoice_all (List.cons_ne_nil _ _)
    | exact rrStr_tot (by norm_num)
    | exact rngRandrange_all (by norm_num)
    | apply optPart_all
    | apply mRep_all
    | apply MTot.ifLt
    | apply MTot.ite
    | apply MAll.bind_ne
    | apply MAll.bind_all
    | intro _

theorem sRENAME_tot : MTot sRENAME nonNil := by
  unfold sRENAME
  repeat'
    first
    | exact MTot.pure (List.cons_ne_nil _ _)
    | exact MTot.pure trivial
    | exact gen_key_tot
    | exact gen_value_tot
    | exact gen_int_tot
    | exact gen_float_tot
    | exact gen_field_tot
    | exact gen_pattern_tot
    | exact gen_channel_tot
    | exact gen_stream_id_tot
    | exact rngRandomM_tot
    | exact mutate_string_tot _
    | exact mutate_int_str_tot _
    | exact gen_members_tot _
    | exact gen_field_value_list_tot _
    | exact gen_kv_pair_list_tot _
    | exact gen_zadd_pairs_tot _
    | exact gen_stream_ids_tot _
    | exact globChoice_all TOKENS_ne
    | exact globChoice_all GROUPS_ne
    | exact globChoice_all CONSUMERS_ne
    | exact rngChoice_all GENERIC_MODES_ne
    | exact globChoice_all (List.cons_ne_nil _ _)
    | exact rngChoice_all (List.cons_ne_nil _ _)
    | exact rrStr_tot (by norm_num)
    | exact rngRandrange_all (by norm_num)
    | apply optPart_all
    | apply mRep_all
    | apply MTot.ifLt
    | apply MTot.ite
    | apply MAll.bind_ne
    | apply MAll.bind_all
    | intro _

theorem sRENAMENX_tot : MTot sRENAMENX nonNil := by
  unfold sRENAMENX
  repeat'
    first
    | exact MTot.pure (List.cons_ne_nil _ _)
    | exact MTot.pure trivial
    | exact gen_key_tot
    | exact gen_value_tot
    | exact gen_int_tot
    | exact gen_float_tot
    | exact gen_field_tot
    | exact gen_pattern_tot
    | exact gen_channel_tot
    | exact gen_stream_id_tot
    | exact rngRandomM_tot
    | exact mutate_string_tot _
    | exact mutate_int_str_tot _
    | exact gen_members_tot _
    | exact gen_field_value_list_tot _
    | exact gen_kv_pair_list_tot _
    | exact gen_zadd_pairs_tot _
    | exact gen_stream_ids_tot _
    | exact globChoice_all TOKENS_ne
    | exact globChoice_all GROUPS_ne
    | exact globChoice_all CONSUMERS_ne
    | exact rngChoice_all GENERIC_MODES_ne
    | exact globChoice_all (List.cons_ne_nil _ _)
    | exact rngChoice_all (List.cons_ne_nil _ _)
    | exact rrStr_tot (by norm_num)
    | exact rngRandrange_all (by norm_num)
    | apply optPart_all
    | apply mRep_all
    | apply MTot.ifLt
    | apply MTot.ite
    | apply MAll.bind_ne
    | apply MAll.bind_all
    | intro _

theorem sMOVE_tot : MTot sMOVE nonNil := by
  unfold sMOVE
  repeat'
    first
    | exact MTot.pure (List.cons_ne_nil _ _)
    | exact MTot.pure trivial
    | exact gen_key_tot
    | exact gen_value_tot
    | exact gen_int_tot
    | exact gen_float_tot
    | exact gen_field_tot
    | exact gen_pattern_tot
    | exact gen_channel_tot
    | exact gen_stream_id_tot
    | exact rngRandomM_tot
    | exact mutate_string_tot _
    | exact mutate_int_str_tot _
    | exact gen_members_tot _
    | exact gen_field_value_list_tot _
    | exact gen_kv_pair_list_tot _
    | exact gen_zadd_pairs_tot _
    | exact gen_stream_ids_tot _
    | exact globChoice_all TOKENS_ne
    | exact globChoice_all GROUPS_ne
    | exact globChoice_all CONSUMERS_ne
    | exact rngChoice_all GENERIC_MODES_ne
    | exact globChoice_all (List.cons_ne_nil _ _)
    | exact rngChoice_all (List.cons_ne_nil _ _)
    | exact rrStr_tot (by norm_num)
    | exact rngRandrange_all (by norm_num)
    | apply optPart_all
    | apply mRep_all
    | apply MTot.ifLt
    | apply MTot.ite
    | apply MAll.bind_ne
    | apply MAll.bind_all
    | intro _

theorem sSELECT_tot : MTot sSELECT nonNil := by
  unfold sSELECT
  repeat'
    first
    | exact MTot.pure (List.cons_ne_nil _ _)
    | exact MTot.pure trivial
    | exact gen_key_tot
    | exact gen_value_tot
    | exact gen_int_tot
    | exact gen_float_tot
    | exact gen_field_tot
    | exact gen_pattern_tot
    | exact gen_channel_tot
    | exact gen_stream_id_tot
    | exact rngRandomM_tot
    | exact mutate_string_tot _
    | exact mutate_int_str_tot _
    | exact gen_members_tot _
    | exact gen_field_value_list_tot _
    | exact gen_kv_pair_list_tot _
    | exact gen_zadd_pairs_tot _
    | exact gen_stream_ids_tot _
    | exact globChoice_all TOKENS_ne
    | exact globChoice_all GROUPS_ne
    | exact globChoice_all CONSUMERS_ne
    | exact rngChoice_all GENERIC_MODES_ne
    | exact globChoice_all (List.cons_ne_nil _ _)
    | exact rngChoice_all (List.cons_ne_nil _ _)
    | exact rrStr_tot (by norm_num)
    | exact rngRandrange_all (by norm_num)
    | apply optPart_all
    | apply mRep_all
    | apply MTot.ifLt
    | apply MTot.ite
    | apply MAll.bind_ne
    | apply MAll.bind_all
    | intro _

theorem sKEYS_tot : MTot sKEYS nonNil := by
  unfold sKEYS
  repeat'
    first
    | exact MTot.pure (List.cons_ne_nil _ _)
    | exact MTot.pure trivial
    | exact gen_key_tot
    | exact gen_value_tot
    | exact gen_int_tot
    | exact gen_float_tot
    | exact gen_field_tot
    | exact gen_pattern_tot
    | exact gen_channel_tot
    | exact gen_stream_id_tot
    | exact rngRandomM_tot
    | exact mutate_string_tot _
    | exact mutate_int_str_tot _
    | exact gen_members_tot _
    | exact gen_field_value_list_tot _
    | exact gen_kv_pair_list_tot _
    | exact gen_zadd_pairs_tot _
    | exact gen_stream_ids_tot _
    | exact globChoice_all TOKENS_ne
    | exact globChoice_all GROUPS_ne
    | exact globChoice_all CONSUMERS_ne
    | exact rngChoice_all GENERIC_MODES_ne
    | exact globChoice_all (List.cons_ne_nil _ _)
    | exact rngChoice_all (List.cons_ne_nil _ _)
    | exact rrStr_tot (by norm_num)
    | exact rngRandrange_all (by norm_num)
    | apply optPart_all
    | apply mRep_all
    | apply MTot.ifLt
    | apply MTot.ite
    | apply MAll.bind_ne
    | apply MAll.bind_all
    | intro _

theorem sDBSIZE_tot : MTot sDBSIZE nonNil := by
  unfold sDBSIZE
  repeat'
    first
    | exact MTot.pure (List.cons_ne_nil _ _)
    | exact MTot.pure trivial
    | exact gen_key_tot
    | exact gen_value_tot
    | exact gen_int_tot
    | exact gen_float_tot
    | exact gen_field_tot
    | exact gen_pattern_tot
    | exact gen_channel_tot
    | exact gen_stream_id_tot
    | exact rngRandomM_tot
    | exact mutate_string_tot _
    | exact mutate_int_str_tot _
    | exact gen_members_tot _
    | exact gen_field_value_list_tot _
    | exact gen_kv_pair_list_tot _
    | exact gen_zadd_pairs_tot _
    | exact gen_stream_ids_tot _
    | exact globChoice_all TOKENS_ne
    | exact globChoice_all GROUPS_ne
    | exact globChoice_all CONSUMERS_ne
    | exact rngChoice_all GENERIC_MODES_ne
    | exact globChoice_all (List.cons_ne_nil _ _)
    | exact rngChoice_all (List.cons_ne_nil _ _)
    | exact rrStr_tot (by norm_num)
    | exact rngRandrange_all (by norm_num)
    | apply optPart_all
    | apply mRep_all
    | apply MTot.ifLt
    | apply MTot.ite
    | apply MAll.bind_ne
    | apply MAll.bind_all
    | intro _

theorem sRANDOMKEY_tot : MTot sRANDOMKEY nonNil := by
  unfold sRANDOMKEY
  repeat'
    first
    | exact MTot.pure (List.cons_ne_nil _ _)
    | exact MTot.pure trivial
    | exact gen_key_tot
    | exact gen_value_tot
    | exact gen_int_tot
    | exact gen_float_tot
    | exact gen_field_tot
    | exact gen_pattern_tot
    | exact gen_channel_tot
    | exact gen_stream_id_tot
    | exact rngRandomM_tot
    | exact mutate_string_tot _
    | exact mutate_int_str_tot _
    | exact gen_members_tot _
    | exact gen_field_value_list_tot _
    | exact gen_kv_pair_list_tot _
    | exact gen_zadd_pairs_tot _
    | exact gen_stream_ids_tot _
    | exact globChoice_all TOKENS_ne
    | exact globChoice_all GROUPS_ne
    | exact globChoice_all CONSUMERS_ne
    | exact rngChoice_all GENERIC_MODES_ne
    | exact globChoice_all (List.cons_ne_nil _ _)
    | exact rngChoice_all (List.cons_ne_nil _ _)
    | exact rrStr_tot (by norm_num)
    | exact rngRandrange_all (by norm_num)
    | apply optPart_all
    | apply mRep_all
    | apply MTot.ifLt
    | apply MTot.ite
    | apply MAll.bind_ne
    | apply MAll.bind_all
    | intro _

theorem sHSET_tot : MTot sHSET nonNil := by
  unfold sHSET
  repeat'
    first
    | exact MTot.pure (List.cons_ne_nil _ _)
    | exact MTot.pure trivial
    | exact gen_key_tot
    | exact gen_value_tot
    | exact gen_int_tot
    | exact gen_float_tot
    | exact gen_field_tot
    | exact gen_pattern_tot
    | exact gen_channel_tot
    | exact gen_stream_id_tot
    | exact rngRandomM_tot
    | exact mutate_string_tot _
    | exact mutate_int_str_tot _
    | exact gen_members_tot _
    | exact gen_field_value_list_tot _
    | exact gen_kv_pair_list_tot _
    | exact gen_zadd_pairs_tot _
    | exact gen_stream_ids_tot _
    | exact globChoice_all TOKENS_ne
    | exact globChoice_all GROUPS_ne
    | exact globChoice_all CONSUMERS_ne
    | exact rngChoice_all GENERIC_MODES_ne
    | exact globChoice_all (List.cons_ne_nil _ _)
    | exact rngChoice_all (List.cons_ne_nil _ _)
    | exact rrStr_tot (by norm_num)
    | exact rngRandrange_all (by norm_num)
    | apply optPart_all
    | apply mRep_all
    | apply MTot.ifLt
    | apply MTot.ite
    | apply MAll.bind_ne
    | apply MAll.bind_all
    | intro _

theorem sHSETNX_tot : MTot sHSETNX nonNil := by
  unfold sHSETNX
  repeat'
    first
    | exact MTot.pure (List.cons_ne_nil _ _)
    | exact MTot.pure trivial
    | exact gen_key_tot
    | exact gen_value_tot
    | exact gen_int_tot
    | exact gen_float_tot
    | exact gen_field_tot
    | exact gen_pattern_tot
    | exact gen_channel_tot
    | exact gen_stream_id_tot
    | exact rngRandomM_tot
    | exact mutate_string_tot _
    | exact mutate_int_str_tot _
    | exact gen_members_tot _
    | exact gen_field_value_list_tot _
    | exact gen_kv_pair_list_tot _
    | exact gen_zadd_pairs_tot _
    | exact gen_stream_ids_tot _
    | exact globChoice_all TOKENS_ne
    | exact globChoice_all GROUPS_ne
    | exact globChoice_all CONSUMERS_ne
    | exact rngChoice_all GENERIC_MODES_ne
    | exact globChoice_all (List.cons_ne_nil _ _)
    | exact rngChoice_all (List.cons_ne_nil _ _)
    | exact rrStr_tot (by norm_num)
    | exact rngRandrange_all (by norm_num)
    | apply optPart_all
    | apply mRep_all
    | apply MTot.ifLt
    | apply MTot.ite
    | apply MAll.bind_ne
    | apply MAll.bind_all
    | intro _

theorem sHGET_tot : MTot sHGET nonNil := by
  unfold sHGET
  repeat'
    first
    | exact MTot.pure (List.cons_ne_nil _ _)
    | exact MTot.pure trivial
    | exact gen_key_tot
    | exact gen_value_tot
    | exact gen_int_tot
    | exact gen_float_tot
    | exact gen_field_tot
    | exact gen_pattern_tot
    | exact gen_channel_tot
    | exact gen_stream_id_tot
    | exact rngRandomM_tot
    | exact mutate_string_tot _
    | exact mutate_int_str_tot _
    | exact gen_members_tot _
    | exact gen_field_value_list_tot _
    | exact gen_kv_pair_list_tot _
    | exact gen_zadd_pairs_tot _
    | exact gen_stream_ids_tot _
    | exact globChoice_all TOKENS_ne
    | exact globChoice_all GROUPS_ne
    | exact globChoice_all CONSUMERS_ne
    | exact rngChoice_all GENERIC_MODES_ne
    | exact globChoice_all (List.cons_ne_nil _ _)
    | exact rngChoice_all (List.cons_ne_nil _ _)
    | exact rrStr_tot (by norm_num)
    | exact rngRandrange_all (by norm_num)
    | apply optPart_all
    | apply mRep_all
    | apply MTot.ifLt
    | apply MTot.ite
    | apply MAll.bind_ne
    | apply MAll.bind_all
    | intro _

theorem sHGETALL_tot : MTot sHGETALL nonNil := by
  unfold sHGETALL
  repeat'
    first
    | exact MTot.pure (List.cons_ne_nil _ _)
    | exact MTot.pure trivial
    | exact gen_key_tot
    | exact gen_value_tot
    | exact gen_int_tot
    | exact gen_float_tot
    | exact gen_field_tot
    | exact gen_pattern_tot
    | exact gen_channel_tot
    | exact gen_stream_id_tot
    | exact rngRandomM_tot
    | exact mutate_string_tot _
    | exact mutate_int_str_tot _
    | exact gen_members_tot _
    | exact gen_field_value_list_tot _
    | exact gen_kv_pair_list_tot _
    | exact gen_zadd_pairs_tot _
    | exact gen_stream_ids_tot _
    | exact globChoice_all TOKENS_ne
    | exact globChoice_all GROUPS_ne
    | exact globChoice_all CONSUMERS_ne
    | exact rngChoice_all GENERIC_MODES_ne
    | exact globChoice_all (List.cons_ne_nil _ _)
    | exact rngChoice_all (List.cons_ne_nil _ _)
    | exact rrStr_tot (by norm_num)
    | exact rngRandrange_all (by norm_num)
    | apply optPart_all
    | apply mRep_all
    | apply MTot.ifLt
    | apply MTot.ite
    | apply MAll.bind_ne
    | apply MAll.bind_all
    | intro _

theorem sHDEL_tot : MTot sHDEL nonNil := by
  unfold sHDEL
  repeat'
    first
    | exact MTot.pure (List.cons_ne_nil _ _)
    | exact MTot.pure trivial
    | exact gen_key_tot
    | exact gen_value_tot
    | exact gen_int_tot
    | exact gen_float_tot
    | exact gen_field_tot
    | exact gen_pattern_tot
    | exact gen_channel_tot
    | exact gen_stream_id_tot
    | exact rngRandomM_tot
    | exact mutate_string_tot _
    | exact mutate_int_str_tot _
    | exact gen_members_tot _
    | exact gen_field_value_list_tot _
    | exact gen_kv_pair_list_tot _
    | exact gen_zadd_pairs_tot _
    | exact gen_stream_ids_tot _
    | exact globChoice_all TOKENS_ne
    | exact globChoice_all GROUPS_ne
    | exact globChoice_all CONSUMERS_ne
    | exact rngChoice_all GENERIC_MODES_ne
    | exact globChoice_all (List.cons_ne_nil _ _)
    | exact rngChoice_all (List.cons_ne_nil _ _)
    | exact rrStr_tot (by norm_num)
    | exact rngRandrange_all (by norm_num)
    | apply optPart_all
    | apply mRep_all
    | apply MTot.ifLt
    | apply MTot.ite
    | apply MAll.bind_ne
    | apply MAll.bind_all
    | intro _

theorem sHEXISTS_tot : MTot sHEXISTS nonNil := by
  unfold sHEXISTS
  repeat'
    first
    | exact MTot.pure (List.cons_ne_nil _ _)
    | exact MTot.pure trivial
    | exact gen_key_tot
    | exact gen_value_tot
    | exact gen_int_tot
    | exact gen_float_tot
    | exact gen_field_tot
    | exact gen_pattern_tot
    | exact gen_channel_tot
    | exact gen_stream_id_tot
    | exact rngRandomM_tot
    | exact mutate_string_tot _
    | exact mutate_int_str_tot _
    | exact gen_members_tot _
    | exact gen_field_value_list_tot _
    | exact gen_kv_pair_list_tot _
    | exact gen_zadd_pairs_tot _
    | exact gen_stream_ids_tot _
    | exact globChoice_all TOKENS_ne
    | exact globChoice_all GROUPS_ne
    | exact globChoice_all CONSUMERS_ne
    | exact rngChoice_all GENERIC_MODES_ne
    | exact globChoice_all (List.cons_ne_nil _ _)
    | exact rngChoice_all (List.cons_ne_nil _ _)
    | exact rrStr_tot (by norm_num)
    | exact rngRandrange_all (by norm_num)
    | apply optPart_all
    | apply mRep_all
    | apply MTot.ifLt
    | apply MTot.ite
    | apply MAll.bind_ne
    | apply MAll.bind_all
    | intro _

theorem sHLEN_tot : MTot sHLEN nonNil := by
  unfold sHLEN
  repeat'
    first
    | exact MTot.pure (List.cons_ne_nil _ _)
    | exact MTot.pure trivial
    | exact gen_key_tot
    | exact gen_value_tot
    | exact gen_int_tot
    | exact gen_float_tot
    | exact gen_field_tot
    | exact gen_pattern_tot
    | exact gen_channel_tot
    | exact gen_stream_id_tot
    | exact rngRandomM_tot
    | exact mutate_string_tot _
    | exact mutate_int_str_tot _
    | exact gen_members_tot _
    | exact gen_field_value_list_tot _
    | exact gen_kv_pair_list_tot _
    | exact gen_zadd_pairs_tot _
    | exact gen_stream_ids_tot _
    | exact globChoice_all TOKENS_ne
    | exact globChoice_all GROUPS_ne
    | exact globChoice_all CONSUMERS_ne
    | exact rngChoice_all GENERIC_MODES_ne
    | exact globChoice_all (List.cons_ne_nil _ _)
    | exact rngChoice_all (List.cons_ne_nil _ _)
    | exact rrStr_tot (by norm_num)
    | exact rngRandrange_all (by norm_num)
    | apply optPart_all
    | apply mRep_all
    | apply MTot.ifLt
    | apply MTot.ite
    | apply MAll.bind_ne
    | apply MAll.bind_all
    | intro _

theorem sHSTRLEN_tot : MTot sHSTRLEN nonNil := by
  unfold sHSTRLEN
  repeat'
    first
    | exact MTot.pure (List.cons_ne_nil _ _)
    | exact MTot.pure trivial
    | exact gen_key_tot
    | exact gen_value_tot
    | exact gen_int_tot
    | exact gen_float_tot
    | exact gen_field_tot
    | exact gen_pattern_tot
    | exact gen_channel_tot
    | exact gen_stream_id_tot
    | exact rngRandomM_tot
    | exact mutate_string_tot _
    | exact mutate_int_str_tot _
    | exact gen_members_tot _
    | exact gen_field_value_list_tot _
    | exact gen_kv_pair_list_tot _
    | exact gen_zadd_pairs_tot _
    | exact gen_stream_ids_tot _
    | exact globChoice_all TOKENS_ne
    | exact globChoice_all GROUPS_ne
    | exact globChoice_all CONSUMERS_ne
    | exact rngChoice_all GENERIC_MODES_ne
    | exact globChoice_all (List.cons_ne_nil _ _)
    | exact rngChoice_all (List.cons_ne_nil _ _)
    | exact rrStr_tot (by norm_num)
    | exact rngRandrange_all (by norm_num)
    | apply optPart_all
    | apply mRep_all
    | apply MTot.ifLt
    | apply MTot.ite
    | apply MAll.bind_ne
    | apply MAll.bind_all
    | intro _

theorem sHINCRBY_tot : MTot sHINCRBY nonNil := by
  unfold sHINCRBY
  repeat'
    first
    | exact MTot.pure (List.cons_ne_nil _ _)
    | exact MTot.pure trivial
    | exact gen_key_tot
    | exact gen_value_tot
    | exact gen_int_tot
    | exact gen_float_tot
    | exact gen_field_tot
    | exact gen_pattern_tot
    | exact gen_channel_tot
    | exact gen_stream_id_tot
    | exact rngRandomM_tot
    | exact mutate_string_tot _
    | exact mutate_int_str_tot _
    | exact gen_members_tot _
    | exact gen_field_value_list_tot _
    | exact gen_kv_pair_list_tot _
    | exact gen_zadd_pairs_tot _
    | exact gen_stream_ids_tot _
    | exact globChoice_all TOKENS_ne
    | exact globChoice_all GROUPS_ne
    | exact globChoice_all CONSUMERS_ne
    | exact rngChoice_all GENERIC_MODES_ne
    | exact globChoice_all (List.cons_ne_nil _ _)
    | exact rngChoice_all (List.cons_ne_nil _ _)
    | exact rrStr_tot (by norm_num)
    | exact rngRandrange_all (by norm_num)
    | apply optPart_all
    | apply mRep_all
    | apply MTot.ifLt
    | apply MTot.ite
    | apply MAll.bind_ne
    | apply MAll.bind_all
    | intro _

theorem sHINCRBYFLOAT_tot : MTot sHINCRBYFLOAT nonNil := by
  unfold sHINCRBYFLOAT
  repeat'
    first
    | exact MTot.pure (List.cons_ne_nil _ _)
    | exact MTot.pure trivial
    | exact gen_key_tot
    | exact gen_value_tot
    | exact gen_int_tot
    | exact gen_float_tot
    | exact gen_field_tot
    | exact gen_pattern_tot
    | exact gen_channel_tot
    | exact gen_stream_id_tot
    | exact rngRandomM_tot
    | exact mutate_string_tot _
    | exact mutate_int_str_tot _
    | exact gen_members_tot _
    | exact gen_field_value_list_tot _
    | exact gen_kv_pair_list_tot _
    | exact gen_zadd_pairs_tot _
    | exact gen_stream_ids_tot _
    | exact globChoice_all TOKENS_ne
    | exact globChoice_all GROUPS_ne
    | exact globChoice_all CONSUMERS_ne
    | exact rngChoice_all GENERIC_MODES_ne
    | exact globChoice_all (List.cons_ne_nil _ _)
    | exact rngChoice_all (List.cons_ne_nil _ _)
    | exact rrStr_tot (by norm_num)
    | exact rngRandrange_all (by norm_num)
    | apply optPart_all
    | apply mRep_all
    | apply MTot.ifLt
    | apply MTot.ite
    | apply MAll.bind_ne
    | apply MAll.bind_all
    | intro _

theorem sHKEYS_tot : MTot sHKEYS nonNil := by
  unfold sHKEYS
  repeat'
    first
    | exact MTot.pure (List.cons_ne_nil _ _)
    | exact MTot.pure trivial
    | exact gen_key_tot
    | exact gen_value_tot
    | exact gen_int_tot
    | exact gen_float_tot
    | exact gen_field_tot
    | exact gen_pattern_tot
    | exact gen_channel_tot
    | exact gen_stream_id_tot
    | exact rngRandomM_tot
    | exact mutate_string_tot _
    | exact mutate_int_str_tot _
    | exact gen_members_tot _
    | exact gen_field_value_list_tot _
    | exact gen_kv_pair_list_tot _
    | exact gen_zadd_pairs_tot _
    | exact gen_stream_ids_tot _
    | exact globChoice_all TOKENS_ne
    | exact globChoice_all GROUPS_ne
    | exact globChoice_all CONSUMERS_ne
    | exact rngChoice_all GENERIC_MODES_ne
    | exact globChoice_all (List.cons_ne_nil _ _)
    | exact rngChoice_all (List.cons_ne_nil _ _)
    | exact rrStr_tot (by norm_num)
    | exact rngRandrange_all (by norm_num)
    | apply optPart_all
    | apply mRep_all
    | apply MTot.ifLt
    | apply MTot.ite
    | apply MAll.bind_ne
    | apply MAll.bind_all
    | intro _

theorem sHVALS_tot : MTot sHVALS nonNil := by
  unfold sHVALS
  repeat'
    first
    | exact MTot.pure (List.cons_ne_nil _ _)
    | exact MTot.pure trivial
    | exact gen_key_tot
    | exact gen_value_tot
    | exact gen_int_tot
    | exact gen_float_tot
    | exact gen_field_tot
    | exact gen_pattern_tot
    | exact gen_channel_tot
    | exact gen_stream_id_tot
    | exact rngRandomM_tot
    | exact mutate_string_tot _
    | exact mutate_int_str_tot _
    | exact gen_members_tot _
    | exact gen_field_value_list_tot _
    | exact gen_kv_pair_list_tot _
    | exact gen_zadd_pairs_tot _
    | exact gen_stream_ids_tot _
    | exact globChoice_all TOKENS_ne
    | exact globChoice_all GROUPS_ne
    | exact globChoice_all CONSUMERS_ne
    | exact rngChoice_all GENERIC_MODES_ne
    | exact globChoice_all (List.cons_ne_nil _ _)
    | exact rngChoice_all (List.cons_ne_nil _ _)
    | exact rrStr_tot (by norm_num)
    | exact rngRandrange_all (by norm_num)
    | apply optPart_all
    | apply mRep_all
    | apply MTot.ifLt
    | apply MTot.ite
    | apply MAll.bind_ne
    | apply MAll.bind_all
    | intro _

theorem sHMGET_tot : MTot sHMGET nonNil := by
  unfold sHMGET
  repeat'
    first
    | exact MTot.pure (List.cons_ne_nil _ _)
    | exact MTot.pure trivial
    | exact gen_key_tot
    | exact gen_value_tot
    | exact gen_int_tot
    | exact gen_float_tot
    | exact gen_field_tot
    | exact gen_pattern_tot
    | exact gen_channel_tot
    | exact gen_stream_id_tot
    | exact rngRandomM_tot
    | exact mutate_string_tot _
    | exact mutate_int_str_tot _
    | exact gen_members_tot _
    | exact gen_field_value_list_tot _
    | exact gen_kv_pair_list_tot _
    | exact gen_zadd_pairs_tot _
    | exact gen_stream_ids_tot _
    | exact globChoice_all TOKENS_ne
    | exact globChoice_all GROUPS_ne
    | exact globChoice_all CONSUMERS_ne
    | exact rngChoice_all GENERIC_MODES_ne
    | exact globChoice_all (List.cons_ne_nil _ _)
    | exact rngChoice_all (List.cons_ne_nil _ _)
    | exact rrStr_tot (by norm_num)
    | exact rngRandrange_all (by norm_num)
    | apply optPart_all
    | apply mRep_all
    | apply MTot.ifLt
    | apply MTot.ite
    | apply MAll.bind_ne
    | apply MAll.bind_all
    | intro _

theorem sHMSET_tot : MTot sHMSET nonNil := by
  unfold sHMSET
  repeat'
    first
    | exact MTot.pure (List.cons_ne_nil _ _)
    | exact MTot.pure trivial
    | exact gen_key_tot
    | exact gen_value_tot
    | exact gen_int_tot
    | exact gen_float_tot
    | exact gen_field_tot
    | exact gen_pattern_tot
    | exact gen_channel_tot
    | exact gen_stream_id_tot
    | exact rngRandomM_tot
    | exact mutate_string_tot _
    | exact mutate_int_str_tot _
    | exact gen_members_tot _
    | exact gen_field_value_list_tot _
    | exact gen_kv_pair_list_tot _
    | exact gen_zadd_pairs_tot _
    | exact gen_stream_ids_tot _
    | exact globChoice_all TOKENS_ne
    | exact globChoice_all GROUPS_ne
    | exact globChoice_all CONSUMERS_ne
    | exact rngChoice_all GENERIC_MODES_ne
    | exact globChoice_all (List.cons_ne_nil _ _)
    | exact rngChoice_all (List.cons_ne_nil _ _)
    | exact rrStr_tot (by norm_num)
    | exact rngRandrange_all (by norm_num)
    | apply optPart_all
    | apply mRep_all
    | apply MTot.ifLt
    | apply MTot.ite
    | apply MAll.bind_ne
    | apply MAll.bind_all
    | intro _

theorem sHRANDFIELD_tot : MTot sHRANDFIELD nonNil := by
  unfold sHRANDFIELD
  repeat'
    first
    | exact MTot.pure (List.cons_ne_nil _ _)
    | exact MTot.pure trivial
    | exact gen_key_tot
    | exact gen_value_tot
    | exact gen_int_tot
    | exact gen_float_tot
    | exact gen_field_tot
    | exact gen_pattern_tot
    | exact gen_channel_tot
    | exact gen_stream_id_tot
    | exact rngRandomM_tot
    | exact mutate_string_tot _
    | exact mutate_int_str_tot _
    | exact gen_members_tot _
    | exact gen_field_value_list_tot _
    | exact gen_kv_pair_list_tot _
    | exact gen_zadd_pairs_tot _
    | exact gen_stream_ids_tot _
    | exact globChoice_all TOKENS_ne
    | exact globChoice_all GROUPS_ne
    | exact globChoice_all CONSUMERS_ne
    | exact rngChoice_all GENERIC_MODES_ne
    | exact globChoice_all (List.cons_ne_nil _ _)
    | exact rngChoice_all (List.cons_ne_nil _ _)
    | exact rrStr_tot (by norm_num)
    | exact rngRandrange_all (by norm_num)
    | apply optPart_all
    | apply mRep_all
    | apply MTot.ifLt
    | apply MTot.ite
    | apply MAll.bind_ne
    | apply MAll.bind_all
    | intro _

theorem sHSCAN1_tot : MTot sHSCAN1 nonNil := by
  unfold sHSCAN1
  repeat'
    first
    | exact MTot.pure (List.cons_ne_nil _ _)
    | exact MTot.pure trivial
    | exact gen_key_tot
    | exact gen_value_tot
    | exact gen_int_tot
    | exact gen_float_tot
    | exact gen_field_tot
    | exact gen_pattern_tot
    | exact gen_channel_tot
    | exact gen_stream_id_tot
    | exact rngRandomM_tot
    | exact mutate_string_tot _
    | exact mutate_int_str_tot _
    | exact gen_members_tot _
    | exact gen_field_value_list_tot _
    | exact gen_kv_pair_list_tot _
    | exact gen_zadd_pairs_tot _
    | exact gen_stream_ids_tot _
    | exact globChoice_all TOKENS_ne
    | exact globChoice_all GROUPS_ne
    | exact globChoice_all CONSUMERS_ne
    | exact rngChoice_all GENERIC_MODES_ne
    | exact globChoice_all (List.cons_ne_nil _ _)
    | exact rngChoice_all (List.cons_ne_nil _ _)
    | exact rrStr_tot (by norm_num)
    | exact rngRandrange_all (by norm_num)
    | apply optPart_all
    | apply mRep_all
    | apply MTot.ifLt
    | apply MTot.ite
    | apply MAll.bind_ne
    | apply MAll.bind_all
    | intro _

theorem sLPUSH_tot : MTot sLPUSH nonNil := by
  unfold sLPUSH
  repeat'
    first
    | exact MTot.pure (List.cons_ne_nil _ _)
    | exact MTot.pure trivial
    | exact gen_key_tot
    | exact gen_value_tot
    | exact gen_int_tot
    | exact gen_float_tot
    | exact gen_field_tot
    | exact gen_pattern_tot
    | exact gen_channel_tot
    | exact gen_stream_id_tot
    | exact rngRandomM_tot
    | exact mutate_string_tot _
    | exact mutate_int_str_tot _
    | exact gen_members_tot _
    | exact gen_field_value_list_tot _
    | exact gen_kv_pair_list_tot _
    | exact gen_zadd_pairs_tot _
    | exact gen_stream_ids_tot _
    | exact globChoice_all TOKENS_ne
    | exact globChoice_all GROUPS_ne
    | exact globChoice_all CONSUMERS_ne
    | exact rngChoice_all GENERIC_MODES_ne
    | exact globChoice_all (List.cons_ne_nil _ _)
    | exact rngChoice_all (List.cons_ne_nil _ _)
    | exact rrStr_tot (by norm_num)
    | exact rngRandrange_all (by norm_num)
    | apply optPart_all
    | apply mRep_all
    | apply MTot.ifLt
    | apply MTot.ite
    | apply MAll.bind_ne
    | apply MAll.bind_all
    | intro _

theorem sRPUSH_tot : MTot sRPUSH nonNil := by
  unfold sRPUSH
  repeat'
    first
    | exact MTot.pure (List.cons_ne_nil _ _)
    | exact MTot.pure trivial
    | exact gen_key_tot
    | exact gen_value_tot
    | exact gen_int_tot
    | exact gen_float_tot
    | exact gen_field_tot
    | exact gen_pattern_tot
    | exact gen_channel_tot
    | exact gen_stream_id_tot
    | exact rngRandomM_tot
    | exact mutate_string_tot _
    | exact mutate_int_str_tot _
    | exact gen_members_tot _
    | exact gen_field_value_list_tot _
    | exact gen_kv_pair_list_tot _
    | exact gen_zadd_pairs_tot _
    | exact gen_stream_ids_tot _
    | exact globChoice_all TOKENS_ne
    | exact globChoice_all GROUPS_ne
    | exact globChoice_all CONSUMERS_ne
    | exact rngChoice_all GENERIC_MODES_ne
    | exact globChoice_all (List.cons_ne_nil _ _)
    | exact rngChoice_all (List.cons_ne_nil _ _)
    | exact rrStr_tot (by norm_num)
    | exact rngRandrange_all (by norm_num)
    | apply optPart_all
    | apply mRep_all
    | apply MTot.ifLt
    | apply MTot.ite
    | apply MAll.bind_ne
    | apply MAll.bind_all
    | intro _

theorem sLPUSHX_tot : MTot sLPUSHX nonNil := by
  unfold sLPUSHX
  repeat'
    first
    | exact MTot.pure (List.cons_ne_nil _ _)
    | exact MTot.pure trivial
    | exact gen_key_tot
    | exact gen_value_tot
    | exact gen_int_tot
    | exact gen_float_tot
    | exact gen_field_tot
    | exact gen_pattern_tot
    | exact gen_channel_tot
    | exact gen_stream_id_tot
    | exact rngRandomM_tot
    | exact mutate_string_tot _
    | exact mutate_int_str_tot _
    | exact gen_members_tot _
    | exact gen_field_value_list_tot _
    | exact gen_kv_pair_list_tot _
    | exact gen_zadd_pairs_tot _
    | exact gen_stream_ids_tot _
    | exact globChoice_all TOKENS_ne
    | exact globChoice_all GROUPS_ne
    | exact globChoice_all CONSUMERS_ne
    | exact rngChoice_all GENERIC_MODES_ne
    | exact globChoice_all (List.cons_ne_nil _ _)
    | exact rngChoice_all (List.cons_ne_nil _ _)
    | exact rrStr_tot (by norm_num)
    | exact rngRandrange_all (by norm_num)
    | apply optPart_all
    | apply mRep_all
    | apply MTot.ifLt
    | apply MTot.ite
    | apply MAll.bind_ne
    | apply MAll.bind_all
    | intro _

theorem sRPUSHX_tot : MTot sRPUSHX nonNil := by
  unfold sRPUSHX
  repeat'
    first
    | exact MTot.pure (List.cons_ne_nil _ _)
    | exact MTot.pure trivial
    | exact gen_key_tot
    | exact gen_value_tot
    | exact gen_int_tot
    | exact gen_float_tot
    | exact gen_field_tot
    | exact gen_pattern_tot
    | exact gen_channel_tot
    | exact gen_stream_id_tot
    | exact rngRandomM_tot
    | exact mutate_string_tot _
    | exact mutate_int_str_tot _
    | exact gen_members_tot _
    | exact gen_field_value_list_tot _
    | exact gen_kv_pair_list_tot _
    | exact gen_zadd_pairs_tot _
    | exact gen_stream_ids_tot _
    | exact globChoice_all TOKENS_ne
    | exact globChoice_all GROUPS_ne
    | exact globChoice_all CONSUMERS_ne
    | exact rngChoice_all GENERIC_MODES_ne
    | exact globChoice_all (List.cons_ne_nil _ _)
    | exact rngChoice_all (List.cons_ne_nil _ _)
    | exact rrStr_tot (by norm_num)
    | exact rngRandrange_all (by norm_num)
    | apply optPart_all
    | apply mRep_all
    | apply MTot.ifLt
    | apply MTot.ite
    | apply MAll.bind_ne
    | apply MAll.bind_all
    | intro _

theorem sLPOP_tot : MTot sLPOP nonNil := by
  unfold sLPOP
  repeat'
    first
    | exact MTot.pure (List.cons_ne_nil _ _)
    | exact MTot.pure trivial
    | exact gen_key_tot
    | exact gen_value_tot
    | exact gen_int_tot
    | exact gen_float_tot
    | exact gen_field_tot
    | exact gen_pattern_tot
    | exact gen_channel_tot
    | exact gen_stream_id_tot
    | exact rngRandomM_tot
    | exact mutate_string_tot _
    | exact mutate_int_str_tot _
    | exact gen_members_tot _
    | exact gen_field_value_list_tot _
    | exact gen_kv_pair_list_tot _
    | exact gen_zadd_pairs_tot _
    | exact gen_stream_ids_tot _
    | exact globChoice_all TOKENS_ne
    | exact globChoice_all GROUPS_ne
    | exact globChoice_all CONSUMERS_ne
    | exact rngChoice_all GENERIC_MODES_ne
    | exact globChoice_all (List.cons_ne_nil _ _)
    | exact rngChoice_all (List.cons_ne_nil _ _)
    | exact rrStr_tot (by norm_num)
    | exact rngRandrange_all (by norm_num)
    | apply optPart_all
    | apply mRep_all
    | apply MTot.ifLt
    | apply MTot.ite
    | apply MAll.bind_ne
    | apply MAll.bind_all
    | intro _

theorem sRPOP_tot : MTot sRPOP nonNil := by
  unfold sRPOP
  repeat'
    first
    | exact MTot.pure (List.cons_ne_nil _ _)
    | exact MTot.pure trivial
    | exact gen_key_tot
    | exact gen_value_tot
    | exact gen_int_tot
    | exact gen_float_tot
    | exact gen_field_tot
    | exact gen_pattern_tot
    | exact gen_channel_tot
    | exact gen_stream_id_tot
    | exact rngRandomM_tot
    | exact mutate_string_tot _
    | exact mutate_int_str_tot _
    | exact gen_members_tot _
    | exact gen_field_value_list_tot _
    | exact gen_kv_pair_list_tot _
    | exact gen_zadd_pairs_tot _
    | exact gen_stream_ids_tot _
    | exact globChoice_all TOKENS_ne
    | exact globChoice_all GROUPS_ne
    | exact globChoice_all CONSUMERS_ne
    | exact rngChoice_all GENERIC_MODES_ne
    | exact globChoice_all (List.cons_ne_nil _ _)
    | exact rngChoice_all (List.cons_ne_nil _ _)
    | exact rrStr_tot (by norm_num)
    | exact rngRandrange_all (by norm_num)
    | apply optPart_all
    | apply mRep_all
    | apply MTot.ifLt
    | apply MTot.ite
    | apply MAll.bind_ne
    | apply MAll.bind_all
    | intro _

theorem sLRANGE_tot : MTot sLRANGE nonNil := by
  unfold sLRANGE
  repeat'
    first
    | exact MTot.pure (List.cons_ne_nil _ _)
    | exact MTot.pure trivial
    | exact gen_key_tot
    | exact gen_value_tot
    | exact gen_int_tot
    | exact gen_float_tot
    | exact gen_field_tot
    | exact gen_pattern_tot
    | exact gen_channel_tot
    | exact gen_stream_id_tot
    | exact rngRandomM_tot
    | exact mutate_string_tot _
    | exact mutate_int_str_tot _
    | exact gen_members_tot _
    | exact gen_field_value_list_tot _
    | exact gen_kv_pair_list_tot _
    | exact gen_zadd_pairs_tot _
    | exact gen_stream_ids_tot _
    | exact globChoice_all TOKENS_ne
    | exact globChoice_all GROUPS_ne
    | exact globChoice_all CONSUMERS_ne
    | exact rngChoice_all GENERIC_MODES_ne
    | exact globChoice_all (List.cons_ne_nil _ _)
    | exact rngChoice_all (List.cons_ne_nil _ _)
    | exact rrStr_tot (by norm_num)
    | exact rngRandrange_all (by norm_num)
    | apply optPart_all
    | apply mRep_all
    | apply MTot.ifLt
    | apply MTot.ite
    | apply MAll.bind_ne
    | apply MAll.bind_all
    | intro _

theorem sLLEN_tot : MTot sLLEN nonNil := by
  unfold sLLEN
  repeat'
    first
    | exact MTot.pure (List.cons_ne_nil _ _)
    | exact MTot.pure trivial
    | exact gen_key_tot
    | exact gen_value_tot
    | exact gen_int_tot
    | exact gen_float_tot
    | exact gen_field_tot
    | exact gen_pattern_tot
    | exact gen_channel_tot
    | exact gen_stream_id_tot
    | exact rngRandomM_tot
    | exact mutate_string_tot _
    | exact mutate_int_str_tot _
    | exact gen_members_tot _
    | exact gen_field_value_list_tot _
    | exact gen_kv_pair_list_tot _
    | exact gen_zadd_pairs_tot _
    | exact gen_stream_ids_tot _
    | exact globChoice_all TOKENS_ne
    | exact globChoice_all GROUPS_ne
    | exact globChoice_all CONSUMERS_ne
    | exact rngChoice_all GENERIC_MODES_ne
    | exact globChoice_all (List.cons_ne_nil _ _)
    | exact rngChoice_all (List.cons_ne_nil _ _)
    | exact rrStr_tot (by norm_num)
    | exact rngRandrange_all (by norm_num)
    | apply optPart_all
    | apply mRep_all
    | apply MTot.ifLt
    | apply MTot.ite
    | apply MAll.bind_ne
    | apply MAll.bind_all
    | intro _

theorem sLINDEX_tot : MTot sLINDEX nonNil := by
  unfold sLINDEX
  repeat'
    first
    | exact MTot.pure (List.cons_ne_nil _ _)
    | exact MTot.pure trivial
    | exact gen_key_tot
    | exact gen_value_tot
    | exact gen_int_tot
    | exact gen_float_tot
    | exact gen_field_tot
    | exact gen_pattern_tot
    | exact gen_channel_tot
    | exact gen_stream_id_tot
    | exact rngRandomM_tot
    | exact mutate_string_tot _
    | exact mutate_int_str_tot _
    | exact gen_members_tot _
    | exact gen_field_value_list_tot _
    | exact gen_kv_pair_list_tot _
    | exact gen_zadd_pairs_tot _
    | exact gen_stream_ids_tot _
    | exact globChoice_all TOKENS_ne
    | exact globChoice_all GROUPS_ne
    | exact globChoice_all CONSUMERS_ne
    | exact rngChoice_all GENERIC_MODES_ne
    | exact globChoice_all (List.cons_ne_nil _ _)
    | exact rngChoice_all (List.cons_ne_nil _ _)
    | exact rrStr_tot (by norm_num)
    | exact rngRandrange_all (by norm_num)
    | apply optPart_all
    | apply mRep_all
    | apply MTot.ifLt
    | apply MTot.ite
    | apply MAll.bind_ne
    | apply MAll.bind_all
    | intro _

theorem sLSET_tot : MTot sLSET nonNil := by
  unfold sLSET
  repeat'
    first
    | exact MTot.pure (List.cons_ne_nil _ _)
    | exact MTot.pure trivial
    | exact gen_key_tot
    | exact gen_value_tot
    | exact gen_int_tot
    | exact gen_float_tot
    | exact gen_field_tot
    | exact gen_pattern_tot
    | exact gen_channel_tot
    | exact gen_stream_id_tot
    | exact rngRandomM_tot
    | exact mutate_string_tot _
    | exact mutate_int_str_tot _
    | exact gen_members_tot _
    | exact gen_field_value_list_tot _
    | exact gen_kv_pair_list_tot _
    | exact gen_zadd_pairs_tot _
    | exact gen_stream_ids_tot _
    | exact globChoice_all TOKENS_ne
    | exact globChoice_all GROUPS_ne
    | exact globChoice_all CONSUMERS_ne
    | exact rngChoice_all GENERIC_MODES_ne
    | exact globChoice_all (List.cons_ne_nil _ _)
    | exact rngChoice_all (List.cons_ne_nil _ _)
    | exact rrStr_tot (by norm_num)
    | exact rngRandrange_all (by norm_num)
    | apply optPart_all
    | apply mRep_all
    | apply MTot.ifLt
    | apply MTot.ite
    | apply MAll.bind_ne
    | apply MAll.bind_all
    | intro _

theorem sLREM_tot : MTot sLREM nonNil := by
  unfold sLREM
  repeat'
    first
    | exact MTot.pure (List.cons_ne_nil _ _)
    | exact MTot.pure trivial
    | exact gen_key_tot
    | exact gen_value_tot
    | exact gen_int_tot
    | exact gen_float_tot
    | exact gen_field_tot
    | exact gen_pattern_tot
    | exact gen_channel_tot
    | exact gen_stream_id_tot
    | exact rngRandomM_tot
    | exact mutate_string_tot _
    | exact mutate_int_str_tot _
    | exact gen_members_tot _
    | exact gen_field_value_list_tot _
    | exact gen_kv_pair_list_tot _
    | exact gen_zadd_pairs_tot _
    | exact gen_stream_ids_tot _
    | exact globChoice_all TOKENS_ne
    | exact globChoice_all GROUPS_ne
    | exact globChoice_all CONSUMERS_ne
    | exact rngChoice_all GENERIC_MODES_ne
    | exact globChoice_all (List.cons_ne_nil _ _)
    | exact rngChoice_all (List.cons_ne_nil _ _)
    | exact rrStr_tot (by norm_num)
    | exact rngRandrange_all (by norm_num)
    | apply optPart_all
    | apply mRep_all
    | apply MTot.ifLt
    | apply MTot.ite
    | apply MAll.bind_ne
    | apply MAll.bind_all
    | intro _

theorem sLTRIM_tot : MTot sLTRIM nonNil := by
  unfold sLTRIM
  repeat'
    first
    | exact MTot.pure (List.cons_ne_nil _ _)
    | exact MTot.pure trivial
    | exact gen_key_tot
    | exact gen_value_tot
    | exact gen_int_tot
    | exact gen_float_tot
    | exact gen_field_tot
    | exact gen_pattern_tot
    | exact gen_channel_tot
    | exact gen_stream_id_tot
    | exact rngRandomM_tot
    | exact mutate_string_tot _
    | exact mutate_int_str_tot _
    | exact gen_members_tot _
    | exact gen_field_value_list_tot _
    | exact gen_kv_pair_list_tot _
    | exact gen_zadd_pairs_tot _
    | exact gen_stream_ids_tot _
    | exact globChoice_all TOKENS_ne
    | exact globChoice_all GROUPS_ne
    | exact globChoice_all CONSUMERS_ne
    | exact rngChoice_all GENERIC_MODES_ne
    | exact globChoice_all (List.cons_ne_nil _ _)
    | exact rngChoice_all (List.cons_ne_nil _ _)
    | exact rrStr_tot (by norm_num)
    | exact rngRandrange_all (by norm_num)
    | apply optPart_all
    | apply mRep_all
    | apply MTot.ifLt
    | apply MTot.ite
    | apply MAll.bind_ne
    | apply MAll.bind_all
    | intro _

theorem sLINSERT_tot : MTot sLINSERT nonNil := by
  unfold sLINSERT
  repeat'
    first
    | exact MTot.pure (List.cons_ne_nil _ _)
    | exact MTot.pure trivial
    | exact gen_key_tot
    | exact gen_value_tot
    | exact gen_int_tot
    | exact gen_float_tot
    | exact gen_field_tot
    | exact gen_pattern_tot
    | exact gen_channel_tot
    | exact gen_stream_id_tot
    | exact rngRandomM_tot
    | exact mutate_string_tot _
    | exact mutate_int_str_tot _
    | exact gen_members_tot _
    | exact gen_field_value_list_tot _
    | exact gen_kv_pair_list_tot _
    | exact gen_zadd_pairs_tot _
    | exact gen_stream_ids_tot _
    | exact globChoice_all TOKENS_ne
    | exact globChoice_all GROUPS_ne
    | exact globChoice_all CONSUMERS_ne
    | exact rngChoice_all GENERIC_MODES_ne
    | exact globChoice_all (List.cons_ne_nil _ _)
    | exact rngChoice_all (List.cons_ne_nil _ _)
    | exact rrStr_tot (by norm_num)
    | exact rngRandrange_all (by norm_num)
    | apply optPart_all
    | apply mRep_all
    | apply MTot.ifLt
    | apply MTot.ite
    | apply MAll.bind_ne
    | apply MAll.bind_all
    | intro _

theorem sRPOPLPUSH_tot : MTot sRPOPLPUSH nonNil := by
  unfold sRPOPLPUSH
  repeat'
    first
    | exact MTot.pure (List.cons_ne_nil _ _)
    | exact MTot.pure trivial
    | exact gen_key_tot
    | exact gen_value_tot
    | exact gen_int_tot
    | exact gen_float_tot
    | exact gen_field_tot
    | exact gen_pattern_tot
    | exact gen_channel_tot
    | exact gen_stream_id_tot
    | exact rngRandomM_tot
    | exact mutate_string_tot _
    | exact mutate_int_str_tot _
    | exact gen_members_tot _
    | exact gen_field_value_list_tot _
    | exact gen_kv_pair_list_tot _
    | exact gen_zadd_pairs_tot _
    | exact gen_stream_ids_tot _
    | exact globChoice_all TOKENS_ne
    | exact globChoice_all GROUPS_ne
    | exact globChoice_all CONSUMERS_ne
    | exact rngChoice_all GENERIC_MODES_ne
    | exact globChoice_all (List.cons_ne_nil _ _)
    | exact rngChoice_all (List.cons_ne_nil _ _)
    | exact rrStr_tot (by norm_num)
    | exact rngRandrange_all (by norm_num)
    | apply optPart_all
    | apply mRep_all
    | apply MTot.ifLt
    | apply MTot.ite
    | apply MAll.bind_ne
    | apply MAll.bind_all
    | intro _

theorem sLMOVE_tot : MTot sLMOVE nonNil := by
  unfold sLMOVE
  repeat'
    first
    | exact MTot.pure (List.cons_ne_nil _ _)
    | exact MTot.pure trivial
    | exact gen_key_tot
    | exact gen_value_tot
    | exact gen_int_tot
    | exact gen_float_tot
    | exact gen_field_tot
    | exact gen_pattern_tot
    | exact gen_channel_tot
    | exact gen_stream_id_tot
    | exact rngRandomM_tot
    | exact mutate_string_tot _
    | exact mutate_int_str_tot _
    | exact gen_members_tot _
    | exact gen_field_value_list_tot _
    | exact gen_kv_pair_list_tot _
    | exact gen_zadd_pairs_tot _
    | exact gen_stream_ids_tot _
    | exact globChoice_all TOKENS_ne
    | exact globChoice_all GROUPS_ne
    | exact globChoice_all CONSUMERS_ne
    | exact rngChoice_all GENERIC_MODES_ne
    | exact globChoice_all (List.cons_ne_nil _ _)
    | exact rngChoice_all (List.cons_ne_nil _ _)
    | exact rrStr_tot (by norm_num)
    | exact rngRandrange_all (by norm_num)
    | apply optPart_all
    | apply mRep_all
    | apply MTot.ifLt
    | apply MTot.ite
    | apply MAll.bind_ne
    | apply MAll.bind_all
    | intro _

theorem sSADD_tot : MTot sSADD nonNil := by
  unfold sSADD
  repeat'
    first
    | exact MTot.pure (List.cons_ne_nil _ _)
    | exact MTot.pure trivial
    | exact gen_key_tot
    | exact gen_value_tot
    | exact gen_int_tot
    | exact gen_float_tot
    | exact gen_field_tot
    | exact gen_pattern_tot
    | exact gen_channel_tot
    | exact gen_stream_id_tot
    | exact rngRandomM_tot
    | exact mutate_string_tot _
    | exact mutate_int_str_tot _
    | exact gen_members_tot _
    | exact gen_field_value_list_tot _
    | exact gen_kv_pair_list_tot _
    | exact gen_zadd_pairs_tot _
    | exact gen_stream_ids_tot _
    | exact globChoice_all TOKENS_ne
    | exact globChoice_all GROUPS_ne
    | exact globChoice_all CONSUMERS_ne
    | exact rngChoice_all GENERIC_MODES_ne
    | exact globChoice_all (List.cons_ne_nil _ _)
    | exact rngChoice_all (List.cons_ne_nil _ _)
    | exact rrStr_tot (by norm_num)
    | exact rngRandrange_all (by norm_num)
    | apply optPart_all
    | apply mRep_all
    | apply MTot.ifLt
    | apply MTot.ite
    | apply MAll.bind_ne
    | apply MAll.bind_all
    | intro _

theorem sSREM_tot : MTot sSREM nonNil := by
  unfold sSREM
  repeat'
    first
    | exact MTot.pure (List.cons_ne_nil _ _)
    | exact MTot.pure trivial
    | exact gen_key_tot
    | exact gen_value_tot
    | exact gen_int_tot
    | exact gen_float_tot
    | exact gen_field_tot
    | exact gen_pattern_tot
    | exact gen_channel_tot
    | exact gen_stream_id_tot
    | exact rngRandomM_tot
    | exact mutate_string_tot _
    | exact mutate_int_str_tot _
    | exact gen_members_tot _
    | exact gen_field_value_list_tot _
    | exact gen_kv_pair_list_tot _
    | exact gen_zadd_pairs_tot _
    | exact gen_stream_ids_tot _
    | exact globChoice_all TOKENS_ne
    | exact globChoice_all GROUPS_ne
    | exact globChoice_all CONSUMERS_ne
    | exact rngChoice_all GENERIC_MODES_ne
    | exact globChoice_all (List.cons_ne_nil _ _)
    | exact rngChoice_all (List.cons_ne_nil _ _)
    | exact rrStr_tot (by norm_num)
    | exact rngRandrange_all (by norm_num)
    | apply optPart_all
    | apply mRep_all
    | apply MTot.ifLt
    | apply MTot.ite
    | apply MAll.bind_ne
    | apply MAll.bind_all
    | intro _

theorem sSCARD_tot : MTot sSCARD nonNil := by
  unfold sSCARD
  repeat'
    first
    | exact MTot.pure (List.cons_ne_nil _ _)
    | exact MTot.pure trivial
    | exact gen_key_tot
    | exact gen_value_tot
    | exact gen_int_tot
    | exact gen_float_tot
    | exact gen_field_tot
    | exact gen_pattern_tot
    | exact gen_channel_tot
    | exact gen_stream_id_tot
    | exact rngRandomM_tot
    | exact mutate_string_tot _
    | exact mutate_int_str_tot _
    | exact gen_members_tot _
    | exact gen_field_value_list_tot _
    | exact gen_kv_pair_list_tot _
    | exact gen_zadd_pairs_tot _
    | exact gen_stream_ids_tot _
    | exact globChoice_all TOKENS_ne
    | exact globChoice_all GROUPS_ne
    | exact globChoice_all CONSUMERS_ne
    | exact rngChoice_all GENERIC_MODES_ne
    | exact globChoice_all (List.cons_ne_nil _ _)
    | exact rngChoice_all (List.cons_ne_nil _ _)
    | exact rrStr_tot (by norm_num)
    | exact rngRandrange_all (by norm_num)
    | apply optPart_all
    | apply mRep_all
    | apply MTot.ifLt
    | apply MTot.ite
    | apply MAll.bind_ne
    | apply MAll.bind_all
    | intro _

theorem sSMEMBERS_tot : MTot sSMEMBERS nonNil := by
  unfold sSMEMBERS
  repeat'
    first
    | exact MTot.pure (List.cons_ne_nil _ _)
    | exact MTot.pure trivial
    | exact gen_key_tot
    | exact gen_value_tot
    | exact gen_int_tot
    | exact gen_float_tot
    | exact gen_field_tot
    | exact gen_pattern_tot
    | exact gen_channel_tot
    | exact gen_stream_id_tot
    | exact rngRandomM_tot
    | exact mutate_string_tot _
    | exact mutate_int_str_tot _
    | exact gen_members_tot _
    | exact gen_field_value_list_tot _
    | exact gen_kv_pair_list_tot _
    | exact gen_zadd_pairs_tot _
    | exact gen_stream_ids_tot _
    | exact globChoice_all TOKENS_ne
    | exact globChoice_all GROUPS_ne
    | exact globChoice_all CONSUMERS_ne
    | exact rngChoice_all GENERIC_MODES_ne
    | exact globChoice_all (List.cons_ne_nil _ _)
    | exact rngChoice_all (List.cons_ne_nil _ _)
    | exact rrStr_tot (by norm_num)
    | exact rngRandrange_all (by norm_num)
    | apply optPart_all
    | apply mRep_all
    | apply MTot.ifLt
    | apply MTot.ite
    | apply MAll.bind_ne
    | apply MAll.bind_all
    | intro _

theorem sSISMEMBER_tot : MTot sSISMEMBER nonNil := by
  unfold sSISMEMBER
  repeat'
    first
    | exact MTot.pure (List.cons_ne_nil _ _)
    | exact MTot.pure trivial
    | exact gen_key_tot
    | exact gen_value_tot
    | exact gen_int_tot
    | exact gen_float_tot
    | exact gen_field_tot
    | exact gen_pattern_tot
    | exact gen_channel_tot
    | exact gen_stream_id_tot
    | exact rngRandomM_tot
    | exact mutate_string_tot _
    | exact mutate_int_str_tot _
    | exact gen_members_tot _
    | exact gen_field_value_list_tot _
    | exact gen_kv_pair_list_tot _
    | exact gen_zadd_pairs_tot _
    | exact gen_stream_ids_tot _
    | exact globChoice_all TOKENS_ne
    | exact globChoice_all GROUPS_ne
    | exact globChoice_all CONSUMERS_ne
    | exact rngChoice_all GENERIC_MODES_ne
    | exact globChoice_all (List.cons_ne_nil _ _)
    | exact rngChoice_all (List.cons_ne_nil _ _)
    | exact rrStr_tot (by norm_num)
    | exact rngRandrange_all (by norm_num)
    | apply optPart_all
    | apply mRep_all
    | apply MTot.ifLt
    | apply MTot.ite
    | apply MAll.bind_ne
    | apply MAll.bind_all
    | intro _

theorem sSMISMEMBER_tot : MTot sSMISMEMBER nonNil := by
  unfold sSMISMEMBER
  repeat'
    first
    | exact MTot.pure (List.cons_ne_nil _ _)
    | exact MTot.pure trivial
    | exact gen_key_tot
    | exact gen_value_tot
    | exact gen_int_tot
    | exact gen_float_tot
    | exact gen_field_tot
    | exact gen_pattern_tot
    | exact gen_channel_tot
    | exact gen_stream_id_tot
    | exact rngRandomM_tot
    | exact mutate_string_tot _
    | exact mutate_int_str_tot _
    | exact gen_members_tot _
    | exact gen_field_value_list_tot _
    | exact gen_kv_pair_list_tot _
    | exact gen_zadd_pairs_tot _
    | exact gen_stream_ids_tot _
    | exact globChoice_all TOKENS_ne
    | exact globChoice_all GROUPS_ne
    | exact globChoice_all CONSUMERS_ne
    | exact rngChoice_all GENERIC_MODES_ne
    | exact globChoice_all (List.cons_ne_nil _ _)
    | exact rngChoice_all (List.cons_ne_nil _ _)
    | exact rrStr_tot (by norm_num)
    | exact rngRandrange_all (by norm_num)
    | apply optPart_all
    | apply mRep_all
    | apply MTot.ifLt
    | apply MTot.ite
    | apply MAll.bind_ne
    | apply MAll.bind_all
    | intro _

theorem sSPOP_tot : MTot sSPOP nonNil := by
  unfold sSPOP
  repeat'
    first
    | exact MTot.pure (List.cons_ne_nil _ _)
    | exact MTot.pure trivial
    | exact gen_key_tot
    | exact gen_value_tot
    | exact gen_int_tot
    | exact gen_float_tot
    | exact gen_field_tot
    | exact gen_pattern_tot
    | exact gen_channel_tot
    | exact gen_stream_id_tot
    | exact rngRandomM_tot
    | exact mutate_string_tot _
    | exact mutate_int_str_tot _
    | exact gen_members_tot _
    | exact gen_field_value_list_tot _
    | exact gen_kv_pair_list_tot _
    | exact gen_zadd_pairs_tot _
    | exact gen_stream_ids_tot _
    | exact globChoice_all TOKENS_ne
    | exact globChoice_all GROUPS_ne
    | exact globChoice_all CONSUMERS_ne
    | exact rngChoice_all GENERIC_MODES_ne
    | exact globChoice_all (List.cons_ne_nil _ _)
    | exact rngChoice_all (List.cons_ne_nil _ _)
    | exact rrStr_tot (by norm_num)
    | exact rngRandrange_all (by norm_num)
    | apply optPart_all
    | apply mRep_all
    | apply MTot.ifLt
    | apply MTot.ite
    | apply MAll.bind_ne
    | apply MAll.bind_all
    | intro _

theorem sSRANDMEMBER_tot : MTot sSRANDMEMBER nonNil := by
  unfold sSRANDMEMBER
  repeat'
    first
    | exact MTot.pure (List.cons_ne_nil _ _)
    | exact MTot.pure trivial
    | exact gen_key_tot
    | exact gen_value_tot
    | exact gen_int_tot
    | exact gen_float_tot
    | exact gen_field_tot
    | exact gen_pattern_tot
    | exact gen_channel_tot
    | exact gen_stream_id_tot
    | exact rngRandomM_tot
    | exact mutate_string_tot _
    | exact mutate_int_str_tot _
    | exact gen_members_tot _
    | exact gen_field_value_list_tot _
    | exact gen_kv_pair_list_tot _
    | exact gen_zadd_pairs_tot _
    | exact gen_stream_ids_tot _
    | exact globChoice_all TOKENS_ne
    | exact globChoice_all GROUPS_ne
    | exact globChoice_all CONSUMERS_ne
    | exact rngChoice_all GENERIC_MODES_ne
    | exact globChoice_all (List.cons_ne_nil _ _)
    | exact rngChoice_all (List.cons_ne_nil _ _)
    | exact rrStr_tot (by norm_num)
    | exact rngRandrange_all (by norm_num)
    | apply optPart_all
    | apply mRep_all
    | apply MTot.ifLt
    | apply MTot.ite
    | apply MAll.bind_ne
    | apply MAll.bind_all
    | intro _

theorem sSMOVE_tot : MTot sSMOVE nonNil := by
  unfold sSMOVE
  repeat'
    first
    | exact MTot.pure (List.cons_ne_nil _ _)
    | exact MTot.pure trivial
    | exact gen_key_tot
    | exact gen_value_tot
    | exact gen_int_tot
    | exact gen_float_tot
    | exact gen_field_tot
    | exact gen_pattern_tot
    | exact gen_channel_tot
    | exact gen_stream_id_tot
    | exact rngRandomM_tot
    | exact mutate_string_tot _
    | exact mutate_int_str_tot _
    | exact gen_members_tot _
    | exact gen_field_value_list_tot _
    | exact gen_kv_pair_list_tot _
    | exact gen_zadd_pairs_tot _
    | exact gen_stream_ids_tot _
    | exact globChoice_all TOKENS_ne
    | exact globChoice_all GROUPS_ne
    | exact globChoice_all CONSUMERS_ne
    | exact rngChoice_all GENERIC_MODES_ne
    | exact globChoice_all (List.cons_ne_nil _ _)
    | exact rngChoice_all (List.cons_ne_nil _ _)
    | exact rrStr_tot (by norm_num)
    | exact rngRandrange_all (by norm_num)
    | apply optPart_all
    | apply mRep_all
    | apply MTot.ifLt
    | apply MTot.ite
    | apply MAll.bind_ne
    | apply MAll.bind_all
    | intro _

theorem sSDIFF_tot : MTot sSDIFF nonNil := by
  unfold sSDIFF
  repeat'
    first
    | exact MTot.pure (List.cons_ne_nil _ _)
    | exact MTot.pure trivial
    | exact gen_key_tot
    | exact gen_value_tot
    | exact gen_int_tot
    | exact gen_float_tot
    | exact gen_field_tot
    | exact gen_pattern_tot
    | exact gen_channel_tot
    | exact gen_stream_id_tot
    | exact rngRandomM_tot
    | exact mutate_string_tot _
    | exact mutate_int_str_tot _
    | exact gen_members_tot _
    | exact gen_field_value_list_tot _
    | exact gen_kv_pair_list_tot _
    | exact gen_zadd_pairs_tot _
    | exact gen_stream_ids_tot _
    | exact globChoice_all TOKENS_ne
    | exact globChoice_all GROUPS_ne
    | exact globChoice_all CONSUMERS_ne
    | exact rngChoice_all GENERIC_MODES_ne
    | exact globChoice_all (List.cons_ne_nil _ _)
    | exact rngChoice_all (List.cons_ne_nil _ _)
    | exact rrStr_tot (by norm_num)
    | exact rngRandrange_all (by norm_num)
    | apply optPart_all
    | apply mRep_all
    | apply MTot.ifLt
    | apply MTot.ite
    | apply MAll.bind_ne
    | apply MAll.bind_all
    | intro _

theorem sSDIFFSTORE_tot : MTot sSDIFFSTORE nonNil := by
  unfold sSDIFFSTORE
  repeat'
    first
    | exact MTot.pure (List.cons_ne_nil _ _)
    | exact MTot.pure trivial
    | exact gen_key_tot
    | exact gen_value_tot
    | exact gen_int_tot
    | exact gen_float_tot
    | exact gen_field_tot
    | exact gen_pattern_tot
    | exact gen_channel_tot
    | exact gen_stream_id_tot
    | exact rngRandomM_tot
    | exact mutate_string_tot _
    | exact mutate_int_str_tot _
    | exact gen_members_tot _
    | exact gen_field_value_list_tot _
    | exact gen_kv_pair_list_tot _
    | exact gen_zadd_pairs_tot _
    | exact gen_stream_ids_tot _
    | exact globChoice_all TOKENS_ne
    | exact globChoice_all GROUPS_ne
    | exact globChoice_all CONSUMERS_ne
    | exact rngChoice_all GENERIC_MODES_ne
    | exact globChoice_all (List.cons_ne_nil _ _)
    | exact rngChoice_all (List.cons_ne_nil _ _)
    | exact rrStr_tot (by norm_num)
    | exact rngRandrange_all (by norm_num)
    | apply optPart_all
    | apply mRep_all
    | apply MTot.ifLt
    | apply MTot.ite
    | apply MAll.bind_ne
    | apply MAll.bind_all
    | intro _

theorem sSINTER_tot : MTot sSINTER nonNil := by
  unfold sSINTER
  repeat'
    first
    | exact MTot.pure (List.cons_ne_nil _ _)
    | exact MTot.pure trivial
    | exact gen_key_tot
    | exact gen_value_tot
    | exact gen_int_tot
    | exact gen_float_tot
    | exact gen_field_tot
    | exact gen_pattern_tot
    | exact gen_channel_tot
    | exact gen_stream_id_tot
    | exact rngRandomM_tot
    | exact mutate_string_tot _
    | exact mutate_int_str_tot _
    | exact gen_members_tot _
    | exact gen_field_value_list_tot _
    | exact gen_kv_pair_list_tot _
    | exact gen_zadd_pairs_tot _
    | exact gen_stream_ids_tot _
    | exact globChoice_all TOKENS_ne
    | exact globChoice_all GROUPS_ne
    | exact globChoice_all CONSUMERS_ne
    | exact rngChoice_all GENERIC_MODES_ne
    | exact globChoice_all (List.cons_ne_nil _ _)
    | exact rngChoice_all (List.cons_ne_nil _ _)
    | exact rrStr_tot (by norm_num)
    | exact rngRandrange_all (by norm_num)
    | apply optPart_all
    | apply mRep_all
    | apply MTot.ifLt
    | apply MTot.ite
    | apply MAll.bind_ne
    | apply MAll.bind_all
    | intro _

theorem sSINTERSTORE_tot : MTot sSINTERSTORE nonNil := by
  unfold sSINTERSTORE
  repeat'
    first
    | exact MTot.pure (List.cons_ne_nil _ _)
    | exact MTot.pure trivial
    | exact gen_key_tot
    | exact gen_value_tot
    | exact gen_int_tot
    | exact gen_float_tot
    | exact gen_field_tot
    | exact gen_pattern_tot
    | exact gen_channel_tot
    | exact gen_stream_id_tot
    | exact rngRandomM_tot
    | exact mutate_string_tot _
    | exact mutate_int_str_tot _
    | exact gen_members_tot _
    | exact gen_field_value_list_tot _
    | exact gen_kv_pair_list_tot _
    | exact gen_zadd_pairs_tot _
    | exact gen_stream_ids_tot _
    | exact globChoice_all TOKENS_ne
    | exact globChoice_all GROUPS_ne
    | exact globChoice_all CONSUMERS_ne
    | exact rngChoice_all GENERIC_MODES_ne
    | exact globChoice_all (List.cons_ne_nil _ _)
    | exact rngChoice_all (List.cons_ne_nil _ _)
    | exact rrStr_tot (by norm_num)
    | exact rngRandrange_all (by norm_num)
    | apply optPart_all
    | apply mRep_all
    | apply MTot.ifLt
    | apply MTot.ite
    | apply MAll.bind_ne
    | apply MAll.bind_all
    | intro _

theorem sSUNION_tot : MTot sSUNION nonNil := by
  unfold sSUNION
  repeat'
    first
    | exact MTot.pure (List.cons_ne_nil _ _)
    | exact MTot.pure trivial
    | exact gen_key_tot
    | exact gen_value_tot
    | exact gen_int_tot
    | exact gen_float_tot
    | exact gen_field_tot
    | exact gen_pattern_tot
    | exact gen_channel_tot
    | exact gen_stream_id_tot
    | exact rngRandomM_tot
    | exact mutate_string_tot _
    | exact mutate_int_str_tot _
    | exact gen_members_tot _
    | exact gen_field_value_list_tot _
    | exact gen_kv_pair_list_tot _
    | exact gen_zadd_pairs_tot _
    | exact gen_stream_ids_tot _
    | exact globChoice_all TOKENS_ne
    | exact globChoice_all GROUPS_ne
    | exact globChoice_all CONSUMERS_ne
    | exact rngChoice_all GENERIC_MODES_ne
    | exact globChoice_all (List.cons_ne_nil _ _)
    | exact rngChoice_all (List.cons_ne_nil _ _)
    | exact rrStr_tot (by norm_num)
    | exact rngRandrange_all (by norm_num)
    | apply optPart_all
    | apply mRep_all
    | apply MTot.ifLt
    | apply MTot.ite
    | apply MAll.bind_ne
    | apply MAll.bind_all
    | intro _

theorem sSUNIONSTORE_tot : MTot sSUNIONSTORE nonNil := by
  unfold sSUNIONSTORE
  repeat'
    first
    | exact MTot.pure (List.cons_ne_nil _ _)
    | exact MTot.pure trivial
    | exact gen_key_tot
    | exact gen_value_tot
    | exact gen_int_tot
    | exact gen_float_tot
    | exact gen_field_tot
    | exact gen_pattern_tot
    | exact gen_channel_tot
    | exact gen_stream_id_tot
    | exact rngRandomM_tot
    | exact mutate_string_tot _
    | exact mutate_int_str_tot _
    | exact gen_members_tot _
    | exact gen_field_value_list_tot _
    | exact gen_kv_pair_list_tot _
    | exact gen_zadd_pairs_tot _
    | exact gen_stream_ids_tot _
    | exact globChoice_all TOKENS_ne
    | exact globChoice_all GROUPS_ne
    | exact globChoice_all CONSUMERS_ne
    | exact rngChoice_all GENERIC_MODES_ne
    | exact globChoice_all (List.cons_ne_nil _ _)
    | exact rngChoice_all (List.cons_ne_nil _ _)
    | exact rrStr_tot (by norm_num)
    | exact rngRandrange_all (by norm_num)
    | apply optPart_all
    | apply mRep_all
    | apply MTot.ifLt
    | apply MTot.ite
    | apply MAll.bind_ne
    | apply MAll.bind_all
    | intro _

theorem sSSCAN1_tot : MTot sSSCAN1 nonNil := by
  unfold sSSCAN1
  repeat'
    first
    | exact MTot.pure (List.cons_ne_nil _ _)
    | exact MTot.pure trivial
    | exact gen_key_tot
    | exact gen_value_tot
    | exact gen_int_tot
    | exact gen_float_tot
    | exact gen_field_tot
    | exact gen_pattern_tot
    | exact gen_channel_tot
    | exact gen_stream_id_tot
    | exact rngRandomM_tot
    | exact mutate_string_tot _
    | exact mutate_int_str_tot _
    | exact gen_members_tot _
    | exact gen_field_value_list_tot _
    | exact gen_kv_pair_list_tot _
    | exact gen_zadd_pairs_tot _
    | exact gen_stream_ids_tot _
    | exact globChoice_all TOKENS_ne
    | exact globChoice_all GROUPS_ne
    | exact globChoice_all CONSUMERS_ne
    | exact rngChoice_all GENERIC_MODES_ne
    | exact globChoice_all (List.cons_ne_nil _ _)
    | exact rngChoice_all (List.cons_ne_nil _ _)
    | exact rrStr_tot (by norm_num)
    | exact rngRandrange_all (by norm_num)
    | apply optPart_all
    | apply mRep_all
    | apply MTot.ifLt
    | apply MTot.ite
    | apply MAll.bind_ne
    | apply MAll.bind_all
    | intro _

theorem sZADD_tot : MTot sZADD nonNil := by
  unfold sZADD
  repeat'
    first
    | exact MTot.pure (List.cons_ne_nil _ _)
    | exact MTot.pure trivial
    | exact gen_key_tot
    | exact gen_value_tot
    | exact gen_int_tot
    | exact gen_float_tot
    | exact gen_field_tot
    | exact gen_pattern_tot
    | exact gen_channel_tot
    | exact gen_stream_id_tot
    | exact rngRandomM_tot
    | exact mutate_string_tot _
    | exact mutate_int_str_tot _
    | exact gen_members_tot _
    | exact gen_field_value_list_tot _
    | exact gen_kv_pair_list_tot _
    | exact gen_zadd_pairs_tot _
    | exact gen_stream_ids_tot _
    | exact globChoice_all TOKENS_ne
    | exact globChoice_all GROUPS_ne
    | exact globChoice_all CONSUMERS_ne
    | exact rngChoice_all GENERIC_MODES_ne
    | exact globChoice_all (List.cons_ne_nil _ _)
    | exact rngChoice_all (List.cons_ne_nil _ _)
    | exact rrStr_tot (by norm_num)
    | exact rngRandrange_all (by norm_num)
    | apply optPart_all
    | apply mRep_all
    | apply MTot.ifLt
    | apply MTot.ite
    | apply MAll.bind_ne
    | apply MAll.bind_all
    | intro _

theorem sZREM_tot : MTot sZREM nonNil := by
  unfold sZREM
  repeat'
    first
    | exact MTot.pure (List.cons_ne_nil _ _)
    | exact MTot.pure trivial
    | exact gen_key_tot
    | exact gen_value_tot
    | exact gen_int_tot
    | exact gen_float_tot
    | exact gen_field_tot
    | exact gen_pattern_tot
    | exact gen_channel_tot
    | exact gen_stream_id_tot
    | exact rngRandomM_tot
    | exact mutate_string_tot _
    | exact mutate_int_str_tot _
    | exact gen_members_tot _
    | exact gen_field_value_list_tot _
    | exact gen_kv_pair_list_tot _
    | exact gen_zadd_pairs_tot _
    | exact gen_stream_ids_tot _
    | exact globChoice_all TOKENS_ne
    | exact globChoice_all GROUPS_ne
    | exact globChoice_all CONSUMERS_ne
    | exact rngChoice_all GENERIC_MODES_ne
    | exact globChoice_all (List.cons_ne_nil _ _)
    | exact rngChoice_all (List.cons_ne_nil _ _)
    | exact rrStr_tot (by norm_num)
    | exact rngRandrange_all (by norm_num)
    | apply optPart_all
    | apply mRep_all
    | apply MTot.ifLt
    | apply MTot.ite
    | apply MAll.bind_ne
    | apply MAll.bind_all
    | intro _

theorem sZCARD_tot : MTot sZCARD nonNil := by
  unfold sZCARD
  repeat'
    first
    | exact MTot.pure (List.cons_ne_nil _ _)
    | exact MTot.pure trivial
    | exact gen_key_tot
    | exact gen_value_tot
    | exact gen_int_tot
    | exact gen_float_tot
    | exact gen_field_tot
    | exact gen_pattern_tot
    | exact gen_channel_tot
    | exact gen_stream_id_tot
    | exact rngRandomM_tot
    | exact mutate_string_tot _
    | exact mutate_int_str_tot _
    | exact gen_members_tot _
    | exact gen_field_value_list_tot _
    | exact gen_kv_pair_list_tot _
    | exact gen_zadd_pairs_tot _
    | exact gen_stream_ids_tot _
    | exact globChoice_all TOKENS_ne
    | exact globChoice_all GROUPS_ne
    | exact globChoice_all CONSUMERS_ne
    | exact rngChoice_all GENERIC_MODES_ne
    | exact globChoice_all (List.cons_ne_nil _ _)
    | exact rngChoice_all (List.cons_ne_nil _ _)
    | exact rrStr_tot (by norm_num)
    | exact rngRandrange_all (by norm_num)
    | apply optPart_all
    | apply mRep_all
    | apply MTot.ifLt
    | apply MTot.ite
    | apply MAll.bind_ne
    | apply MAll.bind_all
    | intro _

theorem sZCOUNT_tot : MTot sZCOUNT nonNil := by
  unfold sZCOUNT
  repeat'
    first
    | exact MTot.pure (List.cons_ne_nil _ _)
    | exact MTot.pure trivial
    | exact gen_key_tot
    | exact gen_value_tot
    | exact gen_int_tot
    | exact gen_float_tot
    | exact gen_field_tot
    | exact gen_pattern_tot
    | exact gen_channel_tot
    | exact gen_stream_id_tot
    | exact rngRandomM_tot
    | exact mutate_string_tot _
    | exact mutate_int_str_tot _
    | exact gen_members_tot _
    | exact gen_field_value_list_tot _
    | exact gen_kv_pair_list_tot _
    | exact gen_zadd_pairs_tot _
    | exact gen_stream_ids_tot _
    | exact globChoice_all TOKENS_ne
    | exact globChoice_all GROUPS_ne
    | exact globChoice_all CONSUMERS_ne
    | exact rngChoice_all GENERIC_MODES_ne
    | exact globChoice_all (List.cons_ne_nil _ _)
    | exact rngChoice_all (List.cons_ne_nil _ _)
    | exact rrStr_tot (by norm_num)
    | exact rngRandrange_all (by norm_num)
    | apply optPart_all
    | apply mRep_all
    | apply MTot.ifLt
    | apply MTot.ite
    | apply MAll.bind_ne
    | apply MAll.bind_all
    | intro _

theorem sZSCORE_tot : MTot sZSCORE nonNil := by
  unfold sZSCORE
  repeat'
    first
    | exact MTot.pure (List.cons_ne_nil _ _)
    | exact MTot.pure trivial
    | exact gen_key_tot
    | exact gen_value_tot
    | exact gen_int_tot
    | exact gen_float_tot
    | exact gen_field_tot
    | exact gen_pattern_tot
    | exact gen_channel_tot
    | exact gen_stream_id_tot
    | exact rngRandomM_tot
    | exact mutate_string_tot _
    | exact mutate_int_str_tot _
    | exact gen_members_tot _
    | exact gen_field_value_list_tot _
    | exact gen_kv_pair_list_tot _
    | exact gen_zadd_pairs_tot _
    | exact gen_stream_ids_tot _
    | exact globChoice_all TOKENS_ne
    | exact globChoice_all GROUPS_ne
    | exact globChoice_all CONSUMERS_ne
    | exact rngChoice_all GENERIC_MODES_ne
    | exact globChoice_all (List.cons_ne_nil _ _)
    | exact rngChoice_all (List.cons_ne_nil _ _)
    | exact rrStr_tot (by norm_num)
    | exact rngRandrange_all (by norm_num)
    | apply optPart_all
    | apply mRep_all
    | apply MTot.ifLt
    | apply MTot.ite
    | apply MAll.bind_ne
    | apply MAll.bind_all
    | intro _

theorem sZRANK_tot : MTot sZRANK nonNil := by
  unfold sZRANK
  repeat'
    first
    | exact MTot.pure (List.cons_ne_nil _ _)
    | exact MTot.pure trivial
    | exact gen_key_tot
    | exact gen_value_tot
    | exact gen_int_tot
    | exact gen_float_tot
    | exact gen_field_tot
    | exact gen_pattern_tot
    | exact gen_channel_tot
    | exact gen_stream_id_tot
    | exact rngRandomM_tot
    | exact mutate_string_tot _
    | exact mutate_int_str_tot _
    | exact gen_members_tot _
    | exact gen_field_value_list_tot _
    | exact gen_kv_pair_list_tot _
    | exact gen_zadd_pairs_tot _
    | exact gen_stream_ids_tot _
    | exact globChoice_all TOKENS_ne
    | exact globChoice_all GROUPS_ne
    | exact globChoice_all CONSUMERS_ne
    | exact rngChoice_all GENERIC_MODES_ne
    | exact globChoice_all (List.cons_ne_nil _ _)
    | exact rngChoice_all (List.cons_ne_nil _ _)
    | exact rrStr_tot (by norm_num)
    | exact rngRandrange_all (by norm_num)
    | apply optPart_all
    | apply mRep_all
    | apply MTot.ifLt
    | apply MTot.ite
    | apply MAll.bind_ne
    | apply MAll.bind_all
    | intro _

theorem sZREVRANK_tot : MTot sZREVRANK nonNil := by
  unfold sZREVRANK
  repeat'
    first
    | exact MTot.pure (List.cons_ne_nil _ _)
    | exact MTot.pure trivial
    | exact gen_key_tot
    | exact gen_value_tot
    | exact gen_int_tot
    | exact gen_float_tot
    | exact gen_field_tot
    | exact gen_pattern_tot
    | exact gen_channel_tot
    | exact gen_stream_id_tot
    | exact rngRandomM_tot
    | exact mutate_string_tot _
    | exact mutate_int_str_tot _
    | exact gen_members_tot _
    | exact gen_field_value_list_tot _
    | exact gen_kv_pair_list_tot _
    | exact gen_zadd_pairs_tot _
    | exact gen_stream_ids_tot _
    | exact globChoice_all TOKENS_ne
    | exact globChoice_all GROUPS_ne
    | exact globChoice_all CONSUMERS_ne
    | exact rngChoice_all GENERIC_MODES_ne
    | exact globChoice_all (List.cons_ne_nil _ _)
    | exact rngChoice_all (List.cons_ne_nil _ _)
    | exact rrStr_tot (by norm_num)
    | exact rngRandrange_all (by norm_num)
    | apply optPart_all
    | apply mRep_all
    | apply MTot.ifLt
    | apply MTot.ite
    | apply MAll.bind_ne
    | apply MAll.bind_all
    | intro _

theorem sZRANGE_tot : MTot sZRANGE nonNil := by
  unfold sZRANGE
  repeat'
    first
    | exact MTot.pure (List.cons_ne_nil _ _)
    | exact MTot.pure trivial
    | exact gen_key_tot
    | exact gen_value_tot
    | exact gen_int_tot
    | exact gen_float_tot
    | exact gen_field_tot
    | exact gen_pattern_tot
    | exact gen_channel_tot
    | exact gen_stream_id_tot
    | exact rngRandomM_tot
    | exact mutate_string_tot _
    | exact mutate_int_str_tot _
    | exact gen_members_tot _
    | exact gen_field_value_list_tot _
    | exact gen_kv_pair_list_tot _
    | exact gen_zadd_pairs_tot _
    | exact gen_stream_ids_tot _
    | exact globChoice_all TOKENS_ne
    | exact globChoice_all GROUPS_ne
    | exact globChoice_all CONSUMERS_ne
    | exact rngChoice_all GENERIC_MODES_ne
    | exact globChoice_all (List.cons_ne_nil _ _)
    | exact rngChoice_all (List.cons_ne_nil _ _)
    | exact rrStr_tot (by norm_num)
    | exact rngRandrange_all (by norm_num)
    | apply optPart_all
    | apply mRep_all
    | apply MTot.ifLt
    | apply MTot.ite
    | apply MAll.bind_ne
    | apply MAll.bind_all
    | intro _

theorem sZREVRANGE_tot : MTot sZREVRANGE nonNil := by
  unfold sZREVRANGE
  repeat'
    first
    | exact MTot.pure (List.cons_ne_nil _ _)
    | exact MTot.pure trivial
    | exact gen_key_tot
    | exact gen_value_tot
    | exact gen_int_tot
    | exact gen_float_tot
    | exact gen_field_tot
    | exact gen_pattern_tot
    | exact gen_channel_tot
    | exact gen_stream_id_tot
    | exact rngRandomM_tot
    | exact mutate_string_tot _
    | exact mutate_int_str_tot _
    | exact gen_members_tot _
    | exact gen_field_value_list_tot _
    | exact gen_kv_pair_list_tot _
    | exact gen_zadd_pairs_tot _
    | exact gen_stream_ids_tot _
    | exact globChoice_all TOKENS_ne
    | exact globChoice_all GROUPS_ne
    | exact globChoice_all CONSUMERS_ne
    | exact rngChoice_all GENERIC_MODES_ne
    | exact globChoice_all (List.cons_ne_nil _ _)
    | exact rngChoice_all (List.cons_ne_nil _ _)
    | exact rrStr_tot (by norm_num)
    | exact rngRandrange_all (by norm_num)
    | apply optPart_all
    | apply mRep_all
    | apply MTot.ifLt
    | apply MTot.ite
    | apply MAll.bind_ne
    | apply MAll.bind_all
    | intro _

theorem sZRANGEBYSCORE_tot : MTot sZRANGEBYSCORE nonNil := by
  unfold sZRANGEBYSCORE
  repeat'
    first
    | exact MTot.pure (List.cons_ne_nil _ _)
    | exact MTot.pure trivial
    | exact gen_key_tot
    | exact gen_value_tot
    | exact gen_int_tot
    | exact gen_float_tot
    | exact gen_field_tot
    | exact gen_pattern_tot
    | exact gen_channel_tot
    | exact gen_stream_id_tot
    | exact rngRandomM_tot
    | exact mutate_string_tot _
    | exact mutate_int_str_tot _
    | exact gen_members_tot _
    | exact gen_field_value_list_tot _
    | exact gen_kv_pair_list_tot _
    | exact gen_zadd_pairs_tot _
    | exact gen_stream_ids_tot _
    | exact globChoice_all TOKENS_ne
    | exact globChoice_all GROUPS_ne
    | exact globChoice_all CONSUMERS_ne
    | exact rngChoice_all GENERIC_MODES_ne
    | exact globChoice_all (List.cons_ne_nil _ _)
    | exact rngChoice_all (List.cons_ne_nil _ _)
    | exact rrStr_tot (by norm_num)
    | exact rngRandrange_all (by norm_num)
    | apply optPart_all
    | apply mRep_all
    | apply MTot.ifLt
    | apply MTot.ite
    | apply MAll.bind_ne
    | apply MAll.bind_all
    | intro _

theorem sZREVRANGEBYSCORE_tot : MTot sZREVRANGEBYSCORE nonNil := by
  unfold sZREVRANGEBYSCORE
  repeat'
    first
    | exact MTot.pure (List.cons_ne_nil _ _)
    | exact MTot.pure trivial
    | exact gen_key_tot
    | exact gen_value_tot
    | exact gen_int_tot
    | exact gen_float_tot
    | exact gen_field_tot
    | exact gen_pattern_tot
    | exact gen_channel_tot
    | exact gen_stream_id_tot
    | exact rngRandomM_tot
    | exact mutate_string_tot _
    | exact mutate_int_str_tot _
    | exact gen_members_tot _
    | exact gen_field_value_list_tot _
    | exact gen_kv_pair_list_tot _
    | exact gen_zadd_pairs_tot _
    | exact gen_stream_ids_tot _
    | exact globChoice_all TOKENS_ne
    | exact globChoice_all GROUPS_ne
    | exact globChoice_all CONSUMERS_ne
    | exact rngChoice_all GENERIC_MODES_ne
    | exact globChoice_all (List.cons_ne_nil _ _)
    | exact rngChoice_all (List.cons_ne_nil _ _)
    | exact rrStr_tot (by norm_num)
    | exact rngRandrange_all (by norm_num)
    | apply optPart_all
    | apply mRep_all
    | apply MTot.ifLt
    | apply MTot.ite
    | apply MAll.bind_ne
    | apply MAll.bind_all
    | intro _

theorem sZLEXCOUNT_tot : MTot sZLEXCOUNT nonNil := by
  unfold sZLEXCOUNT
  repeat'
    first
    | exact MTot.pure (List.cons_ne_nil _ _)
    | exact MTot.pure trivial
    | exact gen_key_tot
    | exact gen_value_tot
    | exact gen_int_tot
    | exact gen_float_tot
    | exact gen_field_tot
    | exact gen_pattern_tot
    | exact gen_channel_tot
    | exact gen_stream_id_tot
    | exact rngRandomM_tot
    | exact mutate_string_tot _
    | exact mutate_int_str_tot _
    | exact gen_members_tot _
    | exact gen_field_value_list_tot _
    | exact gen_kv_pair_list_tot _
    | exact gen_zadd_pairs_tot _
    | exact gen_stream_ids_tot _
    | exact globChoice_all TOKENS_ne
    | exact globChoice_all GROUPS_ne
    | exact globChoice_all CONSUMERS_ne
    | exact rngChoice_all GENERIC_MODES_ne
    | exact globChoice_all (List.cons_ne_nil _ _)
    | exact rngChoice_all (List.cons_ne_nil _ _)
    | exact rrStr_tot (by norm_num)
    | exact rngRandrange_all (by norm_num)
    | apply optPart_all
    | apply mRep_all
    | apply MTot.ifLt
    | apply MTot.ite
    | apply MAll.bind_ne
    | apply MAll.bind_all
    | intro _

theorem sZRANGEBYLEX_tot : MTot sZRANGEBYLEX nonNil := by
  unfold sZRANGEBYLEX
  repeat'
    first
    | exact MTot.pure (List.cons_ne_nil _ _)
    | exact MTot.pure trivial
    | exact gen_key_tot
    | exact gen_value_tot
    | exact gen_int_tot
    | exact gen_float_tot
    | exact gen_field_tot
    | exact gen_pattern_tot
    | exact gen_channel_tot
    | exact gen_stream_id_tot
    | exact rngRandomM_tot
    | exact mutate_string_tot _
    | exact mutate_int_str_tot _
    | exact gen_members_tot _
    | exact gen_field_value_list_tot _
    | exact gen_kv_pair_list_tot _
    | exact gen_zadd_pairs_tot _
    | exact gen_stream_ids_tot _
    | exact globChoice_all TOKENS_ne
    | exact globChoice_all GROUPS_ne
    | exact globChoice_all CONSUMERS_ne
    | exact rngChoice_all GENERIC_MODES_ne
    | exact globChoice_all (List.cons_ne_nil _ _)
    | exact rngChoice_all (List.cons_ne_nil _ _)
    | exact rrStr_tot (by norm_num)
    | exact rngRandrange_all (by norm_num)
    | apply optPart_all
    | apply mRep_all
    | apply MTot.ifLt
    | apply MTot.ite
    | apply MAll.bind_ne
    | apply MAll.bind_all
    | intro _

theorem sZREVRANGEBYLEX_tot : MTot sZREVRANGEBYLEX nonNil := by
  unfold sZREVRANGEBYLEX
  repeat'
    first
    | exact MTot.pure (List.cons_ne_nil _ _)
    | exact MTot.pure trivial
    | exact gen_key_tot
    | exact gen_value_tot
    | exact gen_int_tot
    | exact gen_float_tot
    | exact gen_field_tot
    | exact gen_pattern_tot
    | exact gen_channel_tot
    | exact gen_stream_id_tot
    | exact rngRandomM_tot
    | exact mutate_string_tot _
    | exact mutate_int_str_tot _
    | exact gen_members_tot _
    | exact gen_field_value_list_tot _
    | exact gen_kv_pair_list_tot _
    | exact gen_zadd_pairs_tot _
    | exact gen_stream_ids_tot _
    | exact globChoice_all TOKENS_ne
    | exact globChoice_all GROUPS_ne
    | exact globChoice_all CONSUMERS_ne
    | exact rngChoice_all GENERIC_MODES_ne
    | exact globChoice_all (List.cons_ne_nil _ _)
    | exact rngChoice_all (List.cons_ne_nil _ _)
    | exact rrStr_tot (by norm_num)
    | exact rngRandrange_all (by norm_num)
    | apply optPart_all
    | apply mRep_all
    | apply MTot.ifLt
    | apply MTot.ite
    | apply MAll.bind_ne
    | apply MAll.bind_all
    | intro _

theorem sZSCAN1_tot : MTot sZSCAN1 nonNil := by
  unfold sZSCAN1
  repeat'
    first
    | exact MTot.pure (List.cons_ne_nil _ _)
    | exact MTot.pure trivial
    | exact gen_key_tot
    | exact gen_value_tot
    | exact gen_int_tot
    | exact gen_float_tot
    | exact gen_field_tot
    | exact gen_pattern_tot
    | exact gen_channel_tot
    | exact gen_stream_id_tot
    | exact rngRandomM_tot
    | exact mutate_string_tot _
    | exact mutate_int_str_tot _
    | exact gen_members_tot _
    | exact gen_field_value_list_tot _
    | exact gen_kv_pair_list_tot _
    | exact gen_zadd_pairs_tot _
    | exact gen_stream_ids_tot _
    | exact globChoice_all TOKENS_ne
    | exact globChoice_all GROUPS_ne
    | exact globChoice_all CONSUMERS_ne
    | exact rngChoice_all GENERIC_MODES_ne
    | exact globChoice_all (List.cons_ne_nil _ _)
    | exact rngChoice_all (List.cons_ne_nil _ _)
    | exact rrStr_tot (by norm_num)
    | exact rngRandrange_all (by norm_num)
    | apply optPart_all
    | apply mRep_all
    | apply MTot.ifLt
    | apply MTot.ite
    | apply MAll.bind_ne
    | apply MAll.bind_all
    | intro _

theorem sZPOPMAX_tot : MTot sZPOPMAX nonNil := by
  unfold sZPOPMAX
  repeat'
    first
    | exact MTot.pure (List.cons_ne_nil _ _)
    | exact MTot.pure trivial
    | exact gen_key_tot
    | exact gen_value_tot
    | exact gen_int_tot
    | exact gen_float_tot
    | exact gen_field_tot
    | exact gen_pattern_tot
    | exact gen_channel_tot
    | exact gen_stream_id_tot
    | exact rngRandomM_tot
    | exact mutate_string_tot _
    | exact mutate_int_str_tot _
    | exact gen_members_tot _
    | exact gen_field_value_list_tot _
    | exact gen_kv_pair_list_tot _
    | exact gen_zadd_pairs_tot _
    | exact gen_stream_ids_tot _
    | exact globChoice_all TOKENS_ne
    | exact globChoice_all GROUPS_ne
    | exact globChoice_all CONSUMERS_ne
    | exact rngChoice_all GENERIC_MODES_ne
    | exact globChoice_all (List.cons_ne_nil _ _)
    | exact rngChoice_all (List.cons_ne_nil _ _)
    | exact rrStr_tot (by norm_num)
    | exact rngRandrange_all (by norm_num)
    | apply optPart_all
    | apply mRep_all
    | apply MTot.ifLt
    | apply MTot.ite
    | apply MAll.bind_ne
    | apply MAll.bind_all
    | intro _

theorem sZPOPMIN_tot : MTot sZPOPMIN nonNil := by
  unfold sZPOPMIN
  repeat'
    first
    | exact MTot.pure (List.cons_ne_nil _ _)
    | exact MTot.pure trivial
    | exact gen_key_tot
    | exact gen_value_tot
    | exact gen_int_tot
    | exact gen_float_tot
    | exact gen_field_tot
    | exact gen_pattern_tot
    | exact gen_channel_tot
    | exact gen_stream_id_tot
    | exact rngRandomM_tot
    | exact mutate_string_tot _
    | exact mutate_int_str_tot _
    | exact gen_members_tot _
    | exact gen_field_value_list_tot _
    | exact gen_kv_pair_list_tot _
    | exact gen_zadd_pairs_tot _
    | exact gen_stream_ids_tot _
    | exact globChoice_all TOKENS_ne
    | exact globChoice_all GROUPS_ne
    | exact globChoice_all CONSUMERS_ne
    | exact rngChoice_all GENERIC_MODES_ne
    | exact globChoice_all (List.cons_ne_nil _ _)
    | exact rngChoice_all (List.cons_ne_nil _ _)
    | exact rrStr_tot (by norm_num)
    | exact rngRandrange_all (by norm_num)
    | apply optPart_all
    | apply mRep_all
    | apply MTot.ifLt
    | apply MTot.ite
    | apply MAll.bind_ne
    | apply MAll.bind_all
    | intro _

theorem sZRANDMEMBER_tot : MTot sZRANDMEMBER nonNil := by
  unfold sZRANDMEMBER
  repeat'
    first
    | exact MTot.pure (List.cons_ne_nil _ _)
    | exact MTot.pure trivial
    | exact gen_key_tot
    | exact gen_value_tot
    | exact gen_int_tot
    | exact gen_float_tot
    | exact gen_field_tot
    | exact gen_pattern_tot
    | exact gen_channel_tot
    | exact gen_stream_id_tot
    | exact rngRandomM_tot
    | exact mutate_string_tot _
    | exact mutate_int_str_tot _
    | exact gen_members_tot _
    | exact gen_field_value_list_tot _
    | exact gen_kv_pair_list_tot _
    | exact gen_zadd_pairs_tot _
    | exact gen_stream_ids_tot _
    | exact globChoice_all TOKENS_ne
    | exact globChoice_all GROUPS_ne
    | exact globChoice_all CONSUMERS_ne
    | exact rngChoice_all GENERIC_MODES_ne
    | exact globChoice_all (List.cons_ne_nil _ _)
    | exact rngChoice_all (List.cons_ne_nil _ _)
    | exact rrStr_tot (by norm_num)
    | exact rngRandrange_all (by norm_num)
    | apply optPart_all
    | apply mRep_all
    | apply MTot.ifLt
    | apply MTot.ite
    | apply MAll.bind_ne
    | apply MAll.bind_all
    | intro _

theorem sZINCRBY_tot : MTot sZINCRBY nonNil := by
  unfold sZINCRBY
  repeat'
    first
    | exact MTot.pure (List.cons_ne_nil _ _)
    | exact MTot.pure trivial
    | exact gen_key_tot
    | exact gen_value_tot
    | exact gen_int_tot
    | exact gen_float_tot
    | exact gen_field_tot
    | exact gen_pattern_tot
    | exact gen_channel_tot
    | exact gen_stream_id_tot
    | exact rngRandomM_tot
    | exact mutate_string_tot _
    | exact mutate_int_str_tot _
    | exact gen_members_tot _
    | exact gen_field_value_list_tot _
    | exact gen_kv_pair_list_tot _
    | exact gen_zadd_pairs_tot _
    | exact gen_stream_ids_tot _
    | exact globChoice_all TOKENS_ne
    | exact globChoice_all GROUPS_ne
    | exact globChoice_all CONSUMERS_ne
    | exact rngChoice_all GENERIC_MODES_ne
    | exact globChoice_all (List.cons_ne_nil _ _)
    | exact rngChoice_all (List.cons_ne_nil _ _)
    | exact rrStr_tot (by norm_num)
    | exact rngRandrange_all (by norm_num)
    | apply optPart_all
    | apply mRep_all
    | apply MTot.ifLt
    | apply MTot.ite
    | apply MAll.bind_ne
    | apply MAll.bind_all
    | intro _

theorem sZREMRANGEBYRANK_tot : MTot sZREMRANGEBYRANK nonNil := by
  unfold sZREMRANGEBYRANK
  repeat'
    first
    | exact MTot.pure (List.cons_ne_nil _ _)
    | exact MTot.pure trivial
    | exact gen_key_tot
    | exact gen_value_tot
    | exact gen_int_tot
    | exact gen_float_tot
    | exact gen_field_tot
    | exact gen_pattern_tot
    | exact gen_channel_tot
    | exact gen_stream_id_tot
    | exact rngRandomM_tot
    | exact mutate_string_tot _
    | exact mutate_int_str_tot _
    | exact gen_members_tot _
    | exact gen_field_value_list_tot _
    | exact gen_kv_pair_list_tot _
    | exact gen_zadd_pairs_tot _
    | exact gen_stream_ids_tot _
    | exact globChoice_all TOKENS_ne
    | exact globChoice_all GROUPS_ne
    | exact globChoice_all CONSUMERS_ne
    | exact rngChoice_all GENERIC_MODES_ne
    | exact globChoice_all (List.cons_ne_nil _ _)
    | exact rngChoice_all (List.cons_ne_nil _ _)
    | exact rrStr_tot (by norm_num)
    | exact rngRandrange_all (by norm_num)
    | apply optPart_all
    | apply mRep_all
    | apply MTot.ifLt
    | apply MTot.ite
    | apply MAll.bind_ne
    | apply MAll.bind_all
    | intro _

theorem sZREMRANGEBYSCORE_tot : MTot sZREMRANGEBYSCORE nonNil := by
  unfold sZREMRANGEBYSCORE
  repeat'
    first
    | exact MTot.pure (List.cons_ne_nil _ _)
    | exact MTot.pure trivial
    | exact gen_key_tot
    | exact gen_value_tot
    | exact gen_int_tot
    | exact gen_float_tot
    | exact gen_field_tot
    | exact gen_pattern_tot
    | exact gen_channel_tot
    | exact gen_stream_id_tot
    | exact rngRandomM_tot
    | exact mutate_string_tot _
    | exact mutate_int_str_tot _
    | exact gen_members_tot _
    | exact gen_field_value_list_tot _
    | exact gen_kv_pair_list_tot _
    | exact gen_zadd_pairs_tot _
    | exact gen_stream_ids_tot _
    | exact globChoice_all TOKENS_ne
    | exact globChoice_all GROUPS_ne
    | exact globChoice_all CONSUMERS_ne
    | exact rngChoice_all GENERIC_MODES_ne
    | exact globChoice_all (List.cons_ne_nil _ _)
    | exact rngChoice_all (List.cons_ne_nil _ _)
    | exact rrStr_tot (by norm_num)
    | exact rngRandrange_all (by norm_num)
    | apply optPart_all
    | apply mRep_all
    | apply MTot.ifLt
    | apply MTot.ite
    | apply MAll.bind_ne
    | apply MAll.bind_all
    | intro _

theorem sZREMRANGEBYLEX_tot : MTot sZREMRANGEBYLEX nonNil := by
  unfold sZREMRANGEBYLEX
  repeat'
    first
    | exact MTot.pure (List.cons_ne_nil _ _)
    | exact MTot.pure trivial
    | exact gen_key_tot
    | exact gen_value_tot
    | exact gen_int_tot
    | exact gen_float_tot
    | exact gen_field_tot
    | exact gen_pattern_tot
    | exact gen_channel_tot
    | exact gen_stream_id_tot
    | exact rngRandomM_tot
    | exact mutate_string_tot _
    | exact mutate_int_str_tot _
    | exact gen_members_tot _
    | exact gen_field_value_list_tot _
    | exact gen_kv_pair_list_tot _
    | exact gen_zadd_pairs_tot _
    | exact gen_stream_ids_tot _
    | exact globChoice_all TOKENS_ne
    | exact globChoice_all GROUPS_ne
    | exact globChoice_all CONSUMERS_ne
    | exact rngChoice_all GENERIC_MODES_ne
    | exact globChoice_all (List.cons_ne_nil _ _)
    | exact rngChoice_all (List.cons_ne_nil _ _)
    | exact rrStr_tot (by norm_num)
    | exact rngRandrange_all (by norm_num)
    | apply optPart_all
    | apply mRep_all
    | apply MTot.ifLt
    | apply MTot.ite
    | apply MAll.bind_ne
    | apply MAll.bind_all
    | intro _

theorem sZMSCORE_tot : MTot sZMSCORE nonNil := by
  unfold sZMSCORE
  repeat'
    first
    | exact MTot.pure (List.cons_ne_nil _ _)
    | exact MTot.pure trivial
    | exact gen_key_tot
    | exact gen_value_tot
    | exact gen_int_tot
    | exact gen_float_tot
    | exact gen_field_tot
    | exact gen_pattern_tot
    | exact gen_channel_tot
    | exact gen_stream_id_tot
    | exact rngRandomM_tot
    | exact mutate_string_tot _
    | exact mutate_int_str_tot _
    | exact gen_members_tot _
    | exact gen_field_value_list_tot _
    | exact gen_kv_pair_list_tot _
    | exact gen_zadd_pairs_tot _
    | exact gen_stream_ids_tot _
    | exact globChoice_all TOKENS_ne
    | exact globChoice_all GROUPS_ne
    | exact globChoice_all CONSUMERS_ne
    | exact rngChoice_all GENERIC_MODES_ne
    | exact globChoice_all (List.cons_ne_nil _ _)
    | exact rngChoice_all (List.cons_ne_nil _ _)
    | exact rrStr_tot (by norm_num)
    | exact rngRandrange_all (by norm_num)
    | apply optPart_all
    | apply mRep_all
    | apply MTot.ifLt
    | apply MTot.ite
    | apply MAll.bind_ne
    | apply MAll.bind_all
    | intro _

theorem sZINTER_tot : MTot sZINTER nonNil := gen_zinter_union_tot _

theorem sZUNION_tot : MTot sZUNION nonNil := gen_zinter_union_tot _

theorem sZINTERSTORE_tot : MTot sZINTERSTORE nonNil := by
  unfold sZINTERSTORE
  repeat'
    first
    | exact MTot.pure (List.cons_ne_nil _ _)
    | exact MTot.pure trivial
    | exact gen_key_tot
    | exact gen_value_tot
    | exact gen_int_tot
    | exact gen_float_tot
    | exact gen_field_tot
    | exact gen_pattern_tot
    | exact gen_channel_tot
    | exact gen_stream_id_tot
    | exact rngRandomM_tot
    | exact mutate_string_tot _
    | exact mutate_int_str_tot _
    | exact gen_members_tot _
    | exact gen_field_value_list_tot _
    | exact gen_kv_pair_list_tot _
    | exact gen_zadd_pairs_tot _
    | exact gen_stream_ids_tot _
    | exact globChoice_all TOKENS_ne
    | exact globChoice_all GROUPS_ne
    | exact globChoice_all CONSUMERS_ne
    | exact rngChoice_all GENERIC_MODES_ne
    | exact globChoice_all (List.cons_ne_nil _ _)
    | exact rngChoice_all (List.cons_ne_nil _ _)
    | exact rrStr_tot (by norm_num)
    | exact rngRandrange_all (by norm_num)
    | apply optPart_all
    | apply mRep_all
    | apply MTot.ifLt
    | apply MTot.ite
    | apply MAll.bind_ne
    | apply MAll.bind_all
    | intro _

theorem sZUNIONSTORE_tot : MTot sZUNIONSTORE nonNil := by
  unfold sZUNIONSTORE
  repeat'
    first
    | exact MTot.pure (List.cons_ne_nil _ _)
    | exact MTot.pure trivial
    | exact gen_key_tot
    | exact gen_value_tot
    | exact gen_int_tot
    | exact gen_float_tot
    | exact gen_field_tot
    | exact gen_pattern_tot
    | exact gen_channel_tot
    | exact gen_stream_id_tot
    | exact rngRandomM_tot
    | exact mutate_string_tot _
    | exact mutate_int_str_tot _
    | exact gen_members_tot _
    | exact gen_field_value_list_tot _
    | exact gen_kv_pair_list_tot _
    | exact gen_zadd_pairs_tot _
    | exact gen_stream_ids_tot _
    | exact globChoice_all TOKENS_ne
    | exact globChoice_all GROUPS_ne
    | exact globChoice_all CONSUMERS_ne
    | exact rngChoice_all GENERIC_MODES_ne
    | exact globChoice_all (List.cons_ne_nil _ _)
    | exact rngChoice_all (List.cons_ne_nil _ _)
    | exact rrStr_tot (by norm_num)
    | exact rngRandrange_all (by norm_num)
    | apply optPart_all
    | apply mRep_all
    | apply MTot.ifLt
    | apply MTot.ite
    | apply MAll.bind_ne
    | apply MAll.bind_all
    | intro _

theorem sXADD_tot : MTot sXADD nonNil := by
  unfold sXADD
  repeat'
    first
    | exact MTot.pure (List.cons_ne_nil _ _)
    | exact MTot.pure trivial
    | exact gen_key_tot
    | exact gen_value_tot
    | exact gen_int_tot
    | exact gen_float_tot
    | exact gen_field_tot
    | exact gen_pattern_tot
    | exact gen_channel_tot
    | exact gen_stream_id_tot
    | exact rngRandomM_tot
    | exact mutate_string_tot _
    | exact mutate_int_str_tot _
    | exact gen_members_tot _
    | exact gen_field_value_list_tot _
    | exact gen_kv_pair_list_tot _
    | exact gen_zadd_pairs_tot _
    | exact gen_stream_ids_tot _
    | exact globChoice_all TOKENS_ne
    | exact globChoice_all GROUPS_ne
    | exact globChoice_all CONSUMERS_ne
    | exact rngChoice_all GENERIC_MODES_ne
    | exact globChoice_all (List.cons_ne_nil _ _)
    | exact rngChoice_all (List.cons_ne_nil _ _)
    | exact rrStr_tot (by norm_num)
    | exact rngRandrange_all (by norm_num)
    | apply optPart_all
    | apply mRep_all
    | apply MTot.ifLt
    | apply MTot.ite
    | apply MAll.bind_ne
    | apply MAll.bind_all
    | intro _

theorem sXDEL_tot : MTot sXDEL nonNil := by
  unfold sXDEL
  repeat'
    first
    | exact MTot.pure (List.cons_ne_nil _ _)
    | exact MTot.pure trivial
    | exact gen_key_tot
    | exact gen_value_tot
    | exact gen_int_tot
    | exact gen_float_tot
    | exact gen_field_tot
    | exact gen_pattern_tot
    | exact gen_channel_tot
    | exact gen_stream_id_tot
    | exact rngRandomM_tot
    | exact mutate_string_tot _
    | exact mutate_int_str_tot _
    | exact gen_members_tot _
    | exact gen_field_value_list_tot _
    | exact gen_kv_pair_list_tot _
    | exact gen_zadd_pairs_tot _
    | exact gen_stream_ids_tot _
    | exact globChoice_all TOKENS_ne
    | exact globChoice_all GROUPS_ne
    | exact globChoice_all CONSUMERS_ne
    | exact rngChoice_all GENERIC_MODES_ne
    | exact globChoice_all (List.cons_ne_nil _ _)
    | exact rngChoice_all (List.cons_ne_nil _ _)
    | exact rrStr_tot (by norm_num)
    | exact rngRandrange_all (by norm_num)
    | apply optPart_all
    | apply mRep_all
    | apply MTot.ifLt
    | apply MTot.ite
    | apply MAll.bind_ne
    | apply MAll.bind_all
    | intro _

theorem sXLEN_tot : MTot sXLEN nonNil := by
  unfold sXLEN
  repeat'
    first
    | exact MTot.pure (List.cons_ne_nil _ _)
    | exact MTot.pure trivial
    | exact gen_key_tot
    | exact gen_value_tot
    | exact gen_int_tot
    | exact gen_float_tot
    | exact gen_field_tot
    | exact gen_pattern_tot
    | exact gen_channel_tot
    | exact gen_stream_id_tot
    | exact rngRandomM_tot
    | exact mutate_string_tot _
    | exact mutate_int_str_tot _
    | exact gen_members_tot _
    | exact gen_field_value_list_tot _
    | exact gen_kv_pair_list_tot _
    | exact gen_zadd_pairs_tot _
    | exact gen_stream_ids_tot _
    | exact globChoice_all TOKENS_ne
    | exact globChoice_all GROUPS_ne
    | exact globChoice_all CONSUMERS_ne
    | exact rngChoice_all GENERIC_MODES_ne
    | exact globChoice_all (List.cons_ne_nil _ _)
    | exact rngChoice_all (List.cons_ne_nil _ _)
    | exact rrStr_tot (by norm_num)
    | exact rngRandrange_all (by norm_num)
    | apply optPart_all
    | apply mRep_all
    | apply MTot.ifLt
    | apply MTot.ite
    | apply MAll.bind_ne
    | apply MAll.bind_all
    | intro _

theorem sXRANGE_tot : MTot sXRANGE nonNil := by
  unfold sXRANGE
  repeat'
    first
    | exact MTot.pure (List.cons_ne_nil _ _)
    | exact MTot.pure trivial
    | exact gen_key_tot
    | exact gen_value_tot
    | exact gen_int_tot
    | exact gen_float_tot
    | exact gen_field_tot
    | exact gen_pattern_tot
    | exact gen_channel_tot
    | exact gen_stream_id_tot
    | exact rngRandomM_tot
    | exact mutate_string_tot _
    | exact mutate_int_str_tot _
    | exact gen_members_tot _
    | exact gen_field_value_list_tot _
    | exact gen_kv_pair_list_tot _
    | exact gen_zadd_pairs_tot _
    | exact gen_stream_ids_tot _
    | exact globChoice_all TOKENS_ne
    | exact globChoice_all GROUPS_ne
    | exact globChoice_all CONSUMERS_ne
    | exact rngChoice_all GENERIC_MODES_ne
    | exact globChoice_all (List.cons_ne_nil _ _)
    | exact rngChoice_all (List.cons_ne_nil _ _)
    | exact rrStr_tot (by norm_num)
    | exact rngRandrange_all (by norm_num)
    | apply optPart_all
    | apply mRep_all
    | apply MTot.ifLt
    | apply MTot.ite
    | apply MAll.bind_ne
    | apply MAll.bind_all
    | intro _

theorem sXREVRANGE_tot : MTot sXREVRANGE nonNil := by
  unfold sXREVRANGE
  repeat'
    first
    | exact MTot.pure (List.cons_ne_nil _ _)
    | exact MTot.pure trivial
    | exact gen_key_tot
    | exact gen_value_tot
    | exact gen_int_tot
    | exact gen_float_tot
    | exact gen_field_tot
    | exact gen_pattern_tot
    | exact gen_channel_tot
    | exact gen_stream_id_tot
    | exact rngRandomM_tot
    | exact mutate_string_tot _
    | exact mutate_int_str_tot _
    | exact gen_members_tot _
    | exact gen_field_value_list_tot _
    | exact gen_kv_pair_list_tot _
    | exact gen_zadd_pairs_tot _
    | exact gen_stream_ids_tot _
    | exact globChoice_all TOKENS_ne
    | exact globChoice_all GROUPS_ne
    | exact globChoice_all CONSUMERS_ne
    | exact rngChoice_all GENERIC_MODES_ne
    | exact globChoice_all (List.cons_ne_nil _ _)
    | exact rngChoice_all (List.cons_ne_nil _ _)
    | exact rrStr_tot (by norm_num)
    | exact rngRandrange_all (by norm_num)
    | apply optPart_all
    | apply mRep_all
    | apply MTot.ifLt
    | apply MTot.ite
    | apply MAll.bind_ne
    | apply MAll.bind_all
    | intro _

theorem sXREAD_tot : MTot sXREAD nonNil := by
  unfold sXREAD
  repeat'
    first
    | exact MTot.pure (List.cons_ne_nil _ _)
    | exact MTot.pure trivial
    | exact gen_key_tot
    | exact gen_value_tot
    | exact gen_int_tot
    | exact gen_float_tot
    | exact gen_field_tot
    | exact gen_pattern_tot
    | exact gen_channel_tot
    | exact gen_stream_id_tot
    | exact rngRandomM_tot
    | exact mutate_string_tot _
    | exact mutate_int_str_tot _
    | exact gen_members_tot _
    | exact gen_field_value_list_tot _
    | exact gen_kv_pair_list_tot _
    | exact gen_zadd_pairs_tot _
    | exact gen_stream_ids_tot _
    | exact globChoice_all TOKENS_ne
    | exact globChoice_all GROUPS_ne
    | exact globChoice_all CONSUMERS_ne
    | exact rngChoice_all GENERIC_MODES_ne
    | exact globChoice_all (List.cons_ne_nil _ _)
    | exact rngChoice_all (List.cons_ne_nil _ _)
    | exact rrStr_tot (by norm_num)
    | exact rngRandrange_all (by norm_num)
    | apply optPart_all
    | apply mRep_all
    | apply MTot.ifLt
    | apply MTot.ite
    | apply MAll.bind_ne
    | apply MAll.bind_all
    | intro _

theorem sXPENDING_tot : MTot sXPENDING nonNil := by
  unfold sXPENDING
  repeat'
    first
    | exact MTot.pure (List.cons_ne_nil _ _)
    | exact MTot.pure trivial
    | exact gen_key_tot
    | exact gen_value_tot
    | exact gen_int_tot
    | exact gen_float_tot
    | exact gen_field_tot
    | exact gen_pattern_tot
    | exact gen_channel_tot
    | exact gen_stream_id_tot
    | exact rngRandomM_tot
    | exact mutate_string_tot _
    | exact mutate_int_str_tot _
    | exact gen_members_tot _
    | exact gen_field_value_list_tot _
    | exact gen_kv_pair_list_tot _
    | exact gen_zadd_pairs_tot _
    | exact gen_stream_ids_tot _
    | exact globChoice_all TOKENS_ne
    | exact globChoice_all GROUPS_ne
    | exact globChoice_all CONSUMERS_ne
    | exact rngChoice_all GENERIC_MODES_ne
    | exact globChoice_all (List.cons_ne_nil _ _)
    | exact rngChoice_all (List.cons_ne_nil _ _)
    | exact rrStr_tot (by norm_num)
    | exact rngRandrange_all (by norm_num)
    | apply optPart_all
    | apply mRep_all
    | apply MTot.ifLt
    | apply MTot.ite
    | apply MAll.bind_ne
    | apply MAll.bind_all
    | intro _

theorem sXINFO_tot : MTot sXINFO nonNil := by
  unfold sXINFO
  repeat'
    first
    | exact MTot.pure (List.cons_ne_nil _ _)
    | exact MTot.pure trivial
    | exact gen_key_tot
    | exact gen_value_tot
    | exact gen_int_tot
    | exact gen_float_tot
    | exact gen_field_tot
    | exact gen_pattern_tot
    | exact gen_channel_tot
    | exact gen_stream_id_tot
    | exact rngRandomM_tot
    | exact mutate_string_tot _
    | exact mutate_int_str_tot _
    | exact gen_members_tot _
    | exact gen_field_value_list_tot _
    | exact gen_kv_pair_list_tot _
    | exact gen_zadd_pairs_tot _
    | exact gen_stream_ids_tot _
    | exact globChoice_all TOKENS_ne
    | exact globChoice_all GROUPS_ne
    | exact globChoice_all CONSUMERS_ne
    | exact rngChoice_all GENERIC_MODES_ne
    | exact globChoice_all (List.cons_ne_nil _ _)
    | exact rngChoice_all (List.cons_ne_nil _ _)
    | exact rrStr_tot (by norm_num)
    | exact rngRandrange_all (by norm_num)
    | apply optPart_all
    | apply mRep_all
    | apply MTot.ifLt
    | apply MTot.ite
    | apply MAll.bind_ne
    | apply MAll.bind_all
    | intro _

theorem sXACK_tot : MTot sXACK nonNil := by
  unfold sXACK
  repeat'
    first
    | exact MTot.pure (List.cons_ne_nil _ _)
    | exact MTot.pure trivial
    | exact gen_key_tot
    | exact gen_value_tot
    | exact gen_int_tot
    | exact gen_float_tot
    | exact gen_field_tot
    | exact gen_pattern_tot
    | exact gen_channel_tot
    | exact gen_stream_id_tot
    | exact rngRandomM_tot
    | exact mutate_string_tot _
    | exact mutate_int_str_tot _
    | exact gen_members_tot _
    | exact gen_field_value_list_tot _
    | exact gen_kv_pair_list_tot _
    | exact gen_zadd_pairs_tot _
    | exact gen_stream_ids_tot _
    | exact globChoice_all TOKENS_ne
    | exact globChoice_all GROUPS_ne
    | exact globChoice_all CONSUMERS_ne
    | exact rngChoice_all GENERIC_MODES_ne
    | exact globChoice_all (List.cons_ne_nil _ _)
    | exact rngChoice_all (List.cons_ne_nil _ _)
    | exact rrStr_tot (by norm_num)
    | exact rngRandrange_all (by norm_num)
    | apply optPart_all
    | apply mRep_all
    | apply MTot.ifLt
    | apply MTot.ite
    | apply MAll.bind_ne
    | apply MAll.bind_all
    | intro _

theorem sXCLAIM_tot : MTot sXCLAIM nonNil := by
  unfold sXCLAIM
  repeat'
    first
    | exact MTot.pure (List.cons_ne_nil _ _)
    | exact MTot.pure trivial
    | exact gen_key_tot
    | exact gen_value_tot
    | exact gen_int_tot
    | exact gen_float_tot
    | exact gen_field_tot
    | exact gen_pattern_tot
    | exact gen_channel_tot
    | exact gen_stream_id_tot
    | exact rngRandomM_tot
    | exact mutate_string_tot _
    | exact mutate_int_str_tot _
    | exact gen_members_tot _
    | exact gen_field_value_list_tot _
    | exact gen_kv_pair_list_tot _
    | exact gen_zadd_pairs_tot _
    | exact gen_stream_ids_tot _
    | exact globChoice_all TOKENS_ne
    | exact globChoice_all GROUPS_ne
    | exact globChoice_all CONSUMERS_ne
    | exact rngChoice_all GENERIC_MODES_ne
    | exact globChoice_all (List.cons_ne_nil _ _)
    | exact rngChoice_all (List.cons_ne_nil _ _)
    | exact rrStr_tot (by norm_num)
    | exact rngRandrange_all (by norm_num)
    | apply optPart_all
    | apply mRep_all
    | apply MTot.ifLt
    | apply MTot.ite
    | apply MAll.bind_ne
    | apply MAll.bind_all
    | intro _

theorem sXAUTOCLAIM_tot : MTot sXAUTOCLAIM nonNil := by
  unfold sXAUTOCLAIM
  repeat'
    first
    | exact MTot.pure (List.cons_ne_nil _ _)
    | exact MTot.pure trivial
    | exact gen_key_tot
    | exact gen_value_tot
    | exact gen_int_tot
    | exact gen_float_tot
    | exact gen_field_tot
    | exact gen_pattern_tot
    | exact gen_channel_tot
    | exact gen_stream_id_tot
    | exact rngRandomM_tot
    | exact mutate_string_tot _
    | exact mutate_int_str_tot _
    | exact gen_members_tot _
    | exact gen_field_value_list_tot _
    | exact gen_kv_pair_list_tot _
    | exact gen_zadd_pairs_tot _
    | exact gen_stream_ids_tot _
    | exact globChoice_all TOKENS_ne
    | exact globChoice_all GROUPS_ne
    | exact globChoice_all CONSUMERS_ne
    | exact rngChoice_all GENERIC_MODES_ne
    | exact globChoice_all (List.cons_ne_nil _ _)
    | exact rngChoice_all (List.cons_ne_nil _ _)
    | exact rrStr_tot (by norm_num)
    | exact rngRandrange_all (by norm_num)
    | apply optPart_all
    | apply mRep_all
    | apply MTot.ifLt
    | apply MTot.ite
    | apply MAll.bind_ne
    | apply MAll.bind_all
    | intro _

theorem sXSETID_tot : MTot sXSETID nonNil := by
  unfold sXSETID
  repeat'
    first
    | exact MTot.pure (List.cons_ne_nil _ _)
    | exact MTot.pure trivial
    | exact gen_key_tot
    | exact gen_value_tot
    | exact gen_int_tot
    | exact gen_float_tot
    | exact gen_field_tot
    | exact gen_pattern_tot
    | exact gen_channel_tot
    | exact gen_stream_id_tot
    | exact rngRandomM_tot
    | exact mutate_string_tot _
    | exact mutate_int_str_tot _
    | exact gen_members_tot _
    | exact gen_field_value_list_tot _
    | exact gen_kv_pair_list_tot _
    | exact gen_zadd_pairs_tot _
    | exact gen_stream_ids_tot _
    | exact globChoice_all TOKENS_ne
    | exact globChoice_all GROUPS_ne
    | exact globChoice_all CONSUMERS_ne
    | exact rngChoice_all GENERIC_MODES_ne
    | exact globChoice_all (List.cons_ne_nil _ _)
    | exact rngChoice_all (List.cons_ne_nil _ _)
    | exact rrStr_tot (by norm_num)
    | exact rngRandrange_all (by norm_num)
    | apply optPart_all
    | apply mRep_all
    | apply MTot.ifLt
    | apply MTot.ite
    | apply MAll.bind_ne
    | apply MAll.bind_all
    | intro _

theorem sXTRIM_tot : MTot sXTRIM nonNil := by
  unfold sXTRIM
  repeat'
    first
    | exact MTot.pure (List.cons_ne_nil _ _)
    | exact MTot.pure trivial
    | exact gen_key_tot
    | exact gen_value_tot
    | exact gen_int_tot
    | exact gen_float_tot
    | exact gen_field_tot
    | exact gen_pattern_tot
    | exact gen_channel_tot
    | exact gen_stream_id_tot
    | exact rngRandomM_tot
    | exact mutate_string_tot _
    | exact mutate_int_str_tot _
    | exact gen_members_tot _
    | exact gen_field_value_list_tot _
    | exact gen_kv_pair_list_tot _
    | exact gen_zadd_pairs_tot _
    | exact gen_stream_ids_tot _
    | exact globChoice_all TOKENS_ne
    | exact globChoice_all GROUPS_ne
    | exact globChoice_all CONSUMERS_ne
    | exact rngChoice_all GENERIC_MODES_ne
    | exact globChoice_all (List.cons_ne_nil _ _)
    | exact rngChoice_all (List.cons_ne_nil _ _)
    | exact rrStr_tot (by norm_num)
    | exact rngRandrange_all (by norm_num)
    | apply optPart_all
    | apply mRep_all
    | apply MTot.ifLt
    | apply MTot.ite
    | apply MAll.bind_ne
    | apply MAll.bind_all
    | intro _

theorem sXACKDEL_tot : MTot sXACKDEL nonNil := gen_xackdel_like_tot _

theorem sPUBLISH_tot : MTot sPUBLISH nonNil := by
  unfold sPUBLISH
  repeat'
    first
    | exact MTot.pure (List.cons_ne_nil _ _)
    | exact MTot.pure trivial
    | exact gen_key_tot
    | exact gen_value_tot
    | exact gen_int_tot
    | exact gen_float_tot
    | exact gen_field_tot
    | exact gen_pattern_tot
    | exact gen_channel_tot
    | exact gen_stream_id_tot
    | exact rngRandomM_tot
    | exact mutate_string_tot _
    | exact mutate_int_str_tot _
    | exact gen_members_tot _
    | exact gen_field_value_list_tot _
    | exact gen_kv_pair_list_tot _
    | exact gen_zadd_pairs_tot _
    | exact gen_stream_ids_tot _
    | exact globChoice_all TOKENS_ne
    | exact globChoice_all GROUPS_ne
    | exact globChoice_all CONSUMERS_ne
    | exact rngChoice_all GENERIC_MODES_ne
    | exact globChoice_all (List.cons_ne_nil _ _)
    | exact rngChoice_all (List.cons_ne_nil _ _)
    | exact rrStr_tot (by norm_num)
    | exact rngRandrange_all (by norm_num)
    | apply optPart_all
    | apply mRep_all
    | apply MTot.ifLt
    | apply MTot.ite
    | apply MAll.bind_ne
    | apply MAll.bind_all
    | intro _

theorem sSUBSCRIBE_tot : MTot sSUBSCRIBE nonNil := by
  unfold sSUBSCRIBE
  repeat'
    first
    | exact MTot.pure (List.cons_ne_nil _ _)
    | exact MTot.pure trivial
    | exact gen_key_tot
    | exact gen_value_tot
    | exact gen_int_tot
    | exact gen_float_tot
    | exact gen_field_tot
    | exact gen_pattern_tot
    | exact gen_channel_tot
    | exact gen_stream_id_tot
    | exact rngRandomM_tot
    | exact mutate_string_tot _
    | exact mutate_int_str_tot _
    | exact gen_members_tot _
    | exact gen_field_value_list_tot _
    | exact gen_kv_pair_list_tot _
    | exact gen_zadd_pairs_tot _
    | exact gen_stream_ids_tot _
    | exact globChoice_all TOKENS_ne
    | exact globChoice_all GROUPS_ne
    | exact globChoice_all CONSUMERS_ne
    | exact rngChoice_all GENERIC_MODES_ne
    | exact globChoice_all (List.cons_ne_nil _ _)
    | exact rngChoice_all (List.cons_ne_nil _ _)
    | exact rrStr_tot (by norm_num)
    | exact rngRandrange_all (by norm_num)
    | apply optPart_all
    | apply mRep_all
    | apply MTot.ifLt
    | apply MTot.ite
    | apply MAll.bind_ne
    | apply MAll.bind_all
    | intro _

theorem sUNSUBSCRIBE_tot : MTot sUNSUBSCRIBE nonNil := by
  unfold sUNSUBSCRIBE
  repeat'
    first
    | exact MTot.pure (List.cons_ne_nil _ _)
    | exact MTot.pure trivial
    | exact gen_key_tot
    | exact gen_value_tot
    | exact gen_int_tot
    | exact gen_float_tot
    | exact gen_field_tot
    | exact gen_pattern_tot
    | exact gen_channel_tot
    | exact gen_stream_id_tot
    | exact rngRandomM_tot
    | exact mutate_string_tot _
    | exact mutate_int_str_tot _
    | exact gen_members_tot _
    | exact gen_field_value_list_tot _
    | exact gen_kv_pair_list_tot _
    | exact gen_zadd_pairs_tot _
    | exact gen_stream_ids_tot _
    | exact globChoice_all TOKENS_ne
    | exact globChoice_all GROUPS_ne
    | exact globChoice_all CONSUMERS_ne
    | exact rngChoice_all GENERIC_MODES_ne
    | exact globChoice_all (List.cons_ne_nil _ _)
    | exact rngChoice_all (List.cons_ne_nil _ _)
    | exact rrStr_tot (by norm_num)
    | exact rngRandrange_all (by norm_num)
    | apply optPart_all
    | apply mRep_all
    | apply MTot.ifLt
    | apply MTot.ite
    | apply MAll.bind_ne
    | apply MAll.bind_all
    | intro _

theorem sPSUBSCRIBE_tot : MTot sPSUBSCRIBE nonNil := by
  unfold sPSUBSCRIBE
  repeat'
    first
    | exact MTot.pure (List.cons_ne_nil _ _)
    | exact MTot.pure trivial
    | exact gen_key_tot
    | exact gen_value_tot
    | exact gen_int_tot
    | exact gen_float_tot
    | exact gen_field_tot
    | exact gen_pattern_tot
    | exact gen_channel_tot
    | exact gen_stream_id_tot
    | exact rngRandomM_tot
    | exact mutate_string_tot _
    | exact mutate_int_str_tot _
    | exact gen_members_tot _
    | exact gen_field_value_list_tot _
    | exact gen_kv_pair_list_tot _
    | exact gen_zadd_pairs_tot _
    | exact gen_stream_ids_tot _
    | exact globChoice_all TOKENS_ne
    | exact globChoice_all GROUPS_ne
    | exact globChoice_all CONSUMERS_ne
    | exact rngChoice_all GENERIC_MODES_ne
    | exact globChoice_all (List.cons_ne_nil _ _)
    | exact rngChoice_all (List.cons_ne_nil _ _)
    | exact rrStr_tot (by norm_num)
    | exact rngRandrange_all (by norm_num)
    | apply optPart_all
    | apply mRep_all
    | apply MTot.ifLt
    | apply MTot.ite
    | apply MAll.bind_ne
    | apply MAll.bind_all
    | intro _

theorem sPUNSUBSCRIBE_tot : MTot sPUNSUBSCRIBE nonNil := by
  unfold sPUNSUBSCRIBE
  repeat'
    first
    | exact MTot.pure (List.cons_ne_nil _ _)
    | exact MTot.pure trivial
    | exact gen_key_tot
    | exact gen_value_tot
    | exact gen_int_tot
    | exact gen_float_tot
    | exact gen_field_tot
    | exact gen_pattern_tot
    | exact gen_channel_tot
    | exact gen_stream_id_tot
    | exact rngRandomM_tot
    | exact mutate_string_tot _
    | exact mutate_int_str_tot _
    | exact gen_members_tot _
    | exact gen_field_value_list_tot _
    | exact gen_kv_pair_list_tot _
    | exact gen_zadd_pairs_tot _
    | exact gen_stream_ids_tot _
    | exact globChoice_all TOKENS_ne
    | exact globChoice_all GROUPS_ne
    | exact globChoice_all CONSUMERS_ne
    | exact rngChoice_all GENERIC_MODES_ne
    | exact globChoice_all (List.cons_ne_nil _ _)
    | exact rngChoice_all (List.cons_ne_nil _ _)
    | exact rrStr_tot (by norm_num)
    | exact rngRandrange_all (by norm_num)
    | apply optPart_all
    | apply mRep_all
    | apply MTot.ifLt
    | apply MTot.ite
    | apply MAll.bind_ne
    | apply MAll.bind_all
    | intro _

theorem sPUBSUB_tot : MTot sPUBSUB nonNil := by
  unfold sPUBSUB
  repeat'
    first
    | exact MTot.pure (List.cons_ne_nil _ _)
    | exact MTot.pure trivial
    | exact gen_key_tot
    | exact gen_value_tot
    | exact gen_int_tot
    | exact gen_float_tot
    | exact gen_field_tot
    | exact gen_pattern_tot
    | exact gen_channel_tot
    | exact gen_stream_id_tot
    | exact rngRandomM_tot
    | exact mutate_string_tot _
    | exact mutate_int_str_tot _
    | exact gen_members_tot _
    | exact gen_field_value_list_tot _
    | exact gen_kv_pair_list_tot _
    | exact gen_zadd_pairs_tot _
    | exact gen_stream_ids_tot _
    | exact globChoice_all TOKENS_ne
    | exact globChoice_all GROUPS_ne
    | exact globChoice_all CONSUMERS_ne
    | exact rngChoice_all GENERIC_MODES_ne
    | exact globChoice_all (List.cons_ne_nil _ _)
    | exact rngChoice_all (List.cons_ne_nil _ _)
    | exact rrStr_tot (by norm_num)
    | exact rngRandrange_all (by norm_num)
    | apply optPart_all
    | apply mRep_all
    | apply MTot.ifLt
    | apply MTot.ite
    | apply MAll.bind_ne
    | apply MAll.bind_all
    | intro _

theorem sEVALSHA_tot : MTot sEVALSHA nonNil := by
  unfold sEVALSHA
  repeat'
    first
    | exact MTot.pure (List.cons_ne_nil _ _)
    | exact MTot.pure trivial
    | exact gen_key_tot
    | exact gen_value_tot
    | exact gen_int_tot
    | exact gen_float_tot
    | exact gen_field_tot
    | exact gen_pattern_tot
    | exact gen_channel_tot
    | exact gen_stream_id_tot
    | exact rngRandomM_tot
    | exact mutate_string_tot _
    | exact mutate_int_str_tot _
    | exact gen_members_tot _
    | exact gen_field_value_list_tot _
    | exact gen_kv_pair_list_tot _
    | exact gen_zadd_pairs_tot _
    | exact gen_stream_ids_tot _
    | exact globChoice_all TOKENS_ne
    | exact globChoice_all GROUPS_ne
    | exact globChoice_all CONSUMERS_ne
    | exact rngChoice_all GENERIC_MODES_ne
    | exact globChoice_all (List.cons_ne_nil _ _)
    | exact rngChoice_all (List.cons_ne_nil _ _)
    | exact rrStr_tot (by norm_num)
    | exact rngRandrange_all (by norm_num)
    | apply optPart_all
    | apply mRep_all
    | apply MTot.ifLt
    | apply MTot.ite
    | apply MAll.bind_ne
    | apply MAll.bind_all
    | intro _

theorem sSCRIPT_tot : MTot sSCRIPT nonNil := by
  unfold sSCRIPT
  repeat'
    first
    | exact MTot.pure (List.cons_ne_nil _ _)
    | exact MTot.pure trivial
    | exact gen_key_tot
    | exact gen_value_tot
    | exact gen_int_tot
    | exact gen_float_tot
    | exact gen_field_tot
    | exact gen_pattern_tot
    | exact gen_channel_tot
    | exact gen_stream_id_tot
    | exact rngRandomM_tot
    | exact mutate_string_tot _
    | exact mutate_int_str_tot _
    | exact gen_members_tot _
    | exact gen_field_value_list_tot _
    | exact gen_kv_pair_list_tot _
    | exact gen_zadd_pairs_tot _
    | exact gen_stream_ids_tot _
    | exact globChoice_all TOKENS_ne
    | exact globChoice_all GROUPS_ne
    | exact globChoice_all CONSUMERS_ne
    | exact rngChoice_all GENERIC_MODES_ne
    | exact globChoice_all (List.cons_ne_nil _ _)
    | exact rngChoice_all (List.cons_ne_nil _ _)
    | exact rrStr_tot (by norm_num)
    | exact rngRandrange_all (by norm_num)
    | apply optPart_all
    | apply mRep_all
    | apply MTot.ifLt
    | apply MTot.ite
    | apply MAll.bind_ne
    | apply MAll.bind_all
    | intro _

theorem sMULTI_tot : MTot sMULTI nonNil := by
  unfold sMULTI
  repeat'
    first
    | exact MTot.pure (List.cons_ne_nil _ _)
    | exact MTot.pure trivial
    | exact gen_key_tot
    | exact gen_value_tot
    | exact gen_int_tot
    | exact gen_float_tot
    | exact gen_field_tot
    | exact gen_pattern_tot
    | exact gen_channel_tot
    | exact gen_stream_id_tot
    | exact rngRandomM_tot
    | exact mutate_string_tot _
    | exact mutate_int_str_tot _
    | exact gen_members_tot _
    | exact gen_field_value_list_tot _
    | exact gen_kv_pair_list_tot _
    | exact gen_zadd_pairs_tot _
    | exact gen_stream_ids_tot _
    | exact globChoice_all TOKENS_ne
    | exact globChoice_all GROUPS_ne
    | exact globChoice_all CONSUMERS_ne
    | exact rngChoice_all GENERIC_MODES_ne
    | exact globChoice_all (List.cons_ne_nil _ _)
    | exact rngChoice_all (List.cons_ne_nil _ _)
    | exact rrStr_tot (by norm_num)
    | exact rngRandrange_all (by norm_num)
    | apply optPart_all
    | apply mRep_all
    | apply MTot.ifLt
    | apply MTot.ite
    | apply MAll.bind_ne
    | apply MAll.bind_all
    | intro _

theorem sEXEC_tot : MTot sEXEC nonNil := by
  unfold sEXEC
  repeat'
    first
    | exact MTot.pure (List.cons_ne_nil _ _)
    | exact MTot.pure trivial
    | exact gen_key_tot
    | exact gen_value_tot
    | exact gen_int_tot
    | exact gen_float_tot
    | exact gen_field_tot
    | exact gen_pattern_tot
    | exact gen_channel_tot
    | exact gen_stream_id_tot
    | exact rngRandomM_tot
    | exact mutate_string_tot _
    | exact mutate_int_str_tot _
    | exact gen_members_tot _
    | exact gen_field_value_list_tot _
    | exact gen_kv_pair_list_tot _
    | exact gen_zadd_pairs_tot _
    | exact gen_stream_ids_tot _
    | exact globChoice_all TOKENS_ne
    | exact globChoice_all GROUPS_ne
    | exact globChoice_all CONSUMERS_ne
    | exact rngChoice_all GENERIC_MODES_ne
    | exact globChoice_all (List.cons_ne_nil _ _)
    | exact rngChoice_all (List.cons_ne_nil _ _)
    | exact rrStr_tot (by norm_num)
    | exact rngRandrange_all (by norm_num)
    | apply optPart_all
    | apply mRep_all
    | apply MTot.ifLt
    | apply MTot.ite
    | apply MAll.bind_ne
    | apply MAll.bind_all
    | intro _

theorem sDISCARD_tot : MTot sDISCARD nonNil := by
  unfold sDISCARD
  repeat'
    first
    | exact MTot.pure (List.cons_ne_nil _ _)
    | exact MTot.pure trivial
    | exact gen_key_tot
    | exact gen_value_tot
    | exact gen_int_tot
    | exact gen_float_tot
    | exact gen_field_tot
    | exact gen_pattern_tot
    | exact gen_channel_tot
    | exact gen_stream_id_tot
    | exact rngRandomM_tot
    | exact mutate_string_tot _
    | exact mutate_int_str_tot _
    | exact gen_members_tot _
    | exact gen_field_value_list_tot _
    | exact gen_kv_pair_list_tot _
    | exact gen_zadd_pairs_tot _
    | exact gen_stream_ids_tot _
    | exact globChoice_all TOKENS_ne
    | exact globChoice_all GROUPS_ne
    | exact globChoice_all CONSUMERS_ne
    | exact rngChoice_all GENERIC_MODES_ne
    | exact globChoice_all (List.cons_ne_nil _ _)
    | exact rngChoice_all (List.cons_ne_nil _ _)
    | exact rrStr_tot (by norm_num)
    | exact rngRandrange_all (by norm_num)
    | apply optPart_all
    | apply mRep_all
    | apply MTot.ifLt
    | apply MTot.ite
    | apply MAll.bind_ne
    | apply MAll.bind_all
    | intro _

theorem sWATCH_tot : MTot sWATCH nonNil := by
  unfold sWATCH
  repeat'
    first
    | exact MTot.pure (List.cons_ne_nil _ _)
    | exact MTot.pure trivial
    | exact gen_key_tot
    | exact gen_value_tot
    | exact gen_int_tot
    | exact gen_float_tot
    | exact gen_field_tot
    | exact gen_pattern_tot
    | exact gen_channel_tot
    | exact gen_stream_id_tot
    | exact rngRandomM_tot
    | exact mutate_string_tot _
    | exact mutate_int_str_tot _
    | exact gen_members_tot _
    | exact gen_field_value_list_tot _
    | exact gen_kv_pair_list_tot _
    | exact gen_zadd_pairs_tot _
    | exact gen_stream_ids_tot _
    | exact globChoice_all TOKENS_ne
    | exact globChoice_all GROUPS_ne
    | exact globChoice_all CONSUMERS_ne
    | exact rngChoice_all GENERIC_MODES_ne
    | exact globChoice_all (List.cons_ne_nil _ _)
    | exact rngChoice_all (List.cons_ne_nil _ _)
    | exact rrStr_tot (by norm_num)
    | exact rngRandrange_all (by norm_num)
    | apply optPart_all
    | apply mRep_all
    | apply MTot.ifLt
    | apply MTot.ite
    | apply MAll.bind_ne
    | apply MAll.bind_all
    | intro _

theorem sUNWATCH_tot : MTot sUNWATCH nonNil := by
  unfold sUNWATCH
  repeat'
    first
    | exact MTot.pure (List.cons_ne_nil _ _)
    | exact MTot.pure trivial
    | exact gen_key_tot
    | exact gen_value_tot
    | exact gen_int_tot
    | exact gen_float_tot
    | exact gen_field_tot
    | exact gen_pattern_tot
    | exact gen_channel_tot
    | exact gen_stream_id_tot
    | exact rngRandomM_tot
    | exact mutate_string_tot _
    | exact mutate_int_str_tot _
    | exact gen_members_tot _
    | exact gen_field_value_list_tot _
    | exact gen_kv_pair_list_tot _
    | exact gen_zadd_pairs_tot _
    | exact gen_stream_ids_tot _
    | exact globChoice_all TOKENS_ne
    | exact globChoice_all GROUPS_ne
    | exact globChoice_all CONSUMERS_ne
    | exact rngChoice_all GENERIC_MODES_ne
    | exact globChoice_all (List.cons_ne_nil _ _)
    | exact rngChoice_all (List.cons_ne_nil _ _)
    | exact rrStr_tot (by norm_num)
    | exact rngRandrange_all (by norm_num)
    | apply optPart_all
    | apply mRep_all
    | apply MTot.ifLt
    | apply MTot.ite
    | apply MAll.bind_ne
    | apply MAll.bind_all
    | intro _

theorem sMGET_tot : MTot sMGET nonNil := by
  unfold sMGET
  repeat'
    first
    | exact MTot.pure (List.cons_ne_nil _ _)
    | exact MTot.pure trivial
    | exact gen_key_tot
    | exact gen_value_tot
    | exact gen_int_tot
    | exact gen_float_tot
    | exact gen_field_tot
    | exact gen_pattern_tot
    | exact gen_channel_tot
    | exact gen_stream_id_tot
    | exact rngRandomM_tot
    | exact mutate_string_tot _
    | exact mutate_int_str_tot _
    | exact gen_members_tot _
    | exact gen_field_value_list_tot _
    | exact gen_kv_pair_list_tot _
    | exact gen_zadd_pairs_tot _
    | exact gen_stream_ids_tot _
    | exact globChoice_all TOKENS_ne
    | exact globChoice_all GROUPS_ne
    | exact globChoice_all CONSUMERS_ne
    | exact rngChoice_all GENERIC_MODES_ne
    | exact globChoice_all (List.cons_ne_nil _ _)
    | exact rngChoice_all (List.cons_ne_nil _ _)
    | exact rrStr_tot (by norm_num)
    | exact rngRandrange_all (by norm_num)
    | apply optPart_all
    | apply mRep_all
    | apply MTot.ifLt
    | apply MTot.ite
    | apply MAll.bind_ne
    | apply MAll.bind_all
    | intro _

theorem sMSET_tot : MTot sMSET nonNil := by
  unfold sMSET
  repeat'
    first
    | exact MTot.pure (List.cons_ne_nil _ _)
    | exact MTot.pure trivial
    | exact gen_key_tot
    | exact gen_value_tot
    | exact gen_int_tot
    | exact gen_float_tot
    | exact gen_field_tot
    | exact gen_pattern_tot
    | exact gen_channel_tot
    | exact gen_stream_id_tot
    | exact rngRandomM_tot
    | exact mutate_string_tot _
    | exact mutate_int_str_tot _
    | exact gen_members_tot _
    | exact gen_field_value_list_tot _
    | exact gen_kv_pair_list_tot _
    | exact gen_zadd_pairs_tot _
    | exact gen_stream_ids_tot _
    | exact globChoice_all TOKENS_ne
    | exact globChoice_all GROUPS_ne
    | exact globChoice_all CONSUMERS_ne
    | exact rngChoice_all GENERIC_MODES_ne
    | exact globChoice_all (List.cons_ne_nil _ _)
    | exact rngChoice_all (List.cons_ne_nil _ _)
    | exact rrStr_tot (by norm_num)
    | exact rngRandrange_all (by norm_num)
    | apply optPart_all
    | apply mRep_all
    | apply MTot.ifLt
    | apply MTot.ite
    | apply MAll.bind_ne
    | apply MAll.bind_all
    | intro _

theorem sMSETNX_tot : MTot sMSETNX nonNil := by
  unfold sMSETNX
  repeat'
    first
    | exact MTot.pure (List.cons_ne_nil _ _)
    | exact MTot.pure trivial
    | exact gen_key_tot
    | exact gen_value_tot
    | exact gen_int_tot
    | exact gen_float_tot
    | exact gen_field_tot
    | exact gen_pattern_tot
    | exact gen_channel_tot
    | exact gen_stream_id_tot
    | exact rngRandomM_tot
    | exact mutate_string_tot _
    | exact mutate_int_str_tot _
    | exact gen_members_tot _
    | exact gen_field_value_list_tot _
    | exact gen_kv_pair_list_tot _
    | exact gen_zadd_pairs_tot _
    | exact gen_stream_ids_tot _
    | exact globChoice_all TOKENS_ne
    | exact globChoice_all GROUPS_ne
    | exact globChoice_all CONSUMERS_ne
    | exact rngChoice_all GENERIC_MODES_ne
    | exact globChoice_all (List.cons_ne_nil _ _)
    | exact rngChoice_all (List.cons_ne_nil _ _)
    | exact rrStr_tot (by norm_num)
    | exact rngRandrange_all (by norm_num)
    | apply optPart_all
    | apply mRep_all
    | apply MTot.ifLt
    | apply MTot.ite
    | apply MAll.bind_ne
    | apply MAll.bind_all
    | intro _

/-- Every generator stored in the add_spec table produces a non-empty
argv and never fails. -/
theorem SPECS_tot : ∀ p ∈ SPECS, MTot p.2 nonNil := by
  unfold SPECS
  exact List.forall_mem_cons.mpr ⟨sPING_tot,
    List.forall_mem_cons.mpr ⟨sECHO_tot,
    List.forall_mem_cons.mpr ⟨sGET_tot,
    List.forall_mem_cons.mpr ⟨sSET_tot,
    List.forall_mem_cons.mpr ⟨sAPPEND_tot,
    List.forall_mem_cons.mpr ⟨sINCR_tot,
    List.forall_mem_cons.mpr ⟨sINCRBY_tot,
    List.forall_mem_cons.mpr ⟨sINCRBYFLOAT_tot,
    List.forall_mem_cons.mpr ⟨sDECR_tot,
    List.forall_mem_cons.mpr ⟨sDECRBY_tot,
    List.forall_mem_cons.mpr ⟨sSTRLEN_tot,
    List.forall_mem_cons.mpr ⟨sGETRANGE_tot,
    List.forall_mem_cons.mpr ⟨sSETRANGE_tot,
    List.forall_mem_cons.mpr ⟨sGETSET_tot,
    List.forall_mem_cons.mpr ⟨sGETDEL_tot,
    List.forall_mem_cons.mpr ⟨sGETEX_tot,
    List.forall_mem_cons.mpr ⟨sSETEX_tot,
    List.forall_mem_cons.mpr ⟨sPSETEX_tot,
    List.forall_mem_cons.mpr ⟨sSETNX_tot,
    List.forall_mem_cons.mpr ⟨sDEL_tot,
    List.forall_mem_cons.mpr ⟨sUNLINK_tot,
    List.forall_mem_cons.mpr ⟨sEXISTS_tot,
    List.forall_mem_cons.mpr ⟨sTYPE_tot,
    List.forall_mem_cons.mpr ⟨sTTL_tot,
    List.forall_mem_cons.mpr ⟨sPTTL_tot,
    List.forall_mem_cons.mpr ⟨sEXPIRE_tot,
    List.forall_mem_cons.mpr ⟨sPEXPIRE_tot,
    List.forall_mem_cons.mpr ⟨sEXPIREAT_tot,
    List.forall_mem_cons.mpr ⟨sPEXPIREAT_tot,
    List.forall_mem_cons.mpr ⟨sPERSIST_tot,
    List.forall_mem_cons.mpr ⟨sRENAME_tot,
    List.forall_mem_cons.mpr ⟨sRENAMENX_tot,
    List.forall_mem_cons.mpr ⟨sMOVE_tot,
    List.forall_mem_cons.mpr ⟨sSELECT_tot,
    List.forall_mem_cons.mpr ⟨sKEYS_tot,
    List.forall_mem_cons.mpr ⟨sDBSIZE_tot,
    List.forall_mem_cons.mpr ⟨sRANDOMKEY_tot,
    List.forall_mem_cons.mpr ⟨sHSET_tot,
    List.forall_mem_cons.mpr ⟨sHSETNX_tot,
    List.forall_mem_cons.mpr ⟨sHGET_tot,
    List.forall_mem_cons.mpr ⟨sHGETALL_tot,
    List.forall_mem_cons.mpr ⟨sHDEL_tot,
    List.forall_mem_cons.mpr ⟨sHEXISTS_tot,
    List.forall_mem_cons.mpr ⟨sHLEN_tot,
    List.forall_mem_cons.mpr ⟨sHSTRLEN_tot,
    List.forall_mem_cons.mpr ⟨sHINCRBY_tot,
    List.forall_mem_cons.mpr ⟨sHINCRBYFLOAT_tot,
    List.forall_mem_cons.mpr ⟨sHKEYS_tot,
    List.forall_mem_cons.mpr ⟨sHVALS_tot,
    List.forall_mem_cons.mpr ⟨sHMGET_tot,
    List.forall_mem_cons.mpr ⟨sHMSET_tot,
    List.forall_mem_cons.mpr ⟨sHRANDFIELD_tot,
    List.forall_mem_cons.mpr ⟨sHSCAN1_tot,
    List.forall_mem_cons.mpr ⟨sLPUSH_tot,
    List.forall_mem_cons.mpr ⟨sRPUSH_tot,
    List.forall_mem_cons.mpr ⟨sLPUSHX_tot,
    List.forall_mem_cons.mpr ⟨sRPUSHX_tot,
    List.forall_mem_cons.mpr ⟨sLPOP_tot,
    List.forall_mem_cons.mpr ⟨sRPOP_tot,
    List.forall_mem_cons.mpr ⟨sLRANGE_tot,
    List.forall_mem_cons.mpr ⟨sLLEN_tot,
    List.forall_mem_cons.mpr ⟨sLINDEX_tot,
    List.forall_mem_cons.mpr ⟨sLSET_tot,
    List.forall_mem_cons.mpr ⟨sLREM_tot,
    List.forall_mem_cons.mpr ⟨sLTRIM_tot,
    List.forall_mem_cons.mpr ⟨sLINSERT_tot,
    List.forall_mem_cons.mpr ⟨sRPOPLPUSH_tot,
    List.forall_mem_cons.mpr ⟨sLMOVE_tot,
    List.forall_mem_cons.mpr ⟨sSADD_tot,
    List.forall_mem_cons.mpr ⟨sSREM_tot,
    List.forall_mem_cons.mpr ⟨sSCARD_tot,
    List.forall_mem_cons.mpr ⟨sSMEMBERS_tot,
    List.forall_mem_cons.mpr ⟨sSISMEMBER_tot,
    List.forall_mem_cons.mpr ⟨sSMISMEMBER_tot,
    List.forall_mem_cons.mpr ⟨sSPOP_tot,
    List.forall_mem_cons.mpr ⟨sSRANDMEMBER_tot,
    List.forall_mem_cons.mpr ⟨sSMOVE_tot,
    List.forall_mem_cons.mpr ⟨sSDIFF_tot,
    List.forall_mem_cons.mpr ⟨sSDIFFSTORE_tot,
    List.forall_mem_cons.mpr ⟨sSINTER_tot,
    List.forall_mem_cons.mpr ⟨sSINTERSTORE_tot,
    List.forall_mem_cons.mpr ⟨sSUNION_tot,
    List.forall_mem_cons.mpr ⟨sSUNIONSTORE_tot,
    List.forall_mem_cons.mpr ⟨sSSCAN1_tot,
    List.forall_mem_cons.mpr ⟨sZADD_tot,
    List.forall_mem_cons.mpr ⟨sZREM_tot,
    List.forall_mem_cons.mpr ⟨sZCARD_tot,
    List.forall_mem_cons.mpr ⟨sZCOUNT_tot,
    List.forall_mem_cons.mpr ⟨sZSCORE_tot,
    List.forall_mem_cons.mpr ⟨sZRANK_tot,
    List.forall_mem_cons.mpr ⟨sZREVRANK_tot,
    List.forall_mem_cons.mpr ⟨sZRANGE_tot,
    List.forall_mem_cons.mpr ⟨sZREVRANGE_tot,
    List.forall_mem_cons.mpr ⟨sZRANGEBYSCORE_tot,
    List.forall_mem_cons.mpr ⟨sZREVRANGEBYSCORE_tot,
    List.forall_mem_cons.mpr ⟨sZLEXCOUNT_tot,
    List.forall_mem_cons.mpr ⟨sZRANGEBYLEX_tot,
    List.forall_mem_cons.mpr ⟨sZREVRANGEBYLEX_tot,
    List.forall_mem_cons.mpr ⟨sZSCAN1_tot,
    List.forall_mem_cons.mpr ⟨sZPOPMAX_tot,
    List.forall_mem_cons.mpr ⟨sZPOPMIN_tot,
    List.forall_mem_cons.mpr ⟨sZRANDMEMBER_tot,
    List.forall_mem_cons.mpr ⟨sZINCRBY_tot,
    List.forall_mem_cons.mpr ⟨sZREMRANGEBYRANK_tot,
    List.forall_mem_cons.mpr ⟨sZREMRANGEBYSCORE_tot,
    List.forall_mem_cons.mpr ⟨sZREMRANGEBYLEX_tot,
    List.forall_mem_cons.mpr ⟨sZMSCORE_tot,
    List.forall_mem_cons.mpr ⟨sZINTER_tot,
    List.forall_mem_cons.mpr ⟨sZUNION_tot,
    List.forall_mem_cons.mpr ⟨sZINTERSTORE_tot,
    List.forall_mem_cons.mpr ⟨sZUNIONSTORE_tot,
    List.forall_mem_cons.mpr ⟨sXADD_tot,
    List.forall_mem_cons.mpr ⟨sXDEL_tot,
    List.forall_mem_cons.mpr ⟨sXLEN_tot,
    List.forall_mem_cons.mpr ⟨sXRANGE_tot,
    List.forall_mem_cons.mpr ⟨sXREVRANGE_tot,
    List.forall_mem_cons.mpr ⟨gen_xgroup_tot,
    List.forall_mem_cons.mpr ⟨gen_xreadgroup_tot,
    List.forall_mem_cons.mpr ⟨sXREAD_tot,
    List.forall_mem_cons.mpr ⟨sXPENDING_tot,
    List.forall_mem_cons.mpr ⟨sXINFO_tot,
    List.forall_mem_cons.mpr ⟨sXACK_tot,
    List.forall_mem_cons.mpr ⟨sXCLAIM_tot,
    List.forall_mem_cons.mpr ⟨sXAUTOCLAIM_tot,
    List.forall_mem_cons.mpr ⟨sXSETID_tot,
    List.forall_mem_cons.mpr ⟨sXTRIM_tot,
    List.forall_mem_cons.mpr ⟨sXACKDEL_tot,
    List.forall_mem_cons.mpr ⟨sPUBLISH_tot,
    List.forall_mem_cons.mpr ⟨sSUBSCRIBE_tot,
    List.forall_mem_cons.mpr ⟨sUNSUBSCRIBE_tot,
    List.forall_mem_cons.mpr ⟨sPSUBSCRIBE_tot,
    List.forall_mem_cons.mpr ⟨sPUNSUBSCRIBE_tot,
    List.forall_mem_cons.mpr ⟨sPUBSUB_tot,
    List.forall_mem_cons.mpr ⟨gen_minimal_eval_tot,
    List.forall_mem_cons.mpr ⟨sEVALSHA_tot,
    List.forall_mem_cons.mpr ⟨sSCRIPT_tot,
    List.forall_mem_cons.mpr ⟨gen_scan_like_tot _,
    List.forall_mem_cons.mpr ⟨gen_scan_like_tot _,
    List.forall_mem_cons.mpr ⟨gen_scan_like_tot _,
    List.forall_mem_cons.mpr ⟨gen_scan_like_tot _,
    List.forall_mem_cons.mpr ⟨sMULTI_tot,
    List.forall_mem_cons.mpr ⟨sEXEC_tot,
    List.forall_mem_cons.mpr ⟨sDISCARD_tot,
    List.forall_mem_cons.mpr ⟨sWATCH_tot,
    List.forall_mem_cons.mpr ⟨sUNWATCH_tot,
    List.forall_mem_cons.mpr ⟨sMGET_tot,
    List.forall_mem_cons.mpr ⟨sMSET_tot,
    List.forall_mem_cons.mpr ⟨sMSETNX_tot,
    List.forall_mem_nil _⟩⟩⟩⟩⟩⟩⟩⟩⟩⟩⟩⟩⟩⟩⟩⟩⟩⟩⟩⟩⟩⟩⟩⟩⟩⟩⟩⟩⟩⟩⟩⟩⟩⟩⟩⟩⟩⟩⟩⟩⟩⟩⟩⟩⟩⟩⟩⟩⟩⟩⟩⟩⟩⟩⟩⟩⟩⟩⟩⟩⟩⟩⟩⟩⟩⟩⟩⟩⟩⟩⟩⟩⟩⟩⟩⟩⟩⟩⟩⟩⟩⟩⟩⟩⟩⟩⟩⟩⟩⟩⟩⟩⟩⟩⟩⟩⟩⟩⟩⟩⟩⟩⟩⟩⟩⟩⟩⟩⟩⟩⟩⟩⟩⟩⟩⟩⟩⟩⟩⟩⟩⟩⟩⟩⟩⟩⟩⟩⟩⟩⟩⟩⟩⟩⟩⟩⟩⟩⟩⟩⟩⟩⟩⟩⟩⟩⟩⟩

theorem specLookup_tot {name : List Nat} {g : M (List (List Nat))}
    (h : specLookup name = some g) : MTot g nonNil := by
  unfold specLookup at h
  rcases Option.map_eq_some'.mp h with ⟨p, hfind, rfl⟩
  exact SPECS_tot p (List.mem_reverse.mp (List.mem_of_find?_eq_some hfind))

theorem gen_generic_tot (cmdname : List Nat) : MTot (gen_generic cmdname) nonNil := by
  unfold gen_generic
  repeat'
    first
    | exact MTot.pure (List.cons_ne_nil _ _)
    | exact MTot.pure trivial
    | exact gen_key_tot
    | exact gen_value_tot
    | exact gen_int_tot
    | exact gen_field_tot
    | exact gen_pattern_tot
    | exact rngChoice_all GENERIC_MODES_ne
    | exact rngRandrange_all (by norm_num)
    | apply mRep_all
    | apply MTot.ite
    | apply MAll.bind_ne
    | apply MAll.bind_all
    | intro _

theorem gen_any_command_tot : MTot gen_any_command nonNil := by
  unfold gen_any_command
  apply MTot.bind (rngChoice_all ALL_COMMANDS_UP_ne)
  intro name _
  refine MTot.ite (name = pstr "HOST:") (fun _ => ?_) (fun _ => ?_)
  · exact MTot.ifLt _
      (MAll.bind_ne gen_value_tot (fun v => MTot.pure (List.cons_ne_nil _ _)))
      (MTot.pure (List.cons_ne_nil _ _))
  · split
    next g hg => exact MTot.ifLt _ (specLookup_tot hg) (gen_generic_tot _)
    next hg => exact gen_generic_tot _

/- chunk 2: command-level mutation -/

theorem take_ne_nil {α : Type} {l : List α} (h : l ≠ []) {n : Nat} (hn : n ≠ 0) :
    l.take n ≠ [] := by
  cases l with
  | nil => exact absurd rfl h
  | cons a t =>
    cases n with
    | zero => exact absurd rfl hn
    | succ m => simp

theorem app3_ne {α : Type} (l1 l2 : List α) (x : α) : l1 ++ [x] ++ l2 ≠ [] := by simp

theorem sliceII_subset {α : Type} (l : List α) (a b : Int) :
    ∀ x ∈ pySliceII l a b, x ∈ l := fun _ hx =>
  List.take_subset _ _ (List.drop_subset _ _ hx)

theorem mocInsert_tot {out : List (List Nat)} (h : out ≠ []) :
    MTot (mocInsert out) nonNil := by
  unfold mocInsert
  have hl : 0 < out.length := List.length_pos.mpr h
  refine MTot.bind rngRandomM_tot (fun v _ => ?_)
  refine MTot.ite _ (fun _ => ?_) (fun _ => MTot.pure h)
  refine MTot.bind (rngRandrange_all (by omega)) (fun pos _ => ?_)
  refine MTot.bind (P := fun p => p ≠ [])
    (MTot.ifLt _
      (MTot.pure (app_ne_left (app_ne_left (app_ne_left (app_ne_left TOKENS_ne _) _) _) _))
      (MTot.pure (app_ne_left (app_ne_left (app_ne_left TOKENS_ne _) _) _)))
    (fun pool hpool => ?_)
  refine MTot.bind (rngChoice_all hpool) (fun x _ => ?_)
  exact MTot.pure (app3_ne _ _ _)

theorem mocDelete_tot {out : List (List Nat)} (h : out ≠ []) :
    MTot (mocDelete out) nonNil := by
  unfold mocDelete
  refine MTot.bind rngRandomM_tot (fun v _ => ?_)
  refine MTot.ite _ (fun hc => ?_) (fun _ => MTot.pure h)
  obtain ⟨-, hlen⟩ := hc
  refine MTot.bind (rngRandrange_tot (by omega)) (fun pos hpos => ?_)
  refine MTot.pure (List.length_pos.mp ?_)
  simp only [List.length_append, List.length_take, List.length_drop]
  omega

theorem mocDup_tot {out : List (List Nat)} (h : out ≠ []) :
    MTot (mocDup out) nonNil := by
  unfold mocDup
  refine MTot.bind rngRandomM_tot (fun v _ => ?_)
  refine MTot.ite _ (fun hc => ?_) (fun _ => MTot.pure h)
  obtain ⟨-, hlen⟩ := hc
  refine MTot.bind (rngRandrange_tot (by omega)) (fun i hi => ?_)
  refine MTot.bind (rngRandrange_tot hi.2) (fun j _ => ?_)
  refine MTot.bind (rngRandrange_tot (by omega)) (fun pos hpos => ?_)
  refine MTot.bind (rngRandrange_all (by norm_num)) (fun k _ => ?_)
  refine MTot.pure (app_ne_left (app_ne_left (take_ne_nil h (by omega)) _) _)

theorem mocVararg_tot {cmd0 : List Nat} {out : List (List Nat)} (h : out ≠ []) :
    MTot (mocVararg cmd0 out) nonNil := by
  unfold mocVararg
  refine MTot.ite _ (fun _ => ?_) (fun _ => MTot.pure h)
  refine MTot.bind rngRandomM_tot (fun v _ => ?_)
  refine MTot.ite _ (fun _ => ?_) (fun _ => MTot.pure h)
  refine MTot.bind (rngRandrange_all (by norm_num)) (fun extra _ => ?_)
  refine MTot.ite _ (fun _ => ?_) (fun _ => ?_)
  · exact MAll.bind_ne (gen_kv_pair_list_tot _) (fun xs => MTot.pure (app_ne_left h _))
  refine MTot.ite _ (fun _ => ?_) (fun _ => ?_)
  · exact MAll.bind_ne (gen_zadd_pairs_tot _) (fun xs => MTot.pure (app_ne_left h _))
  refine MTot.ite _ (fun _ => ?_) (fun _ => ?_)
  · exact MAll.bind_ne (mRep_all gen_key_tot _) (fun xs => MTot.pure (app_ne_left h _))
  refine MTot.ite _ (fun _ => ?_) (fun _ => ?_)
  · exact MAll.bind_ne (mRep_all gen_field_tot _) (fun xs => MTot.pure (app_ne_left h _))
  · exact MAll.bind_ne (mRep_all gen_value_tot _) (fun xs => MTot.pure (app_ne_left h _))

theorem mutArgsGo_tot : ∀ (l : List (List Nat)), MAll (mutArgsGo l)
  | [] => MTot.pure trivial
  | a :: rest => by
    unfold mutArgsGo
    refine MTot.bind (P := fun _ => True) ?_ (fun a2 _ => ?_)
    · refine MAll.bind_all rngRandomM_tot (fun v => ?_)
      refine MTot.ite _ (fun _ => ?_) (fun _ => MTot.pure trivial)
      exact MTot.ite _ (fun _ => mutate_int_str_tot a) (fun _ => mutate_string_tot a)
    · exact MAll.bind_all (mutArgsGo_tot rest) (fun r2 => MTot.pure trivial)

theorem mutate_varlen_tot {argv : List (List Nat)} (h : argv ≠ []) :
    MTot (mutate_varlen_stream_ids argv) nonNil := by
  unfold mutate_varlen_stream_ids
  repeat'
    first
    | exact MTot.pure h
    | exact MTot.pure (List.cons_ne_nil _ _)
    | exact MTot.pure trivial
    | exact gen_key_tot
    | exact gen_stream_id_tot
    | exact rngRandomM_tot
    | exact gen_stream_ids_tot _
    | exact globChoice_all GROUPS_ne
    | exact rngChoice_all (List.cons_ne_nil _ _)
    | exact rngRandrange_all (by norm_num)
    | apply MTot.ifLt
    | apply MTot.ite
    | apply MAll.bind_ne
    | apply MAll.bind_all
    | intro _

theorem mutate_one_core_tot (out0 : List (List Nat)) (cmd0 : List Nat) :
    MTot (mutate_one_core out0 cmd0) nonNil := by
  unfold mutate_one_core
  refine MTot.bind (P := fun _ => True)
    (MTot.ifLt _ (MTot.pure trivial) (mutate_string_tot _)) (fun h _ => ?_)
  refine MTot.bind (mutArgsGo_tot out0.tail) (fun tail2 _ => ?_)
  refine MTot.bind (mocInsert_tot (List.cons_ne_nil _ _)) (fun o1 h1 => ?_)
  refine MTot.bind (mocDelete_tot h1) (fun o2 h2 => ?_)
  refine MTot.bind (mocDup_tot h2) (fun o3 h3 => ?_)
  refine MTot.bind (mocVararg_tot h3) (fun o4 h4 => ?_)
  refine MTot.pure ?_
  split
  · exact take_ne_nil h4 (by decide)
  · exact h4

theorem mutate_one_command_tot {argv : List (List Nat)} (h : argv ≠ []) :
    MTot (mutate_one_command argv) nonNil := by
  unfold mutate_one_command
  refine MTot.ite _ (fun hc => absurd hc h) (fun _ => ?_)
  refine MTot.ifLt _ gen_any_command_tot ?_
  refine MTot.ite _ (fun _ => ?_) (fun _ => mutate_one_core_tot _ _)
  exact MTot.ifLt _ (mutate_varlen_tot h) (mutate_one_core_tot _ _)

/- chunk 3: program-level mutation -/

def progOk (l : List (List (List Nat))) : Prop := l ≠ [] ∧ ∀ c ∈ l, c ≠ []

theorem set_progOk {cmds : List (List (List Nat))} {c2 : List (List Nat)}
    (h : progOk cmds) (hc : c2 ≠ []) (i : Nat) : progOk (cmds.set i c2) := by
  refine ⟨fun he => h.1 (List.length_eq_zero.mp ?_), fun c hcm => ?_⟩
  · have h2 := congrArg List.length he
    simpa [List.length_set] using h2
  · rcases List.mem_or_eq_of_mem_set hcm with hm | rfl
    · exact h.2 c hm
    · exact hc

theorem batchGo_tot : ∀ (n : Nat) {cmds : List (List (List Nat))}, progOk cmds →
    MTot (batchGo cmds n) progOk
  | 0, cmds, h => MTot.pure h
  | n + 1, cmds, h => by
    unfold batchGo
    have hl : 0 < cmds.length := List.length_pos.mpr h.1
    refine MTot.bind (rngRandrangeN_tot (by omega)) (fun idx hidx => ?_)
    have hin : cmds.getD idx.toNat [] ∈ cmds := getD_mem _ _ _ (by omega)
    refine MTot.bind (mutate_one_command_tot (h.2 _ hin)) (fun c2 hc2 => ?_)
    exact batchGo_tot n (set_progOk h hc2 _)

theorem rewriteGo_tot : ∀ (l : List (List (List Nat))), (∀ c ∈ l, c ≠ []) →
    MTot (rewriteGo l) (fun r => r.length = l.length ∧ ∀ c ∈ r, c ≠ [])
  | [], _ => MTot.pure (by simp)
  | c :: rest, h => by
    unfold rewriteGo
    refine MTot.bind (P := fun x => x ≠ [])
      (MTot.ifLt _ gen_any_command_tot (MTot.pure (h c (by simp)))) (fun c2 hc2 => ?_)
    refine MTot.bind (rewriteGo_tot rest (fun x hx => h x (List.mem_cons_of_mem _ hx)))
      (fun r2 hr2 => ?_)
    refine MTot.pure ⟨by simp [hr2.1], ?_⟩
    intro x hx
    rcases List.mem_cons.mp hx with rfl | hx2
    · exact hc2
    · exact hr2.2 x hx2

theorem mutateAction_tot (action : Int) {cmds : List (List (List Nat))}
    (h : progOk cmds) : MTot (mutateAction action cmds) progOk := by
  unfold mutateAction
  have hl : 0 < cmds.length := List.length_pos.mpr h.1
  refine MTot.ite _ (fun _ => ?_) (fun _ => ?_)
  · -- action 0: mutate one command in place
    refine MTot.bind (rngRandrangeN_tot (by omega)) (fun idx hidx => ?_)
    have hin : cmds.getD idx.toNat [] ∈ cmds := getD_mem _ _ _ (by omega)
    refine MTot.bind (mutate_one_command_tot (h.2 _ hin)) (fun c2 hc2 => ?_)
    exact MTot.pure (set_progOk h hc2 _)
  refine MTot.ite _ (fun _ => ?_) (fun _ => ?_)
  · -- action 1: batch
    refine MTot.bind (rngRandrange_all (by omega)) (fun n _ => ?_)
    exact batchGo_tot _ h
  refine MTot.ite _ (fun _ => ?_) (fun _ => ?_)
  · -- action 2: insert a fresh command
    refine MTot.bind (rngRandrangeN_tot (by omega)) (fun idx _ => ?_)
    refine MTot.bind gen_any_command_tot (fun c hc => ?_)
    refine MTot.pure ⟨app3_ne _ _ _, ?_⟩
    intro x hx
    rcases List.mem_append.mp hx with hx1 | hx2
    · rcases List.mem_append.mp hx1 with hx3 | hx4
      · exact h.2 x (List.take_subset _ _ hx3)
      · rw [List.mem_singleton.mp hx4]; exact hc
    · exact h.2 x (List.drop_subset _ _ hx2)
  refine MTot.ite _ (fun hc3 => ?_) (fun _ => ?_)
  · -- action 3 with more than one command: delete
    obtain ⟨-, hlen⟩ := hc3
    refine MTot.bind (rngRandrangeN_tot (by omega)) (fun idx hidx => ?_)
    refine MTot.pure ⟨List.length_pos.mp ?_, ?_⟩
    · simp only [List.length_append, List.length_take, List.length_drop]
      omega
    · intro x hx
      rcases List.mem_append.mp hx with hx1 | hx2
      · exact h.2 x (List.take_subset _ _ hx1)
      · exact h.2 x (List.drop_subset _ _ hx2)
  refine MTot.ite _ (fun _ => ?_) (fun _ => ?_)
  · -- action 4: shuffle
    exact (rngShuffle_tot h.2).mono
      (fun r hr => ⟨List.length_pos.mp (by rw [hr.1]; exact hl), hr.2⟩)
  refine MTot.ite _ (fun _ => ?_) (fun _ => ?_)
  · -- action 5: block duplication
    refine MTot.bind (rngRandrangeN_tot (by omega)) (fun i hi => ?_)
    refine MTot.bind (rngRandrange_tot hi.2) (fun j _ => ?_)
    refine MTot.bind (rngRandrangeN_tot (by omega)) (fun pos hpos => ?_)
    refine MTot.bind (rngRandrange_all (by norm_num)) (fun k _ => ?_)
    refine MTot.pure ⟨?_, ?_⟩
    · intro he
      simp only [List.append_eq_nil] at he
      exact h.1 (by rw [← List.take_append_drop pos.toNat cmds, he.1.1, he.2]; rfl)
    · intro x hx
      rcases List.mem_append.mp hx with hx1 | hx2
      · rcases List.mem_append.mp hx1 with hx3 | hx4
        · exact h.2 x (List.take_subset _ _ hx3)
        · have hb : x ∈ (if j > i then pySliceII cmds i j else [cmds.getD i.toNat []]) := by
            rcases List.mem_flatten.mp hx4 with ⟨lb, hlb, hxlb⟩
            rw [← List.eq_of_mem_replicate hlb]
            exact hxlb
          split at hb
          · exact h.2 x (sliceII_subset _ _ _ _ hb)
          · rw [List.mem_singleton.mp hb]
            exact h.2 _ (getD_mem _ _ _ (by omega))
      · exact h.2 x (List.drop_subset _ _ hx2)
  refine MTot.ite _ (fun _ => ?_) (fun _ => ?_)
  · -- action 6: XADD/XGROUP/XACKDEL block
    refine MTot.bind gen_key_tot (fun stream _ => ?_)
    refine MTot.bind (globChoice_all GROUPS_ne) (fun group _ => ?_)
    refine MTot.bind (gen_xackdel_like_tot _) (fun x hx => ?_)
    refine MTot.pure ⟨by simp, ?_⟩
    intro c hcm
    rcases List.mem_append.mp hcm with hc1 | hc2
    · rcases List.mem_cons.mp hc1 with rfl | hc3
      · exact List.cons_ne_nil _ _
      · rcases List.mem_cons.mp hc3 with rfl | hc4
        · exact List.cons_ne_nil _ _
        · exact h.2 c hc4
    · rw [List.mem_singleton.mp hc2]
      exact hx
  · -- else: rewrite
    exact (rewriteGo_tot _ h.2).mono
      (fun r hr => ⟨List.length_pos.mp (by rw [hr.1]; exact hl), hr.2⟩)

theorem mutateRest_tot {cmds : List (List (List Nat))} (h : progOk cmds) :
    MTot (mutateRest cmds)
      (fun r => r ≠ [] ∧ r.length ≤ MAX_CMDS ∧ ∀ c ∈ r, c ≠ []) := by
  unfold mutateRest
  refine MTot.bind (rngRandrangeN_tot (by norm_num)) (fun action _ => ?_)
  refine MTot.bind (mutateAction_tot action h) (fun r hr => ?_)
  refine MTot.pure ?_
  split
  next hgt =>
    exact ⟨take_ne_nil hr.1 (by decide),
      by simp only [List.length_take]; omega,
      fun c hc => hr.2 c (List.take_subset _ _ hc)⟩
  next hle => exact ⟨hr.1, by omega, hr.2⟩

theorem bootstrapProg_tot :
    MTot bootstrapProg (fun l => 1 ≤ l.length ∧ l.length ≤ 7 ∧ ∀ c ∈ l, c ≠ []) := by
  unfold bootstrapProg
  refine MTot.bind (rngRandrange_tot (by norm_num)) (fun k hk => ?_)
  refine (mRep_tot gen_any_command_tot k.toNat).mono ?_
  rintro l ⟨hlen, hmem⟩
  exact ⟨by omega, by omega, fun c hc => hmem c hc⟩

theorem mutate_program_tot (cmds0 : List (List (List Nat))) :
    MTot (mutate_program cmds0)
      (fun r => r ≠ [] ∧ r.length ≤ MAX_CMDS ∧ ∀ c ∈ r, c ≠ []) := by
  unfold mutate_program
  refine MTot.bind (P := progOk) (MTot.ite _ (fun _ => ?_) (fun hne => ?_))
    (fun cmds hc => mutateRest_tot hc)
  · exact bootstrapProg_tot.mono (fun l hl =>
      ⟨List.length_pos.mp (Nat.lt_of_lt_of_le Nat.zero_lt_one hl.1), hl.2.2⟩)
  · refine MTot.pure ⟨?_, ?_⟩
    · intro he
      exact hne (by rw [he]; rfl)
    · intro c hcm
      have h2 := of_decide_eq_true (List.mem_filter.mp hcm).2
      intro he
      exact h2 (by rw [he]; rfl)

/- chunk 4: rendering and fuzz -/

theorem pyQuote_tot (tok : List Nat) : MAll (pyQuote tok) := by
  unfold pyQuote
  refine MTot.ite _ (fun _ => ?_) (fun _ => ?_)
  · exact MTot.ite _ (fun _ => MTot.pure trivial) (fun _ => MTot.pure trivial)
  · refine MAll.bind_all (MAll.bind_all rngRandomM_tot (fun v => MTot.pure trivial))
      (fun q => ?_)
    exact MTot.ite _ (fun _ => MTot.pure trivial) (fun _ => MTot.pure trivial)

theorem renderLinesGo_tot : ∀ (l : List (List (List Nat))), MAll (renderLinesGo l)
  | [] => MTot.pure trivial
  | argv :: rest => by
    unfold renderLinesGo
    refine MTot.ite _ (fun _ => renderLinesGo_tot rest) (fun _ => ?_)
    refine MTot.bind (mMap_all pyQuote_tot argv) (fun qs _ => ?_)
    exact MAll.bind_all (renderLinesGo_tot rest) (fun r2 => MTot.pure trivial)

theorem render_inline_tot (cmds : List (List (List Nat))) : MAll (render_inline cmds) := by
  unfold render_inline
  exact MAll.bind_all (renderLinesGo_tot cmds) (fun lines => MTot.pure trivial)

theorem spliceCut1_tot (cmds : List (List (List Nat))) : MAll (spliceCut1 cmds) := by
  unfold spliceCut1
  refine MTot.ite _ (fun _ => ?_) (fun _ => MTot.pure trivial)
  exact MAll.bind_all (rngRandrange_all (by omega)) (fun c => MTot.pure trivial)

theorem spliceDonor_tot (cmds : List (List (List Nat))) (add_buf : Option (List Nat)) :
    MAll (spliceDonor cmds add_buf) := by
  unfold spliceDonor
  match add_buf with
  | none => exact MTot.pure trivial
  | some ab =>
    refine MTot.ite _ (fun _ => ?_) (fun _ => MTot.pure trivial)
    refine MTot.ifLt _ ?_ (MTot.pure trivial)
    refine MTot.ite _ (fun _ => ?_) (fun _ => MTot.pure trivial)
    refine MAll.bind_all (spliceCut1_tot _) (fun cut1 => ?_)
    exact MAll.bind_all (rngRandrange_all (by omega)) (fun cut2 => MTot.pure trivial)

theorem slice0_len_le {α : Type} (l : List α) (b : Int) (hb : 0 ≤ b) :
    ((pySliceII l 0 b).length : Int) ≤ b := by
  unfold pySliceII pyIdx
  rw [if_neg (by omega : ¬ (0:Int) < 0), if_neg (by omega : ¬ b < 0)]
  simp only [List.length_drop, List.length_take]
  omega

theorem fuzz_tot (buf : List Nat) (add_buf : Option (List Nat)) (max_size : Int)
    (fmtResp : Bool) (h : 0 ≤ max_size) :
    MTot (fuzz buf add_buf max_size fmtResp)
      (fun out => (out.length : Int) ≤ max_size) := by
  unfold fuzz
  refine MTot.bind (spliceDonor_tot _ _) (fun cmds _ => ?_)
  refine MTot.bind (mutate_program_tot cmds) (fun mutated _ => ?_)
  refine MTot.bind (P := fun _ => True)
    (MTot.ite _ (fun _ => MTot.pure trivial) (fun _ => render_inline_tot _))
    (fun out _ => ?_)
  refine MTot.pure ?_
  split
  next hgt => exact slice0_len_le _ _ h
  next hle => omega

/- ====================================================================
   Concrete random-source states for the claim theorems: `constS l g`
   replays `l` on the per-call (hash-seeded) stream and `g` on the
   process-global random-module stream, then repeats 0.
   ==================================================================== -/

def constS (l g : List Nat) : PyRand :=
  ⟨⟨fun i => l.getD i 0, 0⟩, ⟨fun i => g.getD i 0, 0⟩⟩
/- claim theorems C1, C6, C9, C10 -/

set_option maxRecDepth 1000000

/-- C1: the spec's determinism property — two `fuzz` calls with identical
(buffer, donor, max_size) produce byte-identical output, all randomness
coming from one RNG seeded per call from a hash of the input — is FALSE
of the code: holding the hash-seeded per-call stream fixed, two states of
the process-global `random` module give different output bytes for
identical arguments, because the generators call the global module
(`random.choice(...)`, module-level `random.random()`) throughout. -/
theorem c1_fuzz_depends_on_global_random_state :
    (constS [0, 0, 1, 0, 4, 999999, 999999] [0]).loc =
      (constS [0, 0, 1, 0, 4, 999999, 999999] [1]).loc
    ∧ (fuzz [] none 100 false (constS [0, 0, 1, 0, 4, 999999, 999999] [0])).map
        (fun p => p.1) = some (pstr "ACL k\x0a")
    ∧ (fuzz [] none 100 false (constS [0, 0, 1, 0, 4, 999999, 999999] [1])).map
        (fun p => p.1) = some (pstr "ACL k1\x0a")
    ∧ pstr "ACL k\x0a" ≠ pstr "ACL k1\x0a" :=
  ⟨rfl, by decide, by decide, by decide⟩

/-- C6 counterexample: with a negative byte budget (`max_size = -1`, as a
caller could pass) `fuzz` still returns a 5-byte buffer, exceeding
max_size — the final cap `out[:max_size]` does not enforce the budget for
negative max_size, so the claim's "for every max_size" is too strong. -/
theorem c6_negative_budget_exceeded :
    (fuzz [] none (-1) false (constS [] [])).map (fun p => p.1) =
        some [34, 65, 67, 76, 34]
      ∧ ¬ ((([34, 65, 67, 76, 34] : List Nat).length : Int) ≤ -1) :=
  ⟨by decide, by decide⟩

/-- C6 (amended): for every buffer, optional donor and NON-NEGATIVE
max_size, `fuzz` completes from every random-source state (never raises)
and the returned buffer never exceeds max_size bytes. -/
theorem c6_fuzz_total_and_bounded (buf : List Nat) (add_buf : Option (List Nat))
    (max_size : Int) (fmtResp : Bool) (s : PyRand) (h : 0 ≤ max_size) :
    ∃ out s2, fuzz buf add_buf max_size fmtResp s = some (out, s2) ∧
      (out.length : Int) ≤ max_size := by
  obtain ⟨out, s2, h1, h2⟩ := fuzz_tot buf add_buf max_size fmtResp h s
  exact ⟨out, s2, h1, h2⟩

theorem c6_fuzz_total_and_bounded_witness :
    (0 : Int) ≤ 4 ∧ ∃ out s2, fuzz [] none 4 false (constS [] []) = some (out, s2) ∧
      (out.length : Int) ≤ 4 :=
  ⟨by decide, c6_fuzz_total_and_bounded [] none 4 false (constS [] []) (by decide)⟩

/-- C9: when the decoded Program contains no non-empty command,
`mutate_program` never mutates it in place: it first synthesizes a fresh
Program of between 1 and 8 (in fact 1–7) freshly generated commands with
`[gen_any_command(rng) for _ in range(rng.randrange(1, 8))]`, and the
mutation action then proceeds on that fresh Program. -/
theorem c9_empty_program_bootstraps (cmds0 : List (List (List Nat)))
    (h : cmds0.filter (fun c => ¬ c.isEmpty) = []) (s : PyRand) :
    ∃ fresh s1, bootstrapProg s = some (fresh, s1)
      ∧ 1 ≤ fresh.length ∧ fresh.length ≤ 8
      ∧ mutate_program cmds0 s = mutateRest fresh s1 := by
  obtain ⟨fresh, s1, hrun, h1, h2, -⟩ := bootstrapProg_tot s
  refine ⟨fresh, s1, hrun, h1, by omega, ?_⟩
  unfold mutate_program
  simp only [h, List.isEmpty_nil]
  rw [if_pos trivial, bind_run, hrun]

theorem c9_empty_program_bootstraps_witness :
    ([] : List (List (List Nat))).filter (fun c => ¬ c.isEmpty) = [] ∧
    ∃ fresh s1, bootstrapProg (constS [] []) = some (fresh, s1)
      ∧ 1 ≤ fresh.length ∧ fresh.length ≤ 8
      ∧ mutate_program [] (constS [] []) = mutateRest fresh s1 :=
  ⟨rfl, c9_empty_program_bootstraps [] rfl (constS [] [])⟩

/-- C10: for every input command sequence (empty included) and every
random-source state, `mutate_program` completes and returns a Program
with at least one Command, at most MAX_CMDS Commands, and no Command
empty of arguments. -/
theorem c10_mutate_program_invariants (cmds0 : List (List (List Nat))) (s : PyRand) :
    ∃ res s2, mutate_program cmds0 s = some (res, s2)
      ∧ 1 ≤ res.length ∧ res.length ≤ MAX_CMDS ∧ ∀ c ∈ res, c ≠ [] := by
  obtain ⟨res, s2, h1, h2, h3, h4⟩ := mutate_program_tot cmds0 s
  exact ⟨res, s2, h1, List.length_pos.mpr h2, h3, h4⟩
